import Mathlib

/-!
Verification development for the xray-dnstt-manager supervisor.

Shallow embedding of the repository's four modules:

* `health_checker.py` — stateless probes, modelled over an outcome oracle
  (`ProbeEnv`): the underlying socket / HTTP calls either return a value or
  raise, and raising is modelled as an error outcome.
* `xui_client.py` — the 3x-ui registry client, modelled as a pure function of
  a response oracle (`XuiEnv`); it returns its result, the final client state
  and a trace of the requests, logins and sleeps it performed.
* `tunnel_manager.py` — the supervisor.  Python dicts become association
  lists (insertion ordered, unique keys, in-place value mutation), process
  spawns and probes become per-call outcome records supplied by an
  environment, and the registry becomes an explicit list of
  (id, remark) entries held in the manager state.  The `last_check`
  wall-clock timestamp field is not modelled (real time); the
  `process` handle and `pid` fields of a record are always set and cleared
  together in the source, so they are merged into a single `pid` field.
-/

/-! ## Association lists (Python dict: insertion order, unique keys) -/

def alLookup {α β : Type} [DecidableEq α] (k : α) : List (α × β) → Option β
  | [] => none
  | e :: rest => if e.1 = k then some e.2 else alLookup k rest

/-- In-place mutation of the value stored at a key (Python object mutation). -/
def alUpdate {α β : Type} [DecidableEq α] (k : α) (f : β → β) (l : List (α × β)) :
    List (α × β) :=
  l.map (fun e => if e.1 = k then (e.1, f e.2) else e)

/-- Python dict assignment: overwrite in place when present, append otherwise. -/
def alInsert {α β : Type} [DecidableEq α] (k : α) (v : β) (l : List (α × β)) :
    List (α × β) :=
  match alLookup k l with
  | some _ => alUpdate k (fun _ => v) l
  | none => l ++ [(k, v)]

theorem alLookup_eq_none {α β : Type} [DecidableEq α] {k : α} {l : List (α × β)} :
    alLookup k l = none ↔ ∀ e ∈ l, e.1 ≠ k := by
  induction l with
  | nil => simp [alLookup]
  | cons e rest ih =>
    by_cases h : e.1 = k <;> simp [alLookup, h, ih]

theorem alLookup_mem {α β : Type} [DecidableEq α] {k : α} {l : List (α × β)} {v : β}
    (h : alLookup k l = some v) : (k, v) ∈ l := by
  induction l with
  | nil => simp [alLookup] at h
  | cons e rest ih =>
    by_cases he : e.1 = k
    · simp [alLookup, he] at h
      subst he h
      exact List.mem_cons_self _ _
    · simp [alLookup, he] at h
      exact List.mem_cons_of_mem _ (ih h)

theorem alLookup_isSome_of_mem {α β : Type} [DecidableEq α] {k : α} {l : List (α × β)}
    {v : β} (h : (k, v) ∈ l) : ∃ w, alLookup k l = some w := by
  induction l with
  | nil => simp at h
  | cons e rest ih =>
    by_cases he : e.1 = k
    · exact ⟨e.2, by simp [alLookup, he]⟩
    · rcases List.mem_cons.mp h with h1 | h1
      · exact absurd (congrArg Prod.fst h1.symm) he
      · rcases ih h1 with ⟨w, hw⟩
        exact ⟨w, by simp [alLookup, he, hw]⟩

theorem alUpdate_keys {α β : Type} [DecidableEq α] (k : α) (f : β → β)
    (l : List (α × β)) : (alUpdate k f l).map Prod.fst = l.map Prod.fst := by
  induction l with
  | nil => rfl
  | cons e rest ih =>
    by_cases h : e.1 = k <;> simp [alUpdate, h] at ih ⊢ <;> simpa [alUpdate] using ih

theorem mem_alUpdate_elim {α β : Type} [DecidableEq α] {k : α} {f : β → β}
    {l : List (α × β)} {e : α × β} (h : e ∈ alUpdate k f l) :
    (e.1 = k ∧ ∃ b, (k, b) ∈ l ∧ e.2 = f b) ∨ (e.1 ≠ k ∧ e ∈ l) := by
  rcases List.mem_map.mp h with ⟨e0, he0, heq⟩
  by_cases h0 : e0.1 = k
  · subst h0
    rw [if_pos rfl] at heq
    subst heq
    left
    refine ⟨rfl, e0.2, ?_, rfl⟩
    simpa using he0
  · rw [if_neg h0] at heq
    subst heq
    exact Or.inr ⟨h0, he0⟩

theorem mem_alUpdate_of_ne {α β : Type} [DecidableEq α] {k : α} (f : β → β)
    {l : List (α × β)} {e : α × β} (h : e ∈ l) (hne : e.1 ≠ k) :
    e ∈ alUpdate k f l := by
  refine List.mem_map.mpr ⟨e, h, ?_⟩
  simp [hne]

theorem alLookup_alUpdate_self {α β : Type} [DecidableEq α] (k : α) (f : β → β)
    (l : List (α × β)) : alLookup k (alUpdate k f l) = (alLookup k l).map f := by
  induction l with
  | nil => rfl
  | cons e rest ih =>
    simp only [alUpdate, List.map] at ih ⊢
    by_cases h : e.1 = k
    · simp [alLookup, h]
    · simp [alLookup, h, ih]

theorem alLookup_alUpdate_ne {α β : Type} [DecidableEq α] {k k' : α} (f : β → β)
    (l : List (α × β)) (hne : k' ≠ k) :
    alLookup k' (alUpdate k f l) = alLookup k' l := by
  induction l with
  | nil => rfl
  | cons e rest ih =>
    simp only [alUpdate, List.map] at ih ⊢
    by_cases h : e.1 = k
    · have h2 : ¬ (e.1 = k') := by
        intro hc
        rw [h] at hc
        exact hne hc.symm
      simp [alLookup, h, h2, Ne.symm hne, ih]
    · simp [alLookup, h, ih]

theorem alLookup_append {α β : Type} [DecidableEq α] (k : α) (l1 l2 : List (α × β)) :
    alLookup k (l1 ++ l2) =
      match alLookup k l1 with
      | some v => some v
      | none => alLookup k l2 := by
  induction l1 with
  | nil => simp [alLookup]
  | cons e rest ih =>
    by_cases h : e.1 = k <;> simp [alLookup, h, ih]

theorem mem_alInsert_elim {α β : Type} [DecidableEq α] {k : α} {v : β}
    {l : List (α × β)} {e : α × β} (h : e ∈ alInsert k v l) :
    (e.1 = k ∧ e.2 = v) ∨ (e ∈ l ∧ e.1 ≠ k) := by
  unfold alInsert at h
  cases hl : alLookup k l with
  | some w =>
    rw [hl] at h
    rcases mem_alUpdate_elim h with ⟨h1, _, _, h3⟩ | ⟨h1, h2⟩
    · exact Or.inl ⟨h1, h3⟩
    · exact Or.inr ⟨h2, h1⟩
  | none =>
    rw [hl] at h
    rcases List.mem_append.mp h with h1 | h1
    · exact Or.inr ⟨h1, (alLookup_eq_none.mp hl) e h1⟩
    · simp at h1
      subst h1
      exact Or.inl ⟨rfl, rfl⟩

theorem alInsert_keys_nodup {α β : Type} [DecidableEq α] {k : α} {v : β}
    {l : List (α × β)} (h : (l.map Prod.fst).Nodup) :
    ((alInsert k v l).map Prod.fst).Nodup := by
  unfold alInsert
  cases hl : alLookup k l with
  | some w => rw [alUpdate_keys]; exact h
  | none =>
    have hk : k ∉ l.map Prod.fst := by
      intro hc
      rcases List.mem_map.mp hc with ⟨e, he, hek⟩
      exact (alLookup_eq_none.mp hl) e he hek
    rw [List.map_append]
    refine List.Nodup.append h (List.nodup_singleton k) ?_
    intro a ha hb
    simp at hb
    subst hb
    exact hk ha

theorem alLookup_alInsert_self {α β : Type} [DecidableEq α] (k : α) (v : β)
    (l : List (α × β)) : alLookup k (alInsert k v l) = some v := by
  unfold alInsert
  cases hl : alLookup k l with
  | some w => rw [alLookup_alUpdate_self, hl]; rfl
  | none => rw [alLookup_append, hl]; simp [alLookup]

/-! ## Tunnel records (`tunnel_manager.py`) -/

/-- `TunnelState` enumeration. -/
inductive TunnelState where
  | starting
  | running
  | failed
  | stopping
  | stopped
deriving DecidableEq

/-- `DNSTTTunnel` dataclass (the `process`/`pid` pair is merged into `pid`,
`last_check` is not modelled). -/
structure DNSTTTunnel where
  tunnel_id : Nat
  local_port : Nat
  pid : Option Nat := none
  state : TunnelState := .stopped
  restart_count : Nat := 0
deriving DecidableEq

/-- `SSHTunnel` dataclass (same conventions as `DNSTTTunnel`). -/
structure SSHTunnel where
  tunnel_id : Nat
  ssh_id : Nat
  socks5_port : Nat
  pid : Option Nat := none
  state : TunnelState := .stopped
  restart_count : Nat := 0
  xui_outbound_id : Option String := none
deriving DecidableEq

/-- The `tunnels` / `restart` configuration read in `TunnelManager.__init__`
(defaults in the source: 3, 10, 1080, 9090, 100, 5). -/
structure Config where
  dnstt_count : Nat
  ssh_per_dnstt : Nat
  dnstt_start_port : Nat
  socks_start_port : Nat
  socks_ports_per_tunnel : Nat
  max_retries : Nat
deriving DecidableEq

/-- Mutable supervisor state: the two fleet dicts plus the external registry,
modelled as the list of (outbound id, remark) entries currently registered. -/
structure ManagerState where
  dnstt_tunnels : List (Nat × DNSTTTunnel)
  ssh_tunnels : List ((Nat × Nat) × SSHTunnel)
  registry : List (String × String)
deriving DecidableEq

def ManagerState.empty : ManagerState := ⟨[], [], []⟩

/-- One spawn attempt of a DNSTT child: whether the spawn survived the settle
checks, and the pid it got when it did. -/
structure StartOutcome where
  ok : Bool
  pid : Nat
deriving DecidableEq

/-- One spawn attempt of an SSH child: additionally, the outbound id the
registry add returned (`none` models a failed `add_socks5_outbound`). -/
structure SshStartOutcome where
  ok : Bool
  pid : Nat
  outbound : Option String
deriving DecidableEq

/-! ## Supervisor operations (`TunnelManager`) -/

/-- `DNSTTTunnel.is_alive` / `SSHTunnel.is_alive`: `False` when no pid is
recorded, otherwise `psutil.pid_exists(pid)` as answered by the environment. -/
def pidAliveWith (pidExists : Nat → Bool) : Option Nat → Bool
  | none => false
  | some p => pidExists p

def setDnstt (s : ManagerState) (d : List (Nat × DNSTTTunnel)) : ManagerState :=
  { s with dnstt_tunnels := d }

def setSsh (s : ManagerState) (d : List ((Nat × Nat) × SSHTunnel)) : ManagerState :=
  { s with ssh_tunnels := d }

def setRegistry (s : ManagerState) (r : List (String × String)) : ManagerState :=
  { s with registry := r }

/-- `TunnelManager.start_dnstt_tunnel`.  All failure paths (spawn exception,
immediate exit, port never listening) leave every record untouched and return
`False`; on success the record — when the id is present — gets the new pid and
state RUNNING, and the call returns `True`. -/
def start_dnstt_tunnel (s : ManagerState) (tunnel_id : Nat) (_local_port : Nat)
    (o : StartOutcome) : ManagerState × Bool :=
  if o.ok then
    (setDnstt s
      (alUpdate tunnel_id
        (fun t => { t with pid := some o.pid, state := .running })
        s.dnstt_tunnels),
     true)
  else (s, false)

/-- The remark string passed to `add_socks5_outbound` in
`TunnelManager.start_ssh_tunnel`. -/
def sshRemark (tunnel_id ssh_id : Nat) : String :=
  "DNSTT-" ++ toString tunnel_id ++ "-SSH-" ++ toString ssh_id

/-- The remark the registry actually stores: `xui_client.add_socks5_outbound`
decorates the caller's remark with `-{host}:{port}` before sending it. -/
def registryRemark (remark : String) (port : Nat) : String :=
  remark ++ "-127.0.0.1:" ++ toString port

/-- `TunnelManager.start_ssh_tunnel`.  On success the SOCKS5 endpoint is
published (when the registry add succeeds, an (id, decorated remark) entry
appears) and the record — when present — becomes RUNNING with the outbound id
recorded. -/
def start_ssh_tunnel (s : ManagerState) (tunnel_id ssh_id : Nat)
    (_dnstt_port socks5_port : Nat) (o : SshStartOutcome) : ManagerState × Bool :=
  if o.ok then
    let s1 :=
      match o.outbound with
      | some oid =>
          setRegistry s
            (s.registry ++ [(oid, registryRemark (sshRemark tunnel_id ssh_id) socks5_port)])
      | none => s
    (setSsh s1
      (alUpdate (tunnel_id, ssh_id)
        (fun c => { c with pid := some o.pid, state := .running, xui_outbound_id := o.outbound })
        s1.ssh_tunnels),
     true)
  else (s, false)

/-- `TunnelManager.stop_ssh_tunnel`.  Absent key: `True`, no effect.  Otherwise
the registry entry is withdrawn (when one is recorded and the registry accepts
the delete) and the record ends STOPPED with pid and outbound id cleared. -/
def stop_ssh_tunnel (s : ManagerState) (tunnel_id ssh_id : Nat)
    (removeOk : Bool) : ManagerState × Bool :=
  match alLookup (tunnel_id, ssh_id) s.ssh_tunnels with
  | none => (s, true)
  | some c =>
    let s1 := setSsh s
      (alUpdate (tunnel_id, ssh_id) (fun u => { u with state := .stopping })
        s.ssh_tunnels)
    let s2 :=
      match c.xui_outbound_id with
      | some oid =>
          if removeOk then
            setRegistry s1 (s1.registry.filter (fun e => !(e.1 == oid)))
          else s1
      | none => s1
    (setSsh s2
      (alUpdate (tunnel_id, ssh_id)
        (fun u => { u with state := .stopped, pid := none, xui_outbound_id := none })
        s2.ssh_tunnels),
     true)

/-- `TunnelManager.stop_dnstt_tunnel`.  Absent id: `True`, no effect.
Otherwise: mark STOPPING, stop every SSH child with this `tunnel_id` (in fleet
order), terminate the process group, and end STOPPED with no pid. -/
def stop_dnstt_tunnel (s : ManagerState) (tunnel_id : Nat)
    (removeOk : Nat → Bool) : ManagerState × Bool :=
  match alLookup tunnel_id s.dnstt_tunnels with
  | none => (s, true)
  | some _ =>
    let s1 := setDnstt s
      (alUpdate tunnel_id (fun t => { t with state := .stopping })
        s.dnstt_tunnels)
    let childIds :=
      (s1.ssh_tunnels.filter (fun ce => ce.1.1 == tunnel_id)).map
        (fun ce => ce.2.ssh_id)
    let s2 := childIds.foldl
      (fun acc sid => (stop_ssh_tunnel acc tunnel_id sid (removeOk sid)).1) s1
    (setDnstt s2
      (alUpdate tunnel_id (fun t => { t with state := .stopped, pid := none })
        s2.dnstt_tunnels),
     true)

/-- The DNSTT record `initialize_tunnels` creates for a tunnel id: note the
source passes `state=TunnelState.STARTING` explicitly. -/
def freshParent (cfg : Config) (tunnel_id : Nat) : DNSTTTunnel :=
  { tunnel_id := tunnel_id, local_port := cfg.dnstt_start_port + tunnel_id,
    pid := none, state := .starting, restart_count := 0 }

/-- The SSH record `initialize_tunnels` creates for a key: state STOPPED, and
`socks5_port = socks_start_port + tunnel_id * socks_ports_per_tunnel + ssh_id`. -/
def freshChild (cfg : Config) (tunnel_id ssh_id : Nat) : SSHTunnel :=
  { tunnel_id := tunnel_id, ssh_id := ssh_id,
    socks5_port := cfg.socks_start_port + tunnel_id * cfg.socks_ports_per_tunnel + ssh_id,
    pid := none, state := .stopped, restart_count := 0, xui_outbound_id := none }

/-- Record-creation phase of `TunnelManager.initialize_tunnels` (the two
"Initialize" loops): DNSTT records are created in state STARTING, SSH records
in state STOPPED, before any child process is spawned. -/
def createRecords (cfg : Config) (s : ManagerState) : ManagerState :=
  let d := (List.range cfg.dnstt_count).foldl
    (fun m tunnel_id => alInsert tunnel_id (freshParent cfg tunnel_id) m)
    s.dnstt_tunnels
  let sshm := (List.range cfg.dnstt_count).foldl
    (fun m tunnel_id =>
      (List.range cfg.ssh_per_dnstt).foldl
        (fun m2 ssh_id => alInsert (tunnel_id, ssh_id) (freshChild cfg tunnel_id ssh_id) m2)
        m)
    s.ssh_tunnels
  { s with dnstt_tunnels := d, ssh_tunnels := sshm }

/-- One child start during `initialize_tunnels`: the recorded `socks5_port`
is used, and the start only mutates an existing record. -/
def initChildStart (tunnel_id lp : Nat) (envS : Nat → Nat → SshStartOutcome)
    (acc2 : ManagerState) (ssh_id : Nat) : ManagerState :=
  match alLookup (tunnel_id, ssh_id) acc2.ssh_tunnels with
  | none => acc2
  | some c =>
    (start_ssh_tunnel acc2 tunnel_id ssh_id lp c.socks5_port
      (envS tunnel_id ssh_id)).1

/-- Start-up phase of `initialize_tunnels`: start each DNSTT tunnel in id
order; when (and only when) the start reports success, start its SSH sessions
in `ssh_id` order.  A failed child start never aborts the rest of the plan. -/
def startPhase (cfg : Config) (s : ManagerState)
    (envD : Nat → StartOutcome) (envS : Nat → Nat → SshStartOutcome) :
    ManagerState :=
  (List.range cfg.dnstt_count).foldl
    (fun acc tunnel_id =>
      match alLookup tunnel_id acc.dnstt_tunnels with
      | none => acc
      | some t =>
        let r := start_dnstt_tunnel acc tunnel_id t.local_port (envD tunnel_id)
        if r.2 then
          (List.range cfg.ssh_per_dnstt).foldl
            (initChildStart tunnel_id t.local_port envS) r.1
        else r.1)
    s

/-- `TunnelManager.initialize_tunnels`: record creation, then start-up. -/
def initTunnels (cfg : Config) (s : ManagerState)
    (envD : Nat → StartOutcome) (envS : Nat → Nat → SshStartOutcome) :
    ManagerState :=
  startPhase cfg (createRecords cfg s) envD envS

/-- Environment for one monitor pass: probe answers and restart outcomes. -/
structure MonitorEnv where
  pidExists : Nat → Bool
  dnsttPortOk : Nat → Bool
  dnsttRestart : Nat → StartOutcome
  sshHealthy : Nat → Nat → Bool
  sshRestart : Nat → Nat → SshStartOutcome
  removeOk : Nat → Nat → Bool

/-- Body of the DNSTT ("parents") check of `monitor_loop` for one tunnel id. -/
def restartChild (cfg : Config) (env : MonitorEnv) (tunnel_id lp : Nat)
    (a2 : ManagerState) (ssh_id : Nat) : ManagerState :=
  let socks5_port :=
    cfg.socks_start_port + tunnel_id * cfg.socks_ports_per_tunnel + ssh_id
  match alLookup (tunnel_id, ssh_id) a2.ssh_tunnels with
  | none => a2
  | some _ =>
    let a3 := setSsh a2
      (alUpdate (tunnel_id, ssh_id) (fun c => { c with state := .stopped })
        a2.ssh_tunnels)
    (start_ssh_tunnel a3 tunnel_id ssh_id lp socks5_port
      (env.sshRestart tunnel_id ssh_id)).1

def monitorParentBody (cfg : Config) (env : MonitorEnv) (acc : ManagerState)
    (tunnel_id : Nat) : ManagerState :=
  match alLookup tunnel_id acc.dnstt_tunnels with
  | none => acc
  | some t =>
    if t.state ≠ .running then acc
    else
      let alive := pidAliveWith env.pidExists t.pid
      let portOk := env.dnsttPortOk tunnel_id
      if alive && portOk then acc
      else
        let accF := setDnstt acc
          (alUpdate tunnel_id
            (fun u => { u with state := .failed, restart_count := u.restart_count + 1 })
            acc.dnstt_tunnels)
        if t.restart_count + 1 ≤ cfg.max_retries then
          let accS := (stop_dnstt_tunnel accF tunnel_id (env.removeOk tunnel_id)).1
          let r := start_dnstt_tunnel accS tunnel_id t.local_port (env.dnsttRestart tunnel_id)
          if r.2 then
            let accC := (List.range cfg.ssh_per_dnstt).foldl
              (restartChild cfg env tunnel_id t.local_port) r.1
            setDnstt accC
              (alUpdate tunnel_id (fun u => { u with restart_count := 0 })
                accC.dnstt_tunnels)
          else r.1
        else (stop_dnstt_tunnel accF tunnel_id (env.removeOk tunnel_id)).1

/-- Body of the SSH ("children") check of `monitor_loop` for one key.  Skips
children whose parent is absent or not RUNNING, and children not RUNNING. -/
def monitorChildBody (cfg : Config) (env : MonitorEnv) (acc : ManagerState)
    (k : Nat × Nat) : ManagerState :=
  match alLookup k.1 acc.dnstt_tunnels with
  | none => acc
  | some p =>
    if p.state ≠ .running then acc
    else
      match alLookup k acc.ssh_tunnels with
      | none => acc
      | some c =>
        if c.state ≠ .running then acc
        else
          let alive := pidAliveWith env.pidExists c.pid
          let healthy := env.sshHealthy k.1 k.2
          if alive && healthy then acc
          else
            let accF := setSsh acc
              (alUpdate k
                (fun u => { u with state := .failed, restart_count := u.restart_count + 1 })
                acc.ssh_tunnels)
            if c.restart_count + 1 ≤ cfg.max_retries then
              let accS := (stop_ssh_tunnel accF k.1 k.2 (env.removeOk k.1 k.2)).1
              let r := start_ssh_tunnel accS k.1 k.2 p.local_port c.socks5_port
                (env.sshRestart k.1 k.2)
              if r.2 then
                setSsh r.1
                  (alUpdate k (fun u => { u with restart_count := 0 }) r.1.ssh_tunnels)
              else r.1
            else (stop_ssh_tunnel accF k.1 k.2 (env.removeOk k.1 k.2)).1

/-- One pass of `TunnelManager.monitor_loop`: parents over a snapshot of the
DNSTT keys, then children over a snapshot of the SSH keys. -/
def monitor_pass (cfg : Config) (s : ManagerState) (env : MonitorEnv) :
    ManagerState :=
  let s1 := (s.dnstt_tunnels.map Prod.fst).foldl (monitorParentBody cfg env) s
  (s1.ssh_tunnels.map Prod.fst).foldl (monitorChildBody cfg env) s1

/-- `TunnelManager.stop`: stop every DNSTT tunnel (each cascading to its
children) over a snapshot of the DNSTT keys. -/
def shutdownAll (s : ManagerState) (removeOk : Nat → Nat → Bool) : ManagerState :=
  (s.dnstt_tunnels.map Prod.fst).foldl
    (fun acc tunnel_id => (stop_dnstt_tunnel acc tunnel_id (removeOk tunnel_id)).1) s

/-- The supervisor's mutators as the program invokes them: `start_ssh_tunnel`
is called only from inside `initialize_tunnels` and the monitor loop (always
under a parent whose start just succeeded, or one checked RUNNING). -/
inductive Step (cfg : Config) : ManagerState → ManagerState → Prop where
  | init (s : ManagerState) (envD : Nat → StartOutcome)
      (envS : Nat → Nat → SshStartOutcome) :
      Step cfg s (initTunnels cfg s envD envS)
  | startD (s : ManagerState) (tunnel_id local_port : Nat) (o : StartOutcome) :
      Step cfg s (start_dnstt_tunnel s tunnel_id local_port o).1
  | stopD (s : ManagerState) (tunnel_id : Nat) (removeOk : Nat → Bool) :
      Step cfg s (stop_dnstt_tunnel s tunnel_id removeOk).1
  | stopS (s : ManagerState) (tunnel_id ssh_id : Nat) (removeOk : Bool) :
      Step cfg s (stop_ssh_tunnel s tunnel_id ssh_id removeOk).1
  | monitor (s : ManagerState) (env : MonitorEnv) :
      Step cfg s (monitor_pass cfg s env)
  | drain (s : ManagerState) (removeOk : Nat → Nat → Bool) :
      Step cfg s (shutdownAll s removeOk)

/-- States reachable from a freshly constructed manager. -/
inductive Reach (cfg : Config) : ManagerState → Prop where
  | base : Reach cfg ManagerState.empty
  | step {s s' : ManagerState} : Reach cfg s → Step cfg s s' → Reach cfg s'

/-- The claim's literal mutator set: additionally allows `start_ssh_tunnel`
to be invoked standalone, as a public method of the manager. -/
inductive StepL (cfg : Config) : ManagerState → ManagerState → Prop where
  | lift {s s' : ManagerState} : Step cfg s s' → StepL cfg s s'
  | startS (s : ManagerState) (tunnel_id ssh_id dnstt_port socks5_port : Nat)
      (o : SshStartOutcome) :
      StepL cfg s (start_ssh_tunnel s tunnel_id ssh_id dnstt_port socks5_port o).1

/-- States reachable when `start_ssh_tunnel` counts as a standalone mutator. -/
inductive ReachL (cfg : Config) : ManagerState → Prop where
  | base : ReachL cfg ManagerState.empty
  | step {s s' : ManagerState} : ReachL cfg s → StepL cfg s s' → ReachL cfg s'

/-! ## Probes (`health_checker.py`) -/

/-- Outcome of one `requests.get` through the SOCKS5 proxy: either an HTTP
response with some status code, or one of the error classes the source
catches (`ProxyError`, `ConnectionError`, `Timeout`, any other exception). -/
inductive HttpOutcome where
  | response (status : Nat)
  | proxyError
  | connectionError
  | timeout
  | otherExn
deriving DecidableEq

/-- Network oracle for one `HealthChecker`: the result of a TCP
`connect_ex(host, port)` (`Except.error` models a raised exception,
`Except.ok r` the returned code), and the outcome of an HTTP GET through
`socks5://host:port` to a test URL. -/
structure ProbeEnv where
  connect : String → Nat → Except Unit Int
  http : String → Nat → String → HttpOutcome

/-- `HealthChecker.is_port_listening`: true iff `connect_ex` returned 0; any
raised exception yields `False`. -/
def is_port_listening (env : ProbeEnv) (host : String) (port : Nat) : Bool :=
  match env.connect host port with
  | .ok r => r == 0
  | .error _ => false

/-- `HealthChecker.test_socks5_connectivity`: any HTTP response (whatever its
status) means the proxy works; every error class yields `False`. -/
def test_socks5_connectivity (env : ProbeEnv) (host : String) (port : Nat)
    (test_url : String) : Bool :=
  match env.http host port test_url with
  | .response _ => true
  | .proxyError => false
  | .connectionError => false
  | .timeout => false
  | .otherExn => false

/-- `HealthChecker.check_tunnel_health`: port check first, then SOCKS5
connectivity, short-circuiting on the first failure. -/
def check_tunnel_health (env : ProbeEnv) (host : String) (socks5_port : Nat)
    (test_url : String) : Bool :=
  if !(is_port_listening env host socks5_port) then false
  else if !(test_socks5_connectivity env host socks5_port test_url) then false
  else true

/-- `HealthChecker.check_dnstt_port` simply delegates to the port probe. -/
def check_dnstt_port (env : ProbeEnv) (host : String) (port : Nat) : Bool :=
  is_port_listening env host port

/-! ## Claim C10: totality of the probes -/

/-- Claim C10: the probe operations are total — over any network oracle they
return a boolean, every socket-level error outcome makes `is_port_listening`
false, every HTTP error class makes `test_socks5_connectivity` false, and
`check_tunnel_health` is exactly the short-circuit conjunction of the two
probes (so it is false as soon as either probe fails). -/
theorem probes_total_errors_false (env : ProbeEnv) (host : String) (port : Nat)
    (test_url : String) :
    (is_port_listening env host port = true ↔ env.connect host port = Except.ok 0) ∧
    (test_socks5_connectivity env host port test_url = true ↔
      ∃ st, env.http host port test_url = HttpOutcome.response st) ∧
    (check_tunnel_health env host port test_url =
      (is_port_listening env host port && test_socks5_connectivity env host port test_url)) := by
  refine ⟨?_, ?_, ?_⟩
  · unfold is_port_listening
    cases h : env.connect host port with
    | ok r => simp
    | error e => simp
  · unfold test_socks5_connectivity
    cases h : env.http host port test_url <;> simp
  · unfold check_tunnel_health
    cases hp : is_port_listening env host port <;>
      cases hs : test_socks5_connectivity env host port test_url <;> simp

/-! ## Claim C9: stopping an absent tunnel is a no-op that reports success -/

/-- Claim C9: `stop_dnstt_tunnel` on an id absent from the DNSTT fleet map and
`stop_ssh_tunnel` on a key absent from the SSH fleet map both return `True`
and leave the whole manager state — every record, every pid, and the registry
— unchanged. -/
theorem stop_absent_key_noop (s : ManagerState) (tunnel_id ssh_id : Nat)
    (removeOkD : Nat → Bool) (removeOkS : Bool)
    (h1 : alLookup tunnel_id s.dnstt_tunnels = none)
    (h2 : alLookup (tunnel_id, ssh_id) s.ssh_tunnels = none) :
    stop_dnstt_tunnel s tunnel_id removeOkD = (s, true) ∧
    stop_ssh_tunnel s tunnel_id ssh_id removeOkS = (s, true) := by
  constructor
  · unfold stop_dnstt_tunnel
    rw [h1]
  · unfold stop_ssh_tunnel
    rw [h2]

/-- A small populated fleet used by concrete witnesses: one RUNNING parent 0
with one RUNNING child (0,0) published under outbound id "9090". -/
def witnessFleet : ManagerState :=
  { dnstt_tunnels := [(0, { tunnel_id := 0, local_port := 1080, pid := some 10,
                            state := .running, restart_count := 0 })],
    ssh_tunnels := [((0, 0), { tunnel_id := 0, ssh_id := 0, socks5_port := 9090,
                               pid := some 20, state := .running, restart_count := 0,
                               xui_outbound_id := some "9090" })],
    registry := [("9090", "DNSTT-0-SSH-0-127.0.0.1:9090")] }

/-- Witness for C9: stopping the absent parent 7 and the absent child (7,3)
of a populated fleet returns `True` twice and changes nothing. -/
theorem stop_absent_key_noop_witness :
    stop_dnstt_tunnel witnessFleet 7 (fun _ => true) = (witnessFleet, true) ∧
    stop_ssh_tunnel witnessFleet 7 3 true = (witnessFleet, true) :=
  stop_absent_key_noop witnessFleet 7 3 (fun _ => true) true (by decide) (by decide)

/-! ## Claim C8: clean-start scenario and registry remarks -/

/-- The clean-start configuration of spec scenario 1: `dnstt_count=2`,
`ssh_per_dnstt=3`, `dnstt_start_port=1080`, `socks_start_port=9090`,
`socks_ports_per_tunnel=100` (with the default `max_retries=5`). -/
def cleanCfg : Config :=
  { dnstt_count := 2, ssh_per_dnstt := 3, dnstt_start_port := 1080,
    socks_start_port := 9090, socks_ports_per_tunnel := 100, max_retries := 5 }

/-- A clean-start environment: every spawn succeeds and every registry add is
acknowledged (the outbound id falls back to the port string, as in the
source's `str(port)` fallback). -/
def cleanEnvD : Nat → StartOutcome := fun tunnel_id => ⟨true, 100 + tunnel_id⟩

def cleanEnvS : Nat → Nat → SshStartOutcome := fun tunnel_id ssh_id =>
  ⟨true, 200 + 10 * tunnel_id + ssh_id,
   some (toString (9090 + tunnel_id * 100 + ssh_id))⟩

/-- The state after a clean start from a fresh manager. -/
def cleanRun : ManagerState :=
  initTunnels cleanCfg ManagerState.empty cleanEnvD cleanEnvS

/-- Counterexample to claim C8 as stated: after the clean start the registry
does contain exactly 6 outbounds, but their remarks are NOT
`DNSTT-0-SSH-0` … `DNSTT-1-SSH-2`: `add_socks5_outbound` decorates the remark
it is given with `-{host}:{port}` before sending it, so the first stored
remark is `DNSTT-0-SSH-0-127.0.0.1:9090`. -/
theorem cleanRun_remarks_not_bare :
    ¬ (cleanRun.registry.map Prod.snd =
        ["DNSTT-0-SSH-0", "DNSTT-0-SSH-1", "DNSTT-0-SSH-2",
         "DNSTT-1-SSH-0", "DNSTT-1-SSH-1", "DNSTT-1-SSH-2"]) := by
  decide

/-- Claim C8 as amended: after the clean start the registry contains exactly
6 SOCKS5 outbounds, one per `(tunnel_id, ssh_id)` pair, and their stored
remarks are the decorated strings
`DNSTT-{t}-SSH-{s}-127.0.0.1:{socks5_port}` for the six pairs, in fleet
order. -/
theorem cleanRun_registry_exact :
    cleanRun.registry.length = 6 ∧
    cleanRun.registry.map Prod.snd =
      ["DNSTT-0-SSH-0-127.0.0.1:9090", "DNSTT-0-SSH-1-127.0.0.1:9091",
       "DNSTT-0-SSH-2-127.0.0.1:9092", "DNSTT-1-SSH-0-127.0.0.1:9190",
       "DNSTT-1-SSH-1-127.0.0.1:9191", "DNSTT-1-SSH-2-127.0.0.1:9192"] := by
  constructor
  · decide
  · decide

/-! ## The materialized plan (claims C2 and C4) -/

theorem foldl_alInsert_fresh {α β : Type} [DecidableEq α] (v : α → β) :
    ∀ (L : List α) (m : List (α × β)),
      (∀ k ∈ L, alLookup k m = none) → L.Nodup →
      L.foldl (fun acc k => alInsert k (v k) acc) m =
        m ++ L.map (fun k => (k, v k)) := by
  intro L
  induction L with
  | nil => intro m _ _; simp
  | cons k L' ih =>
    intro m habs hnd
    have hk : alLookup k m = none := habs k (List.mem_cons_self _ _)
    have hins : alInsert k (v k) m = m ++ [(k, v k)] := by
      unfold alInsert; rw [hk]
    rw [List.foldl_cons, hins]
    have habs' : ∀ k' ∈ L', alLookup k' (m ++ [(k, v k)]) = none := by
      intro k' hk'
      rw [alLookup_append, habs k' (List.mem_cons_of_mem _ hk')]
      have hne : k' ≠ k := by
        intro hc
        exact (List.nodup_cons.mp hnd).1 (hc ▸ hk')
      simp [alLookup, Ne.symm hne]
    rw [ih (m ++ [(k, v k)]) habs' (List.nodup_cons.mp hnd).2]
    simp

/-- One parent's block of fresh SSH records. -/
def childBlock (cfg : Config) (tunnel_id : Nat) : List ((Nat × Nat) × SSHTunnel) :=
  (List.range cfg.ssh_per_dnstt).map
    (fun ssh_id => ((tunnel_id, ssh_id), freshChild cfg tunnel_id ssh_id))

theorem ssh_fold_fresh (cfg : Config) :
    ∀ (L : List Nat), L.Nodup →
    ∀ (m : List ((Nat × Nat) × SSHTunnel)), (∀ ce ∈ m, ce.1.1 ∉ L) →
      L.foldl
        (fun acc tunnel_id =>
          (List.range cfg.ssh_per_dnstt).foldl
            (fun m2 ssh_id => alInsert (tunnel_id, ssh_id) (freshChild cfg tunnel_id ssh_id) m2)
            acc)
        m
      = m ++ L.flatMap (childBlock cfg) := by
  intro L
  induction L with
  | nil => intro _ m _; simp
  | cons t L' ih =>
    intro hnd m hm
    rw [List.foldl_cons]
    have hinner :
        (List.range cfg.ssh_per_dnstt).foldl
          (fun m2 ssh_id => alInsert (t, ssh_id) (freshChild cfg t ssh_id) m2) m
        = m ++ childBlock cfg t := by
      have hmap := List.foldl_map (fun ssh_id => (t, ssh_id))
        (fun acc k => alInsert k (freshChild cfg k.1 k.2) acc)
        (List.range cfg.ssh_per_dnstt) m
      have habs : ∀ k ∈ (List.range cfg.ssh_per_dnstt).map (fun ssh_id => (t, ssh_id)),
          alLookup k m = none := by
        intro k hkmem
        rcases List.mem_map.mp hkmem with ⟨sid, _, hks⟩
        subst hks
        rw [alLookup_eq_none]
        intro ce hce hc
        exact hm ce hce (by rw [hc]; exact List.mem_cons_self _ _)
      have hndk : ((List.range cfg.ssh_per_dnstt).map (fun ssh_id => (t, ssh_id))).Nodup :=
        (List.nodup_range _).map (fun a b hab => congrArg Prod.snd hab)
      have := foldl_alInsert_fresh (fun k : Nat × Nat => freshChild cfg k.1 k.2)
        ((List.range cfg.ssh_per_dnstt).map (fun ssh_id => (t, ssh_id))) m habs hndk
      rw [hmap] at this
      rw [this, childBlock, List.map_map]
      rfl
    rw [hinner]
    have hm' : ∀ ce ∈ m ++ childBlock cfg t, ce.1.1 ∉ L' := by
      intro ce hce
      rcases List.mem_append.mp hce with h1 | h1
      · intro hc
        exact hm ce h1 (List.mem_cons_of_mem _ hc)
      · rcases List.mem_map.mp h1 with ⟨sid, _, hks⟩
        subst hks
        exact (List.nodup_cons.mp hnd).1
    rw [ih (List.nodup_cons.mp hnd).2 (m ++ childBlock cfg t) hm']
    simp

/-- The parent plan: one fresh STARTING record per `tunnel_id < dnstt_count`. -/
def planParents (cfg : Config) : List (Nat × DNSTTTunnel) :=
  (List.range cfg.dnstt_count).map (fun t => (t, freshParent cfg t))

/-- The child plan: one fresh STOPPED record per grid key. -/
def planChildren (cfg : Config) : List ((Nat × Nat) × SSHTunnel) :=
  (List.range cfg.dnstt_count).flatMap (childBlock cfg)

/-- From a fresh manager, the record-creation phase materializes exactly the
planned association lists. -/
theorem createRecords_empty_eq (cfg : Config) :
    createRecords cfg ManagerState.empty =
      { dnstt_tunnels := planParents cfg, ssh_tunnels := planChildren cfg,
        registry := [] } := by
  have hd := foldl_alInsert_fresh (freshParent cfg) (List.range cfg.dnstt_count) []
    (by intro k _; rfl) (List.nodup_range _)
  have hs := ssh_fold_fresh cfg (List.range cfg.dnstt_count) (List.nodup_range _) []
    (by intro ce hce; simp at hce)
  rw [List.nil_append] at hd hs
  unfold createRecords ManagerState.empty
  simp only [planParents, planChildren]
  rw [hd, hs]

/-- Claim C4 as amended: from a fresh manager, the record-creation loops of
`initialize_tunnels` materialize exactly `dnstt_count` DNSTT records and
`dnstt_count * ssh_per_dnstt` SSH records, all before any child process is
spawned (`initTunnels = startPhase ∘ createRecords`), with no pid recorded;
the SSH records are created in state STOPPED, but the DNSTT records are
created in state STARTING (not STOPPED as claimed). -/
theorem createRecords_counts_and_states (cfg : Config) :
    (createRecords cfg ManagerState.empty).dnstt_tunnels.length = cfg.dnstt_count ∧
    (createRecords cfg ManagerState.empty).ssh_tunnels.length =
      cfg.dnstt_count * cfg.ssh_per_dnstt ∧
    (∀ pe ∈ (createRecords cfg ManagerState.empty).dnstt_tunnels,
        pe.2.state = TunnelState.starting ∧ pe.2.pid = none) ∧
    (∀ ce ∈ (createRecords cfg ManagerState.empty).ssh_tunnels,
        ce.2.state = TunnelState.stopped ∧ ce.2.pid = none) := by
  rw [createRecords_empty_eq]
  refine ⟨?_, ?_, ?_, ?_⟩
  · simp [planParents]
  · have hlen : ∀ t, (childBlock cfg t).length = cfg.ssh_per_dnstt := by
      intro t
      simp [childBlock]
    have hfun : List.length ∘ childBlock cfg = fun _ => cfg.ssh_per_dnstt :=
      funext fun t => hlen t
    simp [planChildren, List.length_flatMap, hfun, List.map_const', List.sum_replicate,
      smul_eq_mul]
  · intro pe hpe
    rcases List.mem_map.mp hpe with ⟨t, _, hpt⟩
    subst hpt
    exact ⟨rfl, rfl⟩
  · intro ce hce
    rcases List.mem_flatMap.mp hce with ⟨t, _, hblk⟩
    rcases List.mem_map.mp hblk with ⟨sid, _, hcs⟩
    subst hcs
    exact ⟨rfl, rfl⟩

/-- Counterexample to claim C4 as stated: under the clean-start configuration
the DNSTT record for tunnel 0 is created in state STARTING, not STOPPED. -/
theorem createRecords_parent_not_stopped :
    ¬ (∀ pe ∈ (createRecords cleanCfg ManagerState.empty).dnstt_tunnels,
        pe.2.state = TunnelState.stopped) := by
  decide

/-! ## Claim C2: port disjointness of the plan -/

theorem stride_grid_inj {σ t s t' s' : Nat} (hs : s < σ) (hs' : s' < σ)
    (h : t * σ + s = t' * σ + s') : t = t' ∧ s = s' := by
  have hσ : 0 < σ := Nat.lt_of_le_of_lt (Nat.zero_le s) hs
  have hc : s + t * σ = s' + t' * σ := by omega
  have hd : (s + t * σ) / σ = t := by
    rw [Nat.add_mul_div_right _ _ hσ, Nat.div_eq_of_lt hs, Nat.zero_add]
  have hd' : (s' + t' * σ) / σ = t' := by
    rw [Nat.add_mul_div_right _ _ hσ, Nat.div_eq_of_lt hs', Nat.zero_add]
  have ht : t = t' := by rw [← hd, ← hd', hc]
  subst ht
  exact ⟨rfl, by omega⟩

/-- Claim C2 as amended: for the plan built by `initialize_tunnels`, with
`ssh_per_dnstt ≤ socks_ports_per_tunnel` (the stride), distinct SSH keys get
distinct `socks5_port` values and distinct DNSTT ids get distinct
`local_port` values; and provided additionally that the configured DNSTT port
range lies below the SOCKS range
(`dnstt_start_port + dnstt_count ≤ socks_start_port`) — an assumption the
claim omits and the code does not enforce — every `local_port` differs from
every `socks5_port`. -/
theorem plan_port_disjointness (cfg : Config)
    (hstride : cfg.ssh_per_dnstt ≤ cfg.socks_ports_per_tunnel)
    (hranges : cfg.dnstt_start_port + cfg.dnstt_count ≤ cfg.socks_start_port) :
    (∀ ce ∈ (createRecords cfg ManagerState.empty).ssh_tunnels,
     ∀ ce' ∈ (createRecords cfg ManagerState.empty).ssh_tunnels,
       ce.1 ≠ ce'.1 → ce.2.socks5_port ≠ ce'.2.socks5_port) ∧
    (∀ pe ∈ (createRecords cfg ManagerState.empty).dnstt_tunnels,
     ∀ pe' ∈ (createRecords cfg ManagerState.empty).dnstt_tunnels,
       pe.1 ≠ pe'.1 → pe.2.local_port ≠ pe'.2.local_port) ∧
    (∀ pe ∈ (createRecords cfg ManagerState.empty).dnstt_tunnels,
     ∀ ce ∈ (createRecords cfg ManagerState.empty).ssh_tunnels,
       pe.2.local_port ≠ ce.2.socks5_port) := by
  rw [createRecords_empty_eq]
  refine ⟨?_, ?_, ?_⟩
  · intro ce hce ce' hce' hkey heq
    rcases List.mem_flatMap.mp hce with ⟨t, htN, hblk⟩
    rcases List.mem_map.mp hblk with ⟨sid, hsM, hcs⟩
    rcases List.mem_flatMap.mp hce' with ⟨t', htN', hblk'⟩
    rcases List.mem_map.mp hblk' with ⟨sid', hsM', hcs'⟩
    subst hcs hcs'
    simp only [freshChild] at heq
    have h1 : t * cfg.socks_ports_per_tunnel + sid =
        t' * cfg.socks_ports_per_tunnel + sid' := by omega
    have hs : sid < cfg.socks_ports_per_tunnel :=
      Nat.lt_of_lt_of_le (List.mem_range.mp hsM) hstride
    have hs' : sid' < cfg.socks_ports_per_tunnel :=
      Nat.lt_of_lt_of_le (List.mem_range.mp hsM') hstride
    rcases stride_grid_inj hs hs' h1 with ⟨ht, hsd⟩
    exact hkey (by rw [ht, hsd])
  · intro pe hpe pe' hpe' hkey heq
    rcases List.mem_map.mp hpe with ⟨t, _, hpt⟩
    rcases List.mem_map.mp hpe' with ⟨t', _, hpt'⟩
    subst hpt hpt'
    simp only [freshParent] at heq
    exact hkey (by omega)
  · intro pe hpe ce hce
    rcases List.mem_map.mp hpe with ⟨t, htN, hpt⟩
    rcases List.mem_flatMap.mp hce with ⟨t', _, hblk⟩
    rcases List.mem_map.mp hblk with ⟨sid, _, hcs⟩
    subst hpt hcs
    simp only [freshParent, freshChild]
    have htlt : t < cfg.dnstt_count := List.mem_range.mp htN
    omega

/-- The overlapping configuration: stride 1 ≥ ssh_per_dnstt 1, but the DNSTT
port range and the SOCKS port range both start at 1080. -/
def overlapCfg : Config :=
  { dnstt_count := 1, ssh_per_dnstt := 1, dnstt_start_port := 1080,
    socks_start_port := 1080, socks_ports_per_tunnel := 1, max_retries := 5 }

/-- Counterexample to claim C2 as stated: `overlapCfg` satisfies the claim's
only hypothesis (`socks_ports_per_tunnel ≥ ssh_per_dnstt`), yet the plan
assigns `local_port = 1080` to DNSTT 0 and `socks5_port = 1080` to SSH (0,0):
local ports are not disjoint from SOCKS ports for every such configuration. -/
theorem plan_ports_overlap_cex :
    ¬ (∀ pe ∈ (createRecords overlapCfg ManagerState.empty).dnstt_tunnels,
       ∀ ce ∈ (createRecords overlapCfg ManagerState.empty).ssh_tunnels,
         pe.2.local_port ≠ ce.2.socks5_port) := by
  decide

/-! ## Registry client (`xui_client.py`) -/

/-- Outcome of one HTTP request to the registry: a response with a status
code, an optional outbound id in the body (the `id` / `obj.id` chain of
`add_socks5_outbound`) and a parsed body list (for `list_outbounds`), or a
raised exception (transport error, unparsable body). -/
inductive RespOutcome where
  | resp (status : Nat) (idO : Option String) (body : List String)
  | exn
deriving DecidableEq

/-- Mutable state of an `XUIClient`: the `_authenticated` flag, plus a
counter of `login()` calls made so far (indexing the login oracle). -/
structure XuiState where
  authenticated : Bool
  nlogins : Nat
deriving DecidableEq

/-- Oracle for the registry: the result of the n-th `login()` call, and the
response to the request sent during a given (attempt, endpoint) slot. -/
structure XuiEnv where
  loginOk : Nat → Bool
  resp : Nat → Nat → RespOutcome

/-- Observable actions of a client operation: an HTTP request in a given
(attempt, endpoint) slot, a `login()` call with its result, or `time.sleep(1)`. -/
inductive XEvent where
  | request (attempt endpoint : Nat)
  | loginEvent (ok : Bool)
  | sleep1
deriving DecidableEq

/-- `XUIClient.login`: sets `_authenticated = True` only on success (a failed
login leaves the flag as it was). -/
def doLogin (env : XuiEnv) (st : XuiState) : Bool × XuiState :=
  let ok := env.loginOk st.nlogins
  (ok, { authenticated := if ok then true else st.authenticated,
         nlogins := st.nlogins + 1 })

/-- `XUIClient.ensure_authenticated`: login only when not authenticated. -/
def ensureAuth (env : XuiEnv) (st : XuiState) : Bool × XuiState × List XEvent :=
  if st.authenticated then (true, st, [])
  else
    let r := doLogin env st
    (r.1, r.2, [XEvent.loginEvent r.1])

/-- What one response makes the endpoint loop do: return a value, fall
through to the next endpoint, run the 401 re-authentication dance, or abort
the attempt (a raised exception jumps to the `except` handler). -/
inductive EpAct (α : Type) where
  | ret (v : α)
  | next
  | auth
  | abort

/-- The inner `for endpoint in endpoints` loop shared by `add_socks5_outbound`,
`remove_outbound` and `reload_xray`: on a 401 the client clears
`_authenticated`, re-logins, and on success continues with the NEXT endpoint;
a failed re-login breaks out of the endpoint loop for this attempt. -/
def goEndpoints {α : Type} (interp : RespOutcome → EpAct α) (env : XuiEnv)
    (attempt : Nat) : List Nat → XuiState → Option α × XuiState × List XEvent
  | [], st => (none, st, [])
  | e :: rest, st =>
    let ev := XEvent.request attempt e
    match interp (env.resp attempt e) with
    | .ret v => (some v, st, [ev])
    | .next =>
      let r := goEndpoints interp env attempt rest st
      (r.1, r.2.1, ev :: r.2.2)
    | .auth =>
      let lr := doLogin env { st with authenticated := false }
      if lr.1 then
        let r := goEndpoints interp env attempt rest lr.2
        (r.1, r.2.1, ev :: XEvent.loginEvent lr.1 :: r.2.2)
      else (none, lr.2, [ev, XEvent.loginEvent lr.1])
    | .abort => (none, st, [ev])

/-- The endpoint index list: all three operations probe three URLs in order. -/
def endpointIdxs : List Nat := [0, 1, 2]

/-- The outer `for attempt in range(retry_count)` loop: a failed attempt
(endpoints exhausted, re-login failure, or exception) sleeps 1 s unless it
was the last attempt, then moves on. -/
def goAttempts {α : Type} (interp : RespOutcome → EpAct α) (env : XuiEnv)
    (retry_count : Nat) : List Nat → XuiState → Option α × XuiState × List XEvent
  | [], st => (none, st, [])
  | a :: rest, st =>
    let r := goEndpoints interp env a endpointIdxs st
    match r.1 with
    | some v => (some v, r.2.1, r.2.2)
    | none =>
      let sl := if a + 1 < retry_count then [XEvent.sleep1] else []
      let r2 := goAttempts interp env retry_count rest r.2.1
      (r2.1, r2.2.1, r.2.2 ++ sl ++ r2.2.2)

/-- Common wrapper: ensure authentication (failing the whole operation when
the initial login fails), then run the bounded attempt loop. -/
def runOp {α : Type} (interp : RespOutcome → EpAct α) (env : XuiEnv)
    (retry_count : Nat) (st : XuiState) : Option α × XuiState × List XEvent :=
  let ea := ensureAuth env st
  if ea.1 then
    let r := goAttempts interp env retry_count (List.range retry_count) ea.2.1
    (r.1, r.2.1, ea.2.2 ++ r.2.2)
  else (none, ea.2.1, ea.2.2)

/-- Response handling of `add_socks5_outbound`: 200/201 succeed with
`data.get("id") or data.get("obj",{}).get("id") or str(port)`; 401 triggers
the re-auth dance; anything else falls through to the next endpoint; an
exception aborts the attempt. -/
def addInterp (port : Nat) : RespOutcome → EpAct String
  | .resp status idO _ =>
    if status = 200 ∨ status = 201 then .ret (idO.getD (toString port))
    else if status = 401 then .auth
    else .next
  | .exn => .abort

/-- Response handling of `remove_outbound`: 200/204 succeed; 404 is treated
as success (already removed); 401 re-auths; others fall through. -/
def removeInterp : RespOutcome → EpAct Bool
  | .resp status _ _ =>
    if status = 200 ∨ status = 204 then .ret true
    else if status = 404 then .ret true
    else if status = 401 then .auth
    else .next
  | .exn => .abort

/-- Response handling of `reload_xray`: 200/204 succeed; 401 re-auths;
others (including 404) fall through. -/
def reloadInterp : RespOutcome → EpAct Bool
  | .resp status _ _ =>
    if status = 200 ∨ status = 204 then .ret true
    else if status = 401 then .auth
    else .next
  | .exn => .abort

/-- `XUIClient.add_socks5_outbound` (result: the outbound id, or `None`). -/
def add_socks5_outbound (env : XuiEnv) (st : XuiState) (port : Nat)
    (retry_count : Nat) : Option String × XuiState × List XEvent :=
  runOp (addInterp port) env retry_count st

/-- `XUIClient.remove_outbound` (result: success flag; full failure is `False`). -/
def remove_outbound (env : XuiEnv) (st : XuiState) (retry_count : Nat) :
    Bool × XuiState × List XEvent :=
  let r := runOp removeInterp env retry_count st
  (r.1.getD false, r.2.1, r.2.2)

/-- `XUIClient.reload_xray` (result: success flag; full failure is `False`). -/
def reload_xray (env : XuiEnv) (st : XuiState) (retry_count : Nat) :
    Bool × XuiState × List XEvent :=
  let r := runOp reloadInterp env retry_count st
  (r.1.getD false, r.2.1, r.2.2)

/-- The single endpoint walk of `list_outbounds`: only a 200 succeeds
(returning the parsed body), any other status — 401 included — just falls
through to the next endpoint, and an exception ends the walk; there is no
retry loop, no sleep, and no re-authentication. -/
def goList (env : XuiEnv) : List Nat → Option (List String) × List XEvent
  | [] => (none, [])
  | e :: rest =>
    let ev := XEvent.request 0 e
    match env.resp 0 e with
    | .resp status _ body =>
      if status = 200 then (some body, [ev])
      else
        let r := goList env rest
        (r.1, ev :: r.2)
    | .exn => (none, [ev])

/-- `XUIClient.list_outbounds`. -/
def list_outbounds (env : XuiEnv) (st : XuiState) :
    Option (List String) × XuiState × List XEvent :=
  let ea := ensureAuth env st
  if ea.1 then
    let r := goList env endpointIdxs
    (r.1, ea.2.1, ea.2.2 ++ r.2)
  else (none, ea.2.1, ea.2.2)

/-! Trace statistics for the registry-client claims. -/

def isLoginEvent : XEvent → Bool
  | .loginEvent _ => true
  | _ => false

def isSleepEvent : XEvent → Bool
  | .sleep1 => true
  | _ => false

def loginCount (tr : List XEvent) : Nat := (tr.filter isLoginEvent).length

def sleepCount (tr : List XEvent) : Nat := (tr.filter isSleepEvent).length

/-- Did this request slot receive a 401-equivalent response? -/
def is401 : RespOutcome → Bool
  | .resp status _ _ => status == 401
  | .exn => false

/-- Events of the trace that are requests answered with a 401. -/
def req401 (env : XuiEnv) : XEvent → Bool
  | .request a e => is401 (env.resp a e)
  | _ => false

def resp401Count (env : XuiEnv) (tr : List XEvent) : Nat :=
  (tr.filter (req401 env)).length

/-- Number of requests the trace makes in a given (attempt, endpoint) slot. -/
def reqCount (a e : Nat) (tr : List XEvent) : Nat :=
  (tr.filter (fun ev => ev = XEvent.request a e)).length

/-! ## Claims C5 and C6: registry-client lemmas -/

theorem goEndpoints_login_eq_401 {α : Type} (interp : RespOutcome → EpAct α)
    (env : XuiEnv) (attempt : Nat)
    (hauth : ∀ ro, interp ro = EpAct.auth ↔ is401 ro = true) :
    ∀ (es : List Nat) (st : XuiState),
      loginCount (goEndpoints interp env attempt es st).2.2 =
        resp401Count env (goEndpoints interp env attempt es st).2.2 := by
  intro es
  induction es with
  | nil => intro st; rfl
  | cons e rest ih =>
    intro st
    unfold goEndpoints
    cases hi : interp (env.resp attempt e) with
    | ret v =>
      have h4 : is401 (env.resp attempt e) = false := by
        cases hb : is401 (env.resp attempt e)
        · rfl
        · have hc := (hauth _).mpr hb
          rw [hi] at hc
          exact absurd hc (by simp)
      simp [loginCount, resp401Count, req401, isLoginEvent, List.filter, h4]
    | next =>
      have h4 : is401 (env.resp attempt e) = false := by
        cases hb : is401 (env.resp attempt e)
        · rfl
        · have hc := (hauth _).mpr hb
          rw [hi] at hc
          exact absurd hc (by simp)
      simp only [loginCount, resp401Count, req401, List.filter, isLoginEvent, h4] at ih ⊢
      exact ih st
    | auth =>
      have h4 : is401 (env.resp attempt e) = true := (hauth _).mp hi
      cases hok : env.loginOk st.nlogins with
      | true =>
        simp only [doLogin, hok]
        simp only [loginCount, resp401Count, req401, List.filter, isLoginEvent, h4,
          if_true, List.length_cons] at ih ⊢
        rw [ih]
      | false =>
        simp only [doLogin, hok]
        simp [loginCount, resp401Count, req401, List.filter, isLoginEvent, h4]
    | abort =>
      have h4 : is401 (env.resp attempt e) = false := by
        cases hb : is401 (env.resp attempt e)
        · rfl
        · have hc := (hauth _).mpr hb
          rw [hi] at hc
          exact absurd hc (by simp)
      simp [loginCount, resp401Count, req401, isLoginEvent, List.filter, h4]

theorem goEndpoints_no_sleep {α : Type} (interp : RespOutcome → EpAct α)
    (env : XuiEnv) (attempt : Nat) :
    ∀ (es : List Nat) (st : XuiState),
      sleepCount (goEndpoints interp env attempt es st).2.2 = 0 := by
  intro es
  induction es with
  | nil => intro st; rfl
  | cons e rest ih =>
    intro st
    unfold goEndpoints
    cases hi : interp (env.resp attempt e) with
    | ret v => simp [sleepCount, isSleepEvent, List.filter]
    | next =>
      simp only [sleepCount, List.filter, isSleepEvent] at ih ⊢
      exact ih st
    | auth =>
      cases hok : env.loginOk st.nlogins with
      | true =>
        simp only [doLogin, hok]
        simp only [sleepCount, List.filter, isSleepEvent] at ih ⊢
        exact ih _
      | false =>
        simp only [doLogin, hok]
        simp [sleepCount, isSleepEvent, List.filter]
    | abort => simp [sleepCount, isSleepEvent, List.filter]

theorem loginCount_append (t1 t2 : List XEvent) :
    loginCount (t1 ++ t2) = loginCount t1 + loginCount t2 := by
  simp [loginCount, List.filter_append]

theorem sleepCount_append (t1 t2 : List XEvent) :
    sleepCount (t1 ++ t2) = sleepCount t1 + sleepCount t2 := by
  simp [sleepCount, List.filter_append]

theorem resp401Count_append (env : XuiEnv) (t1 t2 : List XEvent) :
    resp401Count env (t1 ++ t2) = resp401Count env t1 + resp401Count env t2 := by
  simp [resp401Count, List.filter_append]

theorem reqCount_append (a e : Nat) (t1 t2 : List XEvent) :
    reqCount a e (t1 ++ t2) = reqCount a e t1 + reqCount a e t2 := by
  simp [reqCount, List.filter_append]

theorem goAttempts_login_eq_401 {α : Type} (interp : RespOutcome → EpAct α)
    (env : XuiEnv) (retry_count : Nat)
    (hauth : ∀ ro, interp ro = EpAct.auth ↔ is401 ro = true) :
    ∀ (as : List Nat) (st : XuiState),
      loginCount (goAttempts interp env retry_count as st).2.2 =
        resp401Count env (goAttempts interp env retry_count as st).2.2 := by
  intro as
  induction as with
  | nil => intro st; rfl
  | cons a rest ih =>
    intro st
    have hl := goEndpoints_login_eq_401 interp env a hauth endpointIdxs st
    unfold goAttempts
    rcases hE : goEndpoints interp env a endpointIdxs st with ⟨ro, st2, tr⟩
    rw [hE] at hl
    dsimp only at hl
    dsimp only
    cases ro with
    | some v => exact hl
    | none =>
      rw [loginCount_append, loginCount_append, resp401Count_append, resp401Count_append]
      have hsl : loginCount (if a + 1 < retry_count then [XEvent.sleep1] else []) = 0 ∧
          resp401Count env (if a + 1 < retry_count then [XEvent.sleep1] else []) = 0 := by
        by_cases hc : a + 1 < retry_count <;>
          simp [hc, loginCount, resp401Count, req401, isLoginEvent, List.filter]
      rw [hsl.1, hsl.2, hl, ih]

theorem goAttempts_sleep_of_fail {α : Type} (interp : RespOutcome → EpAct α)
    (env : XuiEnv) (retry_count : Nat) :
    ∀ (as : List Nat) (st : XuiState),
      (goAttempts interp env retry_count as st).1 = none →
      sleepCount (goAttempts interp env retry_count as st).2.2 =
        as.countP (fun a => decide (a + 1 < retry_count)) := by
  intro as
  induction as with
  | nil => intro st _; rfl
  | cons a rest ih =>
    intro st hfail
    have hns := goEndpoints_no_sleep interp env a endpointIdxs st
    unfold goAttempts at hfail ⊢
    rcases hE : goEndpoints interp env a endpointIdxs st with ⟨ro, st2, tr⟩
    rw [hE] at hns hfail
    dsimp only at hfail hns ⊢
    cases ro with
    | some v => simp at hfail
    | none =>
      rw [sleepCount_append, sleepCount_append, hns]
      have hrec := ih st2 hfail
      rw [hrec, List.countP_cons]
      by_cases hc : a + 1 < retry_count <;>
        simp [hc, sleepCount, isSleepEvent, List.filter] <;> omega

theorem reqCount_cons (a e : Nat) (ev : XEvent) (tr : List XEvent) :
    reqCount a e (ev :: tr) =
      reqCount a e tr + (if ev = XEvent.request a e then 1 else 0) := by
  by_cases h : ev = XEvent.request a e <;> simp [reqCount, List.filter, h]


theorem reqCount_nil (a e : Nat) : reqCount a e [] = 0 := rfl

theorem goEndpoints_reqCount {α : Type} (interp : RespOutcome → EpAct α)
    (env : XuiEnv) (attempt : Nat) :
    ∀ (es : List Nat), es.Nodup → ∀ (st : XuiState) (a' e' : Nat),
      reqCount a' e' (goEndpoints interp env attempt es st).2.2 ≤
        (if a' = attempt ∧ e' ∈ es then 1 else 0) := by
  intro es
  induction es with
  | nil => intro _ st a' e'; simp [goEndpoints, reqCount, List.filter]
  | cons e rest ih =>
    intro hnd st a' e'
    have hnotin : e ∉ rest := (List.nodup_cons.mp hnd).1
    have hndr : rest.Nodup := (List.nodup_cons.mp hnd).2
    have hhead : ∀ st0 : XuiState,
        reqCount a' e' (goEndpoints interp env attempt rest st0).2.2 +
          (if XEvent.request attempt e = XEvent.request a' e' then 1 else 0) ≤
        (if a' = attempt ∧ e' ∈ e :: rest then 1 else 0) := by
      intro st0
      by_cases hev : XEvent.request attempt e = XEvent.request a' e'
      · injection hev with h1 h2
        subst h1
        subst h2
        have hz : reqCount attempt e (goEndpoints interp env attempt rest st0).2.2 = 0 :=
          Nat.le_zero.mp (by simpa [hnotin] using ih hndr st0 attempt e)
        simp [hz]
      · rw [if_neg hev]
        have hIH := ih hndr st0 a' e'
        by_cases hmem : a' = attempt ∧ e' ∈ rest
        · rw [if_pos hmem] at hIH
          rw [if_pos ⟨hmem.1, List.mem_cons_of_mem _ hmem.2⟩]
          omega
        · rw [if_neg hmem] at hIH
          have hz : reqCount a' e' (goEndpoints interp env attempt rest st0).2.2 = 0 :=
            Nat.le_zero.mp hIH
          rw [hz]
          simp
    have hsingle :
        (if XEvent.request attempt e = XEvent.request a' e' then 1 else 0) ≤
        (if a' = attempt ∧ e' ∈ e :: rest then 1 else 0) := by
      by_cases hev : XEvent.request attempt e = XEvent.request a' e'
      · injection hev with h1 h2
        subst h1
        subst h2
        simp
      · rw [if_neg hev]
        simp
    unfold goEndpoints
    cases hi : interp (env.resp attempt e) with
    | ret v =>
      dsimp only
      rw [reqCount_cons, reqCount_nil]
      simpa using hsingle
    | next =>
      dsimp only
      rw [reqCount_cons]
      exact hhead st
    | abort =>
      dsimp only
      rw [reqCount_cons, reqCount_nil]
      simpa using hsingle
    | auth =>
      dsimp only
      cases hok : (doLogin env { st with authenticated := false }).1 with
      | true =>
        rw [if_pos rfl]
        dsimp only
        rw [reqCount_cons, reqCount_cons]
        have hlg : ¬ (XEvent.loginEvent true = XEvent.request a' e') := by simp
        rw [if_neg hlg]
        simpa using hhead (doLogin env { st with authenticated := false }).2
      | false =>
        rw [if_neg Bool.false_ne_true]
        dsimp only
        rw [reqCount_cons, reqCount_cons, reqCount_nil]
        have hlg : ¬ (XEvent.loginEvent false = XEvent.request a' e') := by simp
        rw [if_neg hlg]
        simpa using hsingle

theorem reqCount_sleepList (a' e' : Nat) (b : Bool) :
    reqCount a' e' (if b = true then [XEvent.sleep1] else []) = 0 := by
  cases b <;> simp [reqCount, List.filter]

theorem goAttempts_reqCount {α : Type} (interp : RespOutcome → EpAct α)
    (env : XuiEnv) (retry_count : Nat) :
    ∀ (as : List Nat), as.Nodup → ∀ (st : XuiState) (a' e' : Nat),
      reqCount a' e' (goAttempts interp env retry_count as st).2.2 ≤
        (if a' ∈ as then 1 else 0) := by
  intro as
  induction as with
  | nil => intro _ st a' e'; simp [goAttempts, reqCount, List.filter]
  | cons a rest ih =>
    intro hnd st a' e'
    have hnotin : a ∉ rest := (List.nodup_cons.mp hnd).1
    have hndr : rest.Nodup := (List.nodup_cons.mp hnd).2
    have hb := goEndpoints_reqCount interp env a endpointIdxs (by decide) st a' e'
    unfold goAttempts
    rcases hE : goEndpoints interp env a endpointIdxs st with ⟨ro, st2, tr⟩
    rw [hE] at hb
    dsimp only at hb ⊢
    cases ro with
    | some v =>
      by_cases h1 : a' = a
      · subst h1
        rw [if_pos (List.mem_cons_self _ _)]
        refine le_trans hb ?_
        split <;> simp
      · rw [if_neg (by intro hc; exact h1 (And.left hc))] at hb
        have hz : reqCount a' e' tr = 0 := Nat.le_zero.mp hb
        rw [hz]
        simp
    | none =>
      rw [reqCount_append, reqCount_append]
      have hIH := ih hndr st2 a' e'
      have hsl : reqCount a' e'
          (if a + 1 < retry_count then [XEvent.sleep1] else []) = 0 := by
        by_cases hc : a + 1 < retry_count <;> simp [hc, reqCount, List.filter]
      rw [hsl]
      by_cases h1 : a' = a
      · subst h1
        rw [if_pos (List.mem_cons_self _ _)]
        rw [if_neg hnotin] at hIH
        have hz : reqCount a' e' (goAttempts interp env retry_count rest st2).2.2 = 0 :=
          Nat.le_zero.mp hIH
        have hb1 : reqCount a' e' tr ≤ 1 := by
          refine le_trans hb ?_
          split <;> simp
        omega
      · rw [if_neg (by intro hc; exact h1 (And.left hc))] at hb
        have hz : reqCount a' e' tr = 0 := Nat.le_zero.mp hb
        by_cases h2 : a' ∈ rest
        · rw [if_pos h2] at hIH
          rw [if_pos (List.mem_cons_of_mem _ h2)]
          omega
        · rw [if_neg h2] at hIH
          have hz2 : reqCount a' e' (goAttempts interp env retry_count rest st2).2.2 = 0 :=
            Nat.le_zero.mp hIH
          rw [hz, hz2]
          simp

theorem goEndpoints_ret_true (interp : RespOutcome → EpAct Bool) (env : XuiEnv)
    (attempt : Nat) (hret : ∀ ro v, interp ro = EpAct.ret v → v = true) :
    ∀ (es : List Nat) (st : XuiState) (v : Bool),
      (goEndpoints interp env attempt es st).1 = some v → v = true := by
  intro es
  induction es with
  | nil => intro st v h; simp [goEndpoints] at h
  | cons e rest ih =>
    intro st v h
    unfold goEndpoints at h
    cases hi : interp (env.resp attempt e) with
    | ret w =>
      rw [hi] at h
      dsimp only at h
      rcases h with h
      injection h with h
      exact h ▸ hret _ w hi
    | next =>
      rw [hi] at h
      dsimp only at h
      exact ih st v h
    | auth =>
      rw [hi] at h
      dsimp only at h
      cases hok : (doLogin env { st with authenticated := false }).1 with
      | true =>
        rw [hok] at h
        rw [if_pos rfl] at h
        dsimp only at h
        exact ih _ v h
      | false =>
        rw [hok] at h
        rw [if_neg Bool.false_ne_true] at h
        dsimp only at h
        cases h
    | abort =>
      rw [hi] at h
      dsimp only at h
      cases h

theorem goAttempts_ret_true (interp : RespOutcome → EpAct Bool) (env : XuiEnv)
    (retry_count : Nat) (hret : ∀ ro v, interp ro = EpAct.ret v → v = true) :
    ∀ (as : List Nat) (st : XuiState) (v : Bool),
      (goAttempts interp env retry_count as st).1 = some v → v = true := by
  intro as
  induction as with
  | nil => intro st v h; simp [goAttempts] at h
  | cons a rest ih =>
    intro st v h
    unfold goAttempts at h
    rcases hE : goEndpoints interp env a endpointIdxs st with ⟨ro, st2, tr⟩
    rw [hE] at h
    dsimp only at h
    cases ro with
    | some w =>
      dsimp only at h
      injection h with h
      refine h ▸ goEndpoints_ret_true interp env a hret endpointIdxs st w ?_
      rw [hE]
    | none => exact ih st2 v h

theorem runOp_auth_true {α : Type} (interp : RespOutcome → EpAct α) (env : XuiEnv)
    (retry_count : Nat) (st : XuiState) (hA : st.authenticated = true) :
    runOp interp env retry_count st =
      goAttempts interp env retry_count (List.range retry_count) st := by
  simp [runOp, ensureAuth, hA]

theorem runOp_login_eq_401 {α : Type} (interp : RespOutcome → EpAct α) (env : XuiEnv)
    (retry_count : Nat) (st : XuiState)
    (hauth : ∀ ro, interp ro = EpAct.auth ↔ is401 ro = true) :
    loginCount (runOp interp env retry_count st).2.2 =
      (if st.authenticated = true then 0 else 1) +
        resp401Count env (runOp interp env retry_count st).2.2 := by
  by_cases hA : st.authenticated = true
  · rw [runOp_auth_true interp env retry_count st hA, if_pos hA, Nat.zero_add]
    exact goAttempts_login_eq_401 interp env retry_count hauth (List.range retry_count) st
  · rw [if_neg hA]
    cases hok : env.loginOk st.nlogins with
    | true =>
      have hrw : runOp interp env retry_count st =
          ((goAttempts interp env retry_count (List.range retry_count)
              { authenticated := true, nlogins := st.nlogins + 1 }).1,
           (goAttempts interp env retry_count (List.range retry_count)
              { authenticated := true, nlogins := st.nlogins + 1 }).2.1,
           XEvent.loginEvent true ::
             (goAttempts interp env retry_count (List.range retry_count)
               { authenticated := true, nlogins := st.nlogins + 1 }).2.2) := by
        simp [runOp, ensureAuth, doLogin, hA, hok]
      rw [hrw]
      dsimp only
      have hlc : ∀ tr, loginCount (XEvent.loginEvent true :: tr) = 1 + loginCount tr := by
        intro tr
        simp [loginCount, List.filter, isLoginEvent, Nat.add_comm]
      have h4c : ∀ tr, resp401Count env (XEvent.loginEvent true :: tr) =
          resp401Count env tr := by
        intro tr
        simp [resp401Count, List.filter, req401]
      rw [hlc, h4c,
        goAttempts_login_eq_401 interp env retry_count hauth (List.range retry_count) _]
    | false =>
      have hrw : runOp interp env retry_count st =
          (none, { authenticated := st.authenticated, nlogins := st.nlogins + 1 },
           [XEvent.loginEvent false]) := by
        simp [runOp, ensureAuth, doLogin, hA, hok]
      rw [hrw]
      simp [loginCount, resp401Count, List.filter, isLoginEvent, req401]

theorem runOp_sleep_of_fail {α : Type} (interp : RespOutcome → EpAct α) (env : XuiEnv)
    (retry_count : Nat) (st : XuiState) (hA : st.authenticated = true)
    (hf : (runOp interp env retry_count st).1 = none) :
    sleepCount (runOp interp env retry_count st).2.2 = retry_count - 1 := by
  rw [runOp_auth_true interp env retry_count st hA] at hf ⊢
  rw [goAttempts_sleep_of_fail interp env retry_count (List.range retry_count) st hf]
  cases retry_count with
  | zero => rfl
  | succ n =>
    rw [List.range_succ, List.countP_append]
    have h1 : (List.range n).countP (fun a => decide (a + 1 < n + 1)) = n := by
      rw [List.countP_eq_length.mpr]
      · exact List.length_range n
      · intro a ha
        simp [List.mem_range.mp ha]
    have h2 : List.countP (fun a => decide (a + 1 < n + 1)) [n] = 0 := by
      simp
    rw [h1, h2]
    omega

theorem runOp_reqCount {α : Type} (interp : RespOutcome → EpAct α) (env : XuiEnv)
    (retry_count : Nat) (st : XuiState) (hA : st.authenticated = true)
    (a' e' : Nat) :
    reqCount a' e' (runOp interp env retry_count st).2.2 ≤
      (if a' < retry_count then 1 else 0) := by
  rw [runOp_auth_true interp env retry_count st hA]
  refine le_trans (goAttempts_reqCount interp env retry_count (List.range retry_count)
    (List.nodup_range _) st a' e') ?_
  by_cases hc : a' < retry_count
  · simp [hc, List.mem_range]
  · simp [hc, List.mem_range]

theorem goList_counts (env : XuiEnv) :
    ∀ es : List Nat,
      loginCount (goList env es).2 = 0 ∧ sleepCount (goList env es).2 = 0 := by
  intro es
  induction es with
  | nil => exact ⟨rfl, rfl⟩
  | cons e rest ih =>
    unfold goList
    cases hr : env.resp 0 e with
    | resp status idO body =>
      by_cases hs : status = 200
      · simp [hs, loginCount, sleepCount, List.filter, isLoginEvent, isSleepEvent]
      · simp only [hs, if_false, if_neg hs]
        constructor
        · simpa [loginCount, List.filter, isLoginEvent] using ih.1
        · simpa [sleepCount, List.filter, isSleepEvent] using ih.2
    | exn =>
      simp [loginCount, sleepCount, List.filter, isLoginEvent, isSleepEvent]

theorem goList_reqCount (env : XuiEnv) :
    ∀ es : List Nat, es.Nodup → ∀ a' e' : Nat,
      reqCount a' e' (goList env es).2 ≤ (if a' = 0 ∧ e' ∈ es then 1 else 0) := by
  intro es
  induction es with
  | nil => intro _ a' e'; simp [goList, reqCount, List.filter]
  | cons e rest ih =>
    intro hnd a' e'
    have hnotin : e ∉ rest := (List.nodup_cons.mp hnd).1
    have hndr : rest.Nodup := (List.nodup_cons.mp hnd).2
    have hsingle :
        (if XEvent.request 0 e = XEvent.request a' e' then 1 else 0) ≤
        (if a' = 0 ∧ e' ∈ e :: rest then 1 else 0) := by
      by_cases hev : XEvent.request 0 e = XEvent.request a' e'
      · injection hev with h1 h2
        subst h1
        subst h2
        simp
      · rw [if_neg hev]
        simp
    unfold goList
    cases hr : env.resp 0 e with
    | resp status idO body =>
      by_cases hs : status = 200
      · simp only [hs, if_pos rfl, if_true]
        rw [reqCount_cons, reqCount_nil]
        simpa using hsingle
      · simp only [if_neg hs]
        rw [reqCount_cons]
        by_cases hev : XEvent.request 0 e = XEvent.request a' e'
        · injection hev with h1 h2
          subst h1
          subst h2
          have hz : reqCount 0 e (goList env rest).2 = 0 :=
            Nat.le_zero.mp (by simpa [hnotin] using ih hndr 0 e)
          simp [hz]
        · rw [if_neg hev]
          have hIH := ih hndr a' e'
          by_cases hmem : a' = 0 ∧ e' ∈ rest
          · rw [if_pos hmem] at hIH
            rw [if_pos ⟨hmem.1, List.mem_cons_of_mem _ hmem.2⟩]
            omega
          · rw [if_neg hmem] at hIH
            have hz : reqCount a' e' (goList env rest).2 = 0 := Nat.le_zero.mp hIH
            rw [hz]
            simp
    | exn =>
      dsimp only
      rw [reqCount_cons, reqCount_nil]
      simpa using hsingle

theorem list_outbounds_counts (env : XuiEnv) (st : XuiState) :
    loginCount (list_outbounds env st).2.2 = (if st.authenticated = true then 0 else 1) ∧
    sleepCount (list_outbounds env st).2.2 = 0 ∧
    (∀ a' e' : Nat, reqCount a' e' (list_outbounds env st).2.2 ≤
      (if a' = 0 ∧ e' ∈ endpointIdxs then 1 else 0)) := by
  by_cases hA : st.authenticated = true
  · have hrw : list_outbounds env st =
        ((goList env endpointIdxs).1, st, (goList env endpointIdxs).2) := by
      simp [list_outbounds, ensureAuth, hA]
    rw [hrw, if_pos hA]
    exact ⟨(goList_counts env endpointIdxs).1, (goList_counts env endpointIdxs).2,
      fun a' e' => goList_reqCount env endpointIdxs (by decide) a' e'⟩
  · rw [if_neg hA]
    cases hok : env.loginOk st.nlogins with
    | true =>
      have hrw : list_outbounds env st =
          ((goList env endpointIdxs).1,
           { authenticated := true, nlogins := st.nlogins + 1 },
           XEvent.loginEvent true :: (goList env endpointIdxs).2) := by
        simp [list_outbounds, ensureAuth, doLogin, hA, hok]
      rw [hrw]
      dsimp only
      refine ⟨?_, ?_, ?_⟩
      · have hcons : loginCount (XEvent.loginEvent true :: (goList env endpointIdxs).2) =
            loginCount (goList env endpointIdxs).2 + 1 := by
          simp [loginCount, List.filter, isLoginEvent]
        rw [hcons, (goList_counts env endpointIdxs).1]
      · have := (goList_counts env endpointIdxs).2
        simpa [sleepCount, List.filter, isSleepEvent] using this
      · intro a' e'
        rw [reqCount_cons]
        have hlg : ¬ (XEvent.loginEvent true = XEvent.request a' e') := by simp
        rw [if_neg hlg]
        simpa using goList_reqCount env endpointIdxs (by decide) a' e'
    | false =>
      have hrw : list_outbounds env st =
          (none, { authenticated := st.authenticated, nlogins := st.nlogins + 1 },
           [XEvent.loginEvent false]) := by
        simp [list_outbounds, ensureAuth, doLogin, hA, hok]
      rw [hrw]
      refine ⟨?_, ?_, ?_⟩
      · simp [loginCount, List.filter, isLoginEvent]
      · simp [sleepCount, List.filter, isSleepEvent]
      · intro a' e'
        rw [reqCount_cons, reqCount_nil]
        have hlg : ¬ (XEvent.loginEvent false = XEvent.request a' e') := by simp
        rw [if_neg hlg]
        simp

theorem addInterp_auth_iff (port : Nat) :
    ∀ ro, addInterp port ro = EpAct.auth ↔ is401 ro = true := by
  intro ro
  cases ro with
  | resp s i b =>
    by_cases h1 : s = 200 ∨ s = 201
    · simp [addInterp, is401, h1]
      omega
    · by_cases h4 : s = 401
      · simp [addInterp, is401, h1, h4]
      · simp [addInterp, is401, h1, h4]
  | exn => simp [addInterp, is401]

theorem removeInterp_auth_iff :
    ∀ ro, removeInterp ro = EpAct.auth ↔ is401 ro = true := by
  intro ro
  cases ro with
  | resp s i b =>
    by_cases h1 : s = 200 ∨ s = 204
    · simp [removeInterp, is401, h1]
      omega
    · by_cases h44 : s = 404
      · simp [removeInterp, is401, h1, h44]
      · by_cases h4 : s = 401
        · simp [removeInterp, is401, h1, h44, h4]
        · simp [removeInterp, is401, h1, h44, h4]
  | exn => simp [removeInterp, is401]

theorem reloadInterp_auth_iff :
    ∀ ro, reloadInterp ro = EpAct.auth ↔ is401 ro = true := by
  intro ro
  cases ro with
  | resp s i b =>
    by_cases h1 : s = 200 ∨ s = 204
    · simp [reloadInterp, is401, h1]
      omega
    · by_cases h4 : s = 401
      · simp [reloadInterp, is401, h1, h4]
      · simp [reloadInterp, is401, h1, h4]
  | exn => simp [reloadInterp, is401]

theorem removeInterp_ret_true :
    ∀ ro v, removeInterp ro = EpAct.ret v → v = true := by
  intro ro v h
  cases ro with
  | resp s i b =>
    unfold removeInterp at h
    dsimp only at h
    by_cases h1 : s = 200 ∨ s = 204
    · rw [if_pos h1] at h
      injection h with h
      exact h.symm
    · rw [if_neg h1] at h
      by_cases h44 : s = 404
      · rw [if_pos h44] at h
        injection h with h
        exact h.symm
      · rw [if_neg h44] at h
        by_cases h4 : s = 401
        · rw [if_pos h4] at h
          cases h
        · rw [if_neg h4] at h
          cases h
  | exn => cases h

theorem reloadInterp_ret_true :
    ∀ ro v, reloadInterp ro = EpAct.ret v → v = true := by
  intro ro v h
  cases ro with
  | resp s i b =>
    unfold reloadInterp at h
    dsimp only at h
    by_cases h1 : s = 200 ∨ s = 204
    · rw [if_pos h1] at h
      injection h with h
      exact h.symm
    · rw [if_neg h1] at h
      by_cases h4 : s = 401
      · rw [if_pos h4] at h
        cases h
      · rw [if_neg h4] at h
        cases h
  | exn => cases h

theorem runOp_ret_true (interp : RespOutcome → EpAct Bool) (env : XuiEnv)
    (retry_count : Nat) (st : XuiState)
    (hret : ∀ ro v, interp ro = EpAct.ret v → v = true) :
    ∀ v, (runOp interp env retry_count st).1 = some v → v = true := by
  intro v h
  unfold runOp at h
  rcases hE : ensureAuth env st with ⟨ok, st1, tr⟩
  rw [hE] at h
  dsimp only at h
  cases ok with
  | true =>
    rw [if_pos rfl] at h
    dsimp only at h
    exact goAttempts_ret_true interp env retry_count hret (List.range retry_count) st1 v h
  | false =>
    rw [if_neg Bool.false_ne_true] at h
    cases h

/-- Claim C5 as amended: during `add_socks5_outbound`, `remove_outbound` and
`reload_xray`, every 401-equivalent response makes the client discard its
credentials and perform exactly one re-login — so the number of `login()`
calls in a run equals the initial lazy login (one iff the client starts
unauthenticated) plus the number of 401 responses received; after a
successful re-login the walk continues with the NEXT endpoint rather than
retrying the same request.  `list_outbounds`, however, performs no 401
handling at all: its only possible login is the initial lazy one, whatever
the registry answers. -/
theorem reauth_once_per_401 (env : XuiEnv) (st : XuiState) (port retry_count : Nat) :
    (loginCount (add_socks5_outbound env st port retry_count).2.2 =
      (if st.authenticated = true then 0 else 1) +
        resp401Count env (add_socks5_outbound env st port retry_count).2.2) ∧
    (loginCount (remove_outbound env st retry_count).2.2 =
      (if st.authenticated = true then 0 else 1) +
        resp401Count env (remove_outbound env st retry_count).2.2) ∧
    (loginCount (reload_xray env st retry_count).2.2 =
      (if st.authenticated = true then 0 else 1) +
        resp401Count env (reload_xray env st retry_count).2.2) ∧
    (loginCount (list_outbounds env st).2.2 =
      (if st.authenticated = true then 0 else 1)) := by
  refine ⟨?_, ?_, ?_, (list_outbounds_counts env st).1⟩
  · exact runOp_login_eq_401 (addInterp port) env retry_count st (addInterp_auth_iff port)
  · exact runOp_login_eq_401 removeInterp env retry_count st removeInterp_auth_iff
  · exact runOp_login_eq_401 reloadInterp env retry_count st reloadInterp_auth_iff

/-- A registry that answers every request with 401 and accepts every login. -/
def envAll401 : XuiEnv := ⟨fun _ => true, fun _ _ => RespOutcome.resp 401 none []⟩

/-- A registry that answers every request with a 500 error. -/
def envAllFail : XuiEnv := ⟨fun _ => true, fun _ _ => RespOutcome.resp 500 none []⟩

/-- An already-authenticated client. -/
def stAuth : XuiState := ⟨true, 0⟩

/-- Counterexample to claim C5 as stated: the claim covers `list_outbounds`,
but when the registry answers `list_outbounds` with 401 on every endpoint the
client receives 401 responses yet never discards its credentials or
re-authenticates — its trace contains no login at all. -/
theorem list_no_reauth_cex :
    0 < resp401Count envAll401 (list_outbounds envAll401 stAuth).2.2 ∧
    ¬ (0 < loginCount (list_outbounds envAll401 stAuth).2.2) := by
  decide

/-- Claim C6 as amended: `add_socks5_outbound`, `remove_outbound` and
`reload_xray` retry up to `retry_count` times — every request slot
`(attempt, endpoint)` is used at most once and no attempt index reaches
`retry_count` — and when the operation returns its failure result all
`retry_count` attempts were made with exactly `retry_count - 1` one-second
pauses between consecutive attempts.  `list_outbounds` does NOT retry: it
makes a single pass over its three endpoints with no pause at all. -/
theorem runOp_ensure_ok {α : Type} (interp : RespOutcome → EpAct α) (env : XuiEnv)
    (retry_count : Nat) (st : XuiState) (hA : st.authenticated = false)
    (hok : env.loginOk st.nlogins = true) :
    runOp interp env retry_count st =
      ((goAttempts interp env retry_count (List.range retry_count)
          { authenticated := true, nlogins := st.nlogins + 1 }).1,
       (goAttempts interp env retry_count (List.range retry_count)
          { authenticated := true, nlogins := st.nlogins + 1 }).2.1,
       XEvent.loginEvent true ::
         (goAttempts interp env retry_count (List.range retry_count)
           { authenticated := true, nlogins := st.nlogins + 1 }).2.2) := by
  simp [runOp, ensureAuth, doLogin, hA, hok]

theorem runOp_login_fail {α : Type} (interp : RespOutcome → EpAct α) (env : XuiEnv)
    (retry_count : Nat) (st : XuiState) (hA : st.authenticated = false)
    (hl : env.loginOk st.nlogins = false) :
    runOp interp env retry_count st =
      (none, { authenticated := false, nlogins := st.nlogins + 1 },
       [XEvent.loginEvent false]) := by
  simp [runOp, ensureAuth, doLogin, hA, hl]

theorem runOp_sleep_of_fail_ok {α : Type} (interp : RespOutcome → EpAct α)
    (env : XuiEnv) (retry_count : Nat) (st : XuiState)
    (hA : st.authenticated = true ∨ env.loginOk st.nlogins = true)
    (hf : (runOp interp env retry_count st).1 = none) :
    sleepCount (runOp interp env retry_count st).2.2 = retry_count - 1 := by
  by_cases hAt : st.authenticated = true
  · exact runOp_sleep_of_fail interp env retry_count st hAt hf
  · have hAf : st.authenticated = false := by
      cases hb : st.authenticated with
      | true => exact absurd hb hAt
      | false => rfl
    have hok : env.loginOk st.nlogins = true := by
      rcases hA with h | h
      · exact absurd h hAt
      · exact h
    rw [runOp_ensure_ok interp env retry_count st hAf hok] at hf ⊢
    dsimp only at hf ⊢
    have hcons : sleepCount (XEvent.loginEvent true ::
        (goAttempts interp env retry_count (List.range retry_count)
          { authenticated := true, nlogins := st.nlogins + 1 }).2.2) =
        sleepCount ((goAttempts interp env retry_count (List.range retry_count)
          { authenticated := true, nlogins := st.nlogins + 1 }).2.2) := by
      simp [sleepCount, List.filter, isSleepEvent]
    rw [hcons, goAttempts_sleep_of_fail interp env retry_count (List.range retry_count)
      _ hf]
    cases retry_count with
    | zero => rfl
    | succ n =>
      rw [List.range_succ, List.countP_append]
      have h1 : (List.range n).countP (fun a => decide (a + 1 < n + 1)) = n := by
        rw [List.countP_eq_length.mpr]
        · exact List.length_range n
        · intro a ha
          simp [List.mem_range.mp ha]
      have h2 : List.countP (fun a => decide (a + 1 < n + 1)) [n] = 0 := by
        simp
      rw [h1, h2]
      omega

theorem runOp_reqCount_ok {α : Type} (interp : RespOutcome → EpAct α) (env : XuiEnv)
    (retry_count : Nat) (st : XuiState)
    (hA : st.authenticated = true ∨ env.loginOk st.nlogins = true) (a' e' : Nat) :
    reqCount a' e' (runOp interp env retry_count st).2.2 ≤
      (if a' < retry_count then 1 else 0) := by
  by_cases hAt : st.authenticated = true
  · exact runOp_reqCount interp env retry_count st hAt a' e'
  · have hAf : st.authenticated = false := by
      cases hb : st.authenticated with
      | true => exact absurd hb hAt
      | false => rfl
    have hok : env.loginOk st.nlogins = true := by
      rcases hA with h | h
      · exact absurd h hAt
      · exact h
    rw [runOp_ensure_ok interp env retry_count st hAf hok]
    dsimp only
    rw [reqCount_cons]
    have hlg : ¬ (XEvent.loginEvent true = XEvent.request a' e') := by
      simp
    rw [if_neg hlg, Nat.add_zero]
    refine le_trans (goAttempts_reqCount interp env retry_count (List.range retry_count)
      (List.nodup_range _) _ a' e') ?_
    by_cases hc : a' < retry_count
    · simp [hc, List.mem_range]
    · simp [hc, List.mem_range]

theorem bounded_retry_per_op (env : XuiEnv) (st : XuiState) (port retry_count : Nat) :
    ((st.authenticated = true ∨ env.loginOk st.nlogins = true) →
      ((add_socks5_outbound env st port retry_count).1 = none →
        sleepCount (add_socks5_outbound env st port retry_count).2.2 = retry_count - 1) ∧
      ((remove_outbound env st retry_count).1 = false →
        sleepCount (remove_outbound env st retry_count).2.2 = retry_count - 1) ∧
      ((reload_xray env st retry_count).1 = false →
        sleepCount (reload_xray env st retry_count).2.2 = retry_count - 1) ∧
      (∀ a e : Nat, reqCount a e (add_socks5_outbound env st port retry_count).2.2 ≤
        (if a < retry_count then 1 else 0)) ∧
      (∀ a e : Nat, reqCount a e (remove_outbound env st retry_count).2.2 ≤
        (if a < retry_count then 1 else 0)) ∧
      (∀ a e : Nat, reqCount a e (reload_xray env st retry_count).2.2 ≤
        (if a < retry_count then 1 else 0))) ∧
    (st.authenticated = false → env.loginOk st.nlogins = false →
      ((add_socks5_outbound env st port retry_count).1 = none ∧
       sleepCount (add_socks5_outbound env st port retry_count).2.2 = 0 ∧
       ∀ a e : Nat, reqCount a e (add_socks5_outbound env st port retry_count).2.2 = 0) ∧
      ((remove_outbound env st retry_count).1 = false ∧
       sleepCount (remove_outbound env st retry_count).2.2 = 0 ∧
       ∀ a e : Nat, reqCount a e (remove_outbound env st retry_count).2.2 = 0) ∧
      ((reload_xray env st retry_count).1 = false ∧
       sleepCount (reload_xray env st retry_count).2.2 = 0 ∧
       ∀ a e : Nat, reqCount a e (reload_xray env st retry_count).2.2 = 0)) ∧
    sleepCount (list_outbounds env st).2.2 = 0 ∧
    (∀ a e : Nat, reqCount a e (list_outbounds env st).2.2 ≤
      (if a = 0 ∧ e ∈ endpointIdxs then 1 else 0)) := by
  refine ⟨?_, ?_, (list_outbounds_counts env st).2.1,
    (list_outbounds_counts env st).2.2⟩
  · intro hA
    refine ⟨?_, ?_, ?_, ?_, ?_, ?_⟩
    · intro hf
      exact runOp_sleep_of_fail_ok (addInterp port) env retry_count st hA hf
    · intro hf
      have hnone : (runOp removeInterp env retry_count st).1 = none := by
        cases hr : (runOp removeInterp env retry_count st).1 with
        | none => rfl
        | some v =>
          have hv : v = true :=
            runOp_ret_true removeInterp env retry_count st removeInterp_ret_true v hr
          have : (remove_outbound env st retry_count).1 = v := by
            show (runOp removeInterp env retry_count st).1.getD false = v
            rw [hr, hv]
            rfl
          rw [hf] at this
          rw [hv] at this
          cases this
      exact runOp_sleep_of_fail_ok removeInterp env retry_count st hA hnone
    · intro hf
      have hnone : (runOp reloadInterp env retry_count st).1 = none := by
        cases hr : (runOp reloadInterp env retry_count st).1 with
        | none => rfl
        | some v =>
          have hv : v = true :=
            runOp_ret_true reloadInterp env retry_count st reloadInterp_ret_true v hr
          have : (reload_xray env st retry_count).1 = v := by
            show (runOp reloadInterp env retry_count st).1.getD false = v
            rw [hr, hv]
            rfl
          rw [hf] at this
          rw [hv] at this
          cases this
      exact runOp_sleep_of_fail_ok reloadInterp env retry_count st hA hnone
    · intro a e
      exact runOp_reqCount_ok (addInterp port) env retry_count st hA a e
    · intro a e
      exact runOp_reqCount_ok removeInterp env retry_count st hA a e
    · intro a e
      exact runOp_reqCount_ok reloadInterp env retry_count st hA a e
  · intro hA hl
    have hadd := runOp_login_fail (addInterp port) env retry_count st hA hl
    have hrem := runOp_login_fail removeInterp env retry_count st hA hl
    have hrel := runOp_login_fail reloadInterp env retry_count st hA hl
    refine ⟨⟨?_, ?_, ?_⟩, ⟨?_, ?_, ?_⟩, ⟨?_, ?_, ?_⟩⟩
    · show (runOp (addInterp port) env retry_count st).1 = none
      rw [hadd]
    · show sleepCount (runOp (addInterp port) env retry_count st).2.2 = 0
      rw [hadd]
      rfl
    · intro a e
      show reqCount a e (runOp (addInterp port) env retry_count st).2.2 = 0
      rw [hadd]
      simp [reqCount]
    · show (runOp removeInterp env retry_count st).1.getD false = false
      rw [hrem]
      rfl
    · show sleepCount (runOp removeInterp env retry_count st).2.2 = 0
      rw [hrem]
      rfl
    · intro a e
      show reqCount a e (runOp removeInterp env retry_count st).2.2 = 0
      rw [hrem]
      simp [reqCount]
    · show (runOp reloadInterp env retry_count st).1.getD false = false
      rw [hrel]
      rfl
    · show sleepCount (runOp reloadInterp env retry_count st).2.2 = 0
      rw [hrel]
      rfl
    · intro a e
      show reqCount a e (runOp reloadInterp env retry_count st).2.2 = 0
      rw [hrel]
      simp [reqCount]

/-- Witness for C6: on a registry that always answers 500, an authenticated
client's `add_socks5_outbound` with the default `retry_count = 3` fails after
exactly two one-second pauses (three attempts). -/
theorem bounded_retry_witness :
    sleepCount (add_socks5_outbound envAllFail stAuth 9090 3).2.2 = 3 - 1 :=
  ((bounded_retry_per_op envAllFail stAuth 9090 3).1 (Or.inl rfl)).1 (by decide)

/-- Counterexample to claim C6 as stated: the claim covers `list_outbounds`,
but on a registry that always answers 500 an authenticated client's
`list_outbounds` fails after a single pass with no 1-second pause
(the claim, with the default `retry_count = 3`, requires two pauses). -/
theorem list_no_retry_cex :
    (list_outbounds envAllFail stAuth).1 = none ∧
    ¬ (sleepCount (list_outbounds envAllFail stAuth).2.2 = 3 - 1) := by
  decide

/-! ## Effect lemmas for the supervisor operations (claims C1, C3, C7) -/

theorem alUpdate_absent {α β : Type} [DecidableEq α] {k : α} (f : β → β)
    {l : List (α × β)} (h : alLookup k l = none) : alUpdate k f l = l := by
  have hne := alLookup_eq_none.mp h
  unfold alUpdate
  refine List.map_congr_left ?_ |>.trans (List.map_id l)
  intro e he
  simp [hne e he]

theorem alUpdate_alUpdate_self {α β : Type} [DecidableEq α] (k : α) (f g : β → β)
    (l : List (α × β)) :
    alUpdate k g (alUpdate k f l) = alUpdate k (fun x => g (f x)) l := by
  unfold alUpdate
  rw [List.map_map]
  refine List.map_congr_left ?_
  intro e _
  by_cases h : e.1 = k <;> simp [Function.comp, h]

/-- Net record effect of `stop_ssh_tunnel` on its target. -/
def sshStopClear (c : SSHTunnel) : SSHTunnel :=
  { c with state := .stopped, pid := none, xui_outbound_id := none }

/-- Net record effect of a successful `start_ssh_tunnel` on its target. -/
def sshStarted (o : SshStartOutcome) (c : SSHTunnel) : SSHTunnel :=
  { c with pid := some o.pid, state := .running, xui_outbound_id := o.outbound }

/-- Net record effect of `stop_dnstt_tunnel` on its target. -/
def dnsttStopClear (t : DNSTTTunnel) : DNSTTTunnel :=
  { t with state := .stopped, pid := none }

/-- Net record effect of a successful `start_dnstt_tunnel` on its target. -/
def dnsttStarted (o : StartOutcome) (t : DNSTTTunnel) : DNSTTTunnel :=
  { t with pid := some o.pid, state := .running }

theorem stop_ssh_dnstt_eq (s : ManagerState) (tunnel_id ssh_id : Nat) (r : Bool) :
    (stop_ssh_tunnel s tunnel_id ssh_id r).1.dnstt_tunnels = s.dnstt_tunnels := by
  unfold stop_ssh_tunnel
  cases h : alLookup (tunnel_id, ssh_id) s.ssh_tunnels with
  | none => rfl
  | some c =>
    dsimp only
    cases c.xui_outbound_id with
    | none => rfl
    | some oid => by_cases hr : r = true <;> simp [setSsh, setRegistry, hr]

theorem stop_ssh_ssh_eq (s : ManagerState) (tunnel_id ssh_id : Nat) (r : Bool) :
    (stop_ssh_tunnel s tunnel_id ssh_id r).1.ssh_tunnels =
      alUpdate (tunnel_id, ssh_id) sshStopClear s.ssh_tunnels := by
  unfold stop_ssh_tunnel
  cases h : alLookup (tunnel_id, ssh_id) s.ssh_tunnels with
  | none => exact (alUpdate_absent sshStopClear h).symm
  | some c =>
    have hcomp :
        alUpdate (tunnel_id, ssh_id)
          (fun u => { u with state := .stopped, pid := none, xui_outbound_id := none })
          (alUpdate (tunnel_id, ssh_id) (fun u => { u with state := .stopping })
            s.ssh_tunnels) =
        alUpdate (tunnel_id, ssh_id) sshStopClear s.ssh_tunnels := by
      rw [alUpdate_alUpdate_self]
      rfl
    dsimp only
    cases c.xui_outbound_id with
    | none => exact hcomp
    | some oid =>
      dsimp only
      by_cases hr : r = true
      · rw [if_pos hr]
        exact hcomp
      · rw [if_neg hr]
        exact hcomp

theorem start_ssh_dnstt_eq (s : ManagerState) (tunnel_id ssh_id dp sp : Nat)
    (o : SshStartOutcome) :
    (start_ssh_tunnel s tunnel_id ssh_id dp sp o).1.dnstt_tunnels = s.dnstt_tunnels := by
  unfold start_ssh_tunnel
  by_cases ho : o.ok = true
  · cases o.outbound <;> simp [ho, setSsh, setRegistry]
  · simp [ho]

theorem start_ssh_ssh_eq (s : ManagerState) (tunnel_id ssh_id dp sp : Nat)
    (o : SshStartOutcome) :
    (start_ssh_tunnel s tunnel_id ssh_id dp sp o).1.ssh_tunnels =
      (if o.ok then alUpdate (tunnel_id, ssh_id) (sshStarted o) s.ssh_tunnels
       else s.ssh_tunnels) := by
  unfold start_ssh_tunnel
  by_cases ho : o.ok = true
  · rw [if_pos ho, if_pos ho]
    have h1 : (match o.outbound with
        | some oid => setRegistry s
            (s.registry ++ [(oid, registryRemark (sshRemark tunnel_id ssh_id) sp)])
        | none => s).ssh_tunnels = s.ssh_tunnels := by
      cases o.outbound <;> rfl
    dsimp only
    rw [h1]
    rfl
  · rw [if_neg ho, if_neg ho]

theorem start_dnstt_dnstt_eq (s : ManagerState) (tunnel_id lp : Nat) (o : StartOutcome) :
    (start_dnstt_tunnel s tunnel_id lp o).1.dnstt_tunnels =
      (if o.ok then alUpdate tunnel_id (dnsttStarted o) s.dnstt_tunnels
       else s.dnstt_tunnels) := by
  unfold start_dnstt_tunnel
  by_cases ho : o.ok = true
  · rw [if_pos ho, if_pos ho]
    rfl
  · rw [if_neg ho, if_neg ho]

theorem start_dnstt_ssh_eq (s : ManagerState) (tunnel_id lp : Nat) (o : StartOutcome) :
    (start_dnstt_tunnel s tunnel_id lp o).1.ssh_tunnels = s.ssh_tunnels := by
  unfold start_dnstt_tunnel
  by_cases ho : o.ok = true <;> simp [ho, setDnstt]

theorem start_dnstt_ret (s : ManagerState) (tunnel_id lp : Nat) (o : StartOutcome) :
    (start_dnstt_tunnel s tunnel_id lp o).2 = o.ok := by
  unfold start_dnstt_tunnel
  by_cases ho : o.ok = true <;> simp [ho]

/-- The child-stopping fold inside `stop_dnstt_tunnel`. -/
def stopChildren (s : ManagerState) (tunnel_id : Nat) (removeOk : Nat → Bool)
    (ids : List Nat) : ManagerState :=
  ids.foldl (fun acc sid => (stop_ssh_tunnel acc tunnel_id sid (removeOk sid)).1) s

theorem stopChildren_dnstt_eq (tunnel_id : Nat) (removeOk : Nat → Bool) :
    ∀ (ids : List Nat) (s : ManagerState),
      (stopChildren s tunnel_id removeOk ids).dnstt_tunnels = s.dnstt_tunnels := by
  intro ids
  induction ids with
  | nil => intro s; rfl
  | cons i rest ih =>
    intro s
    unfold stopChildren at ih ⊢
    rw [List.foldl_cons, ih, stop_ssh_dnstt_eq]

theorem stopChildren_ssh_mem (tunnel_id : Nat) (removeOk : Nat → Bool) :
    ∀ (ids : List Nat) (s : ManagerState),
      ∀ ce ∈ (stopChildren s tunnel_id removeOk ids).ssh_tunnels,
        (ce.1.1 = tunnel_id ∧ ∃ c0, (ce.1, c0) ∈ s.ssh_tunnels ∧ ce.2 = sshStopClear c0) ∨
        ce ∈ s.ssh_tunnels := by
  intro ids
  induction ids with
  | nil => intro s ce hce; exact Or.inr hce
  | cons i rest ih =>
    intro s ce hce
    unfold stopChildren at hce
    rw [List.foldl_cons] at hce
    rcases ih (stop_ssh_tunnel s tunnel_id i (removeOk i)).1 ce hce with
      ⟨hfst, c1, hc1, hclear⟩ | hmem
    · rw [stop_ssh_ssh_eq] at hc1
      rcases mem_alUpdate_elim hc1 with ⟨hk, c0, hc0, hval⟩ | ⟨_, hc0⟩
      · refine Or.inl ⟨hfst, c0, ?_, ?_⟩
        · rw [hk]
          exact hc0
        · have hval2 : c1 = sshStopClear c0 := hval
          rw [hclear, hval2]
          rfl
      · exact Or.inl ⟨hfst, c1, hc0, hclear⟩
    · rw [stop_ssh_ssh_eq] at hmem
      rcases mem_alUpdate_elim hmem with ⟨hk, c0, hc0, hval⟩ | ⟨_, hc0⟩
      · refine Or.inl ⟨by rw [hk], c0, ?_, hval⟩
        rw [hk]
        exact hc0
      · exact Or.inr hc0

theorem stopChildren_ssh_covered (tunnel_id : Nat) (removeOk : Nat → Bool) :
    ∀ (ids : List Nat) (s : ManagerState),
      ∀ ce ∈ (stopChildren s tunnel_id removeOk ids).ssh_tunnels,
        ce.1.1 = tunnel_id → ce.1.2 ∈ ids →
        ce.2.state = TunnelState.stopped ∧ ce.2.pid = none := by
  intro ids
  induction ids with
  | nil => intro s ce _ _ hmem; simp at hmem
  | cons i rest ih =>
    intro s ce hce hfst hsnd
    unfold stopChildren at hce
    rw [List.foldl_cons] at hce
    by_cases hin : ce.1.2 ∈ rest
    · exact ih _ ce hce hfst hin
    · have hkey : ce.1 = (tunnel_id, i) := by
        have : ce.1.2 = i := by
          rcases List.mem_cons.mp hsnd with h | h
          · exact h
          · exact absurd h hin
        exact Prod.ext hfst this
      rcases stopChildren_ssh_mem tunnel_id removeOk rest _ ce hce with
        ⟨_, c0, _, hclear⟩ | hmem
      · rw [hclear]
        exact ⟨rfl, rfl⟩
      · rw [stop_ssh_ssh_eq] at hmem
        rcases mem_alUpdate_elim hmem with ⟨_, c0, _, hval⟩ | ⟨hne, _⟩
        · rw [hval]
          exact ⟨rfl, rfl⟩
        · exact absurd hkey hne

theorem stop_dnstt_absent (s : ManagerState) (tunnel_id : Nat) (removeOk : Nat → Bool)
    (h : alLookup tunnel_id s.dnstt_tunnels = none) :
    stop_dnstt_tunnel s tunnel_id removeOk = (s, true) := by
  unfold stop_dnstt_tunnel
  rw [h]

theorem stop_dnstt_unfold_found (s : ManagerState) (tunnel_id : Nat)
    (removeOk : Nat → Bool) (t0 : DNSTTTunnel)
    (h : alLookup tunnel_id s.dnstt_tunnels = some t0) :
    (stop_dnstt_tunnel s tunnel_id removeOk).1 =
      (let s1 := setDnstt s
        (alUpdate tunnel_id (fun t => { t with state := .stopping }) s.dnstt_tunnels)
       let childIds := (s1.ssh_tunnels.filter (fun ce => ce.1.1 == tunnel_id)).map
         (fun ce => ce.2.ssh_id)
       let s2 := stopChildren s1 tunnel_id removeOk childIds
       setDnstt s2
         (alUpdate tunnel_id (fun t => { t with state := .stopped, pid := none })
           s2.dnstt_tunnels)) := by
  unfold stop_dnstt_tunnel
  rw [h]
  rfl

theorem stop_dnstt_dnstt_eq (s : ManagerState) (tunnel_id : Nat)
    (removeOk : Nat → Bool) :
    (stop_dnstt_tunnel s tunnel_id removeOk).1.dnstt_tunnels =
      alUpdate tunnel_id dnsttStopClear s.dnstt_tunnels := by
  cases h : alLookup tunnel_id s.dnstt_tunnels with
  | none =>
    rw [stop_dnstt_absent s tunnel_id removeOk h]
    exact (alUpdate_absent dnsttStopClear h).symm
  | some t0 =>
    rw [stop_dnstt_unfold_found s tunnel_id removeOk t0 h]
    dsimp only [setDnstt]
    rw [stopChildren_dnstt_eq]
    dsimp only
    rw [alUpdate_alUpdate_self]
    rfl

theorem stop_dnstt_ssh_mem (s : ManagerState) (tunnel_id : Nat)
    (removeOk : Nat → Bool) (t0 : DNSTTTunnel)
    (hfound : alLookup tunnel_id s.dnstt_tunnels = some t0)
    (hfld : ∀ ce ∈ s.ssh_tunnels, ce.2.ssh_id = ce.1.2) :
    ∀ ce ∈ (stop_dnstt_tunnel s tunnel_id removeOk).1.ssh_tunnels,
      (ce.1.1 = tunnel_id ∧ ce.2.state = TunnelState.stopped ∧ ce.2.pid = none) ∨
      (ce.1.1 ≠ tunnel_id ∧ ce ∈ s.ssh_tunnels) := by
  intro ce hce
  rw [stop_dnstt_unfold_found s tunnel_id removeOk t0 hfound] at hce
  dsimp only [setDnstt] at hce
  set ids := ((setDnstt s
    (alUpdate tunnel_id (fun t => { t with state := .stopping })
      s.dnstt_tunnels)).ssh_tunnels.filter (fun ce => ce.1.1 == tunnel_id)).map
    (fun ce => ce.2.ssh_id) with hids
  by_cases hfst : ce.1.1 = tunnel_id
  · left
    refine ⟨hfst, ?_⟩
    have hprop := stopChildren_ssh_mem tunnel_id removeOk ids _ ce hce
    rcases hprop with ⟨_, c0, _, hclear⟩ | hmem
    · rw [hclear]
      exact ⟨rfl, rfl⟩
    · refine stopChildren_ssh_covered tunnel_id removeOk ids _ ce hce hfst ?_
      rw [hids]
      refine List.mem_map.mpr ⟨ce, ?_, (hfld ce hmem).symm ▸ rfl⟩
      refine List.mem_filter.mpr ⟨hmem, ?_⟩
      simp [hfst]
  · right
    refine ⟨hfst, ?_⟩
    rcases stopChildren_ssh_mem tunnel_id removeOk ids _ ce hce with
      ⟨h1, _⟩ | hmem
    · exact absurd h1 hfst
    · exact hmem

theorem stopChildren_ssh_lookup_ne (tunnel_id : Nat) (removeOk : Nat → Bool) :
    ∀ (ids : List Nat) (s : ManagerState) (k : Nat × Nat), k.1 ≠ tunnel_id →
      alLookup k (stopChildren s tunnel_id removeOk ids).ssh_tunnels =
        alLookup k s.ssh_tunnels := by
  intro ids
  induction ids with
  | nil => intro s k _; rfl
  | cons i rest ih =>
    intro s k hk
    unfold stopChildren at ih ⊢
    rw [List.foldl_cons, ih _ k hk, stop_ssh_ssh_eq]
    refine alLookup_alUpdate_ne _ _ ?_
    intro hc
    exact hk (by rw [hc])

theorem stopChildren_ssh_rc (tunnel_id : Nat) (removeOk : Nat → Bool) :
    ∀ (ids : List Nat) (s : ManagerState) (k : Nat × Nat),
      (alLookup k (stopChildren s tunnel_id removeOk ids).ssh_tunnels).map
          (fun c => c.restart_count) =
        (alLookup k s.ssh_tunnels).map (fun c => c.restart_count) := by
  intro ids
  induction ids with
  | nil => intro s k; rfl
  | cons i rest ih =>
    intro s k
    unfold stopChildren at ih ⊢
    rw [List.foldl_cons, ih _ k, stop_ssh_ssh_eq]
    by_cases hk : k = (tunnel_id, i)
    · rw [hk, alLookup_alUpdate_self]
      cases alLookup (tunnel_id, i) s.ssh_tunnels <;> rfl
    · rw [alLookup_alUpdate_ne _ _ hk]

theorem stop_dnstt_ssh_lookup_ne (s : ManagerState) (tunnel_id : Nat)
    (removeOk : Nat → Bool) (k : Nat × Nat) (hk : k.1 ≠ tunnel_id) :
    alLookup k (stop_dnstt_tunnel s tunnel_id removeOk).1.ssh_tunnels =
      alLookup k s.ssh_tunnels := by
  cases h : alLookup tunnel_id s.dnstt_tunnels with
  | none => rw [stop_dnstt_absent s tunnel_id removeOk h]
  | some t0 =>
    rw [stop_dnstt_unfold_found s tunnel_id removeOk t0 h]
    dsimp only [setDnstt]
    rw [stopChildren_ssh_lookup_ne tunnel_id removeOk _ _ k hk]

theorem stop_dnstt_ssh_rc (s : ManagerState) (tunnel_id : Nat)
    (removeOk : Nat → Bool) (k : Nat × Nat) :
    (alLookup k (stop_dnstt_tunnel s tunnel_id removeOk).1.ssh_tunnels).map
        (fun c => c.restart_count) =
      (alLookup k s.ssh_tunnels).map (fun c => c.restart_count) := by
  cases h : alLookup tunnel_id s.dnstt_tunnels with
  | none => rw [stop_dnstt_absent s tunnel_id removeOk h]
  | some t0 =>
    rw [stop_dnstt_unfold_found s tunnel_id removeOk t0 h]
    dsimp only [setDnstt]
    rw [stopChildren_ssh_rc tunnel_id removeOk _ _ k]

theorem stopChildren_ssh_keys (tunnel_id : Nat) (removeOk : Nat → Bool) :
    ∀ (ids : List Nat) (s : ManagerState),
      (stopChildren s tunnel_id removeOk ids).ssh_tunnels.map Prod.fst =
        s.ssh_tunnels.map Prod.fst := by
  intro ids
  induction ids with
  | nil => intro s; rfl
  | cons i rest ih =>
    intro s
    unfold stopChildren at ih ⊢
    rw [List.foldl_cons, ih, stop_ssh_ssh_eq, alUpdate_keys]

theorem stop_dnstt_ssh_keys (s : ManagerState) (tunnel_id : Nat)
    (removeOk : Nat → Bool) :
    (stop_dnstt_tunnel s tunnel_id removeOk).1.ssh_tunnels.map Prod.fst =
      s.ssh_tunnels.map Prod.fst := by
  cases h : alLookup tunnel_id s.dnstt_tunnels with
  | none => rw [stop_dnstt_absent s tunnel_id removeOk h]
  | some t0 =>
    rw [stop_dnstt_unfold_found s tunnel_id removeOk t0 h]
    dsimp only [setDnstt]
    rw [stopChildren_ssh_keys tunnel_id removeOk]

/-! ## The parent-child ownership invariant (claim C1) -/

/-- "Owned and quiescent": the child is in {STOPPED, STOPPING, FAILED} and
holds no live process. -/
def childSafe (c : SSHTunnel) : Prop :=
  (c.state = TunnelState.stopped ∨ c.state = TunnelState.stopping ∨
    c.state = TunnelState.failed) ∧ c.pid = none

/-- Parent-child ownership: every SSH record has a parent DNSTT record, and
whenever that parent is not RUNNING the child is quiescent. -/
def OwnInv (s : ManagerState) : Prop :=
  ∀ ce ∈ s.ssh_tunnels,
    (∃ pe ∈ s.dnstt_tunnels, pe.1 = ce.1.1) ∧
    (∀ pe ∈ s.dnstt_tunnels, pe.1 = ce.1.1 →
      pe.2.state ≠ TunnelState.running → childSafe ce.2)

/-- Structural well-formedness plus the ownership invariant, preserved by
every supervisor mutator (the induction hypothesis for claim C1). -/
structure Good (cfg : Config) (s : ManagerState) : Prop where
  nodupD : (s.dnstt_tunnels.map Prod.fst).Nodup
  nodupS : (s.ssh_tunnels.map Prod.fst).Nodup
  fieldS : ∀ ce ∈ s.ssh_tunnels, ce.2.ssh_id = ce.1.2
  domD : ∀ pe ∈ s.dnstt_tunnels, pe.1 < cfg.dnstt_count
  domS : ∀ ce ∈ s.ssh_tunnels,
    ce.1.1 < cfg.dnstt_count ∧ ce.1.2 < cfg.ssh_per_dnstt
  inv : OwnInv s

/-- The parent with this id exists and every record of it is RUNNING. -/
def runningParent (s : ManagerState) (tunnel_id : Nat) : Prop :=
  (∃ pe ∈ s.dnstt_tunnels, pe.1 = tunnel_id) ∧
  (∀ pe ∈ s.dnstt_tunnels, pe.1 = tunnel_id → pe.2.state = TunnelState.running)

theorem exists_key_iff {α β : Type} (l : List (α × β)) (x : α) :
    (∃ e ∈ l, e.1 = x) ↔ x ∈ l.map Prod.fst := by
  constructor
  · rintro ⟨e, he, hex⟩
    exact List.mem_map.mpr ⟨e, he, hex⟩
  · intro hx
    rcases List.mem_map.mp hx with ⟨e, he, hex⟩
    exact ⟨e, he, hex⟩

theorem nodup_mem_lookup {α β : Type} [DecidableEq α] {l : List (α × β)} {k : α}
    {v : β} (hnd : (l.map Prod.fst).Nodup) (h : (k, v) ∈ l) :
    alLookup k l = some v := by
  induction l with
  | nil => simp at h
  | cons e rest ih =>
    rcases List.mem_cons.mp h with h1 | h1
    · rw [← h1]
      simp [alLookup]
    · have hk : e.1 ≠ k := by
        intro hc
        have : e.1 ∈ rest.map Prod.fst := List.mem_map.mpr ⟨(k, v), h1, hc.symm⟩
        exact (List.nodup_cons.mp (by simpa using hnd)).1 this
      simp only [alLookup, if_neg hk]
      exact ih (List.nodup_cons.mp (by simpa using hnd)).2 h1

theorem alLookup_alInsert_ne {α β : Type} [DecidableEq α] {k k' : α} (v : β)
    (l : List (α × β)) (hne : k' ≠ k) :
    alLookup k' (alInsert k v l) = alLookup k' l := by
  unfold alInsert
  cases hl : alLookup k l with
  | some w => exact alLookup_alUpdate_ne _ l hne
  | none =>
    rw [alLookup_append]
    cases h2 : alLookup k' l with
    | some w => rfl
    | none => simp [alLookup, Ne.symm hne]

theorem foldInsert_mem {α β : Type} [DecidableEq α] (v : α → β) :
    ∀ (L : List α) (m : List (α × β)) (e : α × β),
      e ∈ L.foldl (fun acc k => alInsert k (v k) acc) m →
      (e.1 ∈ L ∧ e.2 = v e.1) ∨ (e ∈ m ∧ e.1 ∉ L) := by
  intro L
  induction L with
  | nil => intro m e he; exact Or.inr ⟨he, by simp⟩
  | cons k L' ih =>
    intro m e he
    rw [List.foldl_cons] at he
    rcases ih (alInsert k (v k) m) e he with ⟨h1, h2⟩ | ⟨h1, h2⟩
    · exact Or.inl ⟨List.mem_cons_of_mem _ h1, h2⟩
    · rcases mem_alInsert_elim h1 with ⟨hk, hv⟩ | ⟨hm, hk⟩
      · exact Or.inl ⟨by rw [hk]; exact List.mem_cons_self _ _, by rw [hk, hv]⟩
      · refine Or.inr ⟨hm, ?_⟩
        intro hc
        rcases List.mem_cons.mp hc with hc1 | hc1
        · exact hk hc1
        · exact h2 hc1

theorem foldInsert_lookup_ne {α β : Type} [DecidableEq α] (v : α → β) :
    ∀ (L : List α) (m : List (α × β)) (k : α), k ∉ L →
      alLookup k (L.foldl (fun acc k' => alInsert k' (v k') acc) m) =
        alLookup k m := by
  intro L
  induction L with
  | nil => intro m k _; rfl
  | cons k0 L' ih =>
    intro m k hk
    rw [List.foldl_cons, ih _ k (fun hc => hk (List.mem_cons_of_mem _ hc))]
    exact alLookup_alInsert_ne _ m (fun hc => hk (hc ▸ List.mem_cons_self _ _))

theorem foldInsert_lookup_mem {α β : Type} [DecidableEq α] (v : α → β) :
    ∀ (L : List α), L.Nodup → ∀ (m : List (α × β)) (k : α), k ∈ L →
      alLookup k (L.foldl (fun acc k' => alInsert k' (v k') acc) m) = some (v k) := by
  intro L
  induction L with
  | nil => intro _ m k hk; simp at hk
  | cons k0 L' ih =>
    intro hnd m k hk
    rw [List.foldl_cons]
    by_cases hkL : k ∈ L'
    · exact ih (List.nodup_cons.mp hnd).2 _ k hkL
    · have hk0 : k = k0 := by
        rcases List.mem_cons.mp hk with h | h
        · exact h
        · exact absurd h hkL
      subst hk0
      rw [foldInsert_lookup_ne v L' _ k hkL, alLookup_alInsert_self]

theorem good_of_components {cfg : Config} {s' s2 : ManagerState}
    (hd : s'.dnstt_tunnels = s2.dnstt_tunnels)
    (hs : s'.ssh_tunnels = s2.ssh_tunnels) (hg : Good cfg s2) : Good cfg s' := by
  refine ⟨?_, ?_, ?_, ?_, ?_, ?_⟩
  · rw [hd]; exact hg.nodupD
  · rw [hs]; exact hg.nodupS
  · rw [hs]; exact hg.fieldS
  · rw [hd]; exact hg.domD
  · rw [hs]; exact hg.domS
  · show ∀ ce ∈ s'.ssh_tunnels, _
    rw [hs, hd]
    exact hg.inv

theorem good_update_child_safe (cfg : Config) (s : ManagerState) (k : Nat × Nat)
    (f : SSHTunnel → SSHTunnel) (hfid : ∀ c, (f c).ssh_id = c.ssh_id)
    (hsafe : ∀ c, childSafe (f c)) (hg : Good cfg s) :
    Good cfg { s with ssh_tunnels := alUpdate k f s.ssh_tunnels } := by
  refine ⟨hg.nodupD, ?_, ?_, hg.domD, ?_, ?_⟩
  · show ((alUpdate k f s.ssh_tunnels).map Prod.fst).Nodup
    rw [alUpdate_keys]
    exact hg.nodupS
  · intro ce hce
    rcases mem_alUpdate_elim hce with ⟨hk, b, hb, hv⟩ | ⟨_, hm⟩
    · rw [hv, hfid b, hk]
      exact hg.fieldS (k, b) hb
    · exact hg.fieldS ce hm
  · intro ce hce
    rcases mem_alUpdate_elim hce with ⟨hk, b, hb, _⟩ | ⟨_, hm⟩
    · rw [hk]
      exact hg.domS (k, b) hb
    · exact hg.domS ce hm
  · intro ce hce
    rcases mem_alUpdate_elim hce with ⟨hk, b, hb, hv⟩ | ⟨_, hm⟩
    · constructor
      · rw [hk]
        exact (hg.inv (k, b) hb).1
      · intro pe hpe _ _
        rw [hv]
        exact hsafe b
    · exact hg.inv ce hm

theorem good_update_child_run (cfg : Config) (s : ManagerState) (k : Nat × Nat)
    (f : SSHTunnel → SSHTunnel) (hfid : ∀ c, (f c).ssh_id = c.ssh_id)
    (hrun : runningParent s k.1) (hg : Good cfg s) :
    Good cfg { s with ssh_tunnels := alUpdate k f s.ssh_tunnels } := by
  refine ⟨hg.nodupD, ?_, ?_, hg.domD, ?_, ?_⟩
  · show ((alUpdate k f s.ssh_tunnels).map Prod.fst).Nodup
    rw [alUpdate_keys]
    exact hg.nodupS
  · intro ce hce
    rcases mem_alUpdate_elim hce with ⟨hk, b, hb, hv⟩ | ⟨_, hm⟩
    · rw [hv, hfid b, hk]
      exact hg.fieldS (k, b) hb
    · exact hg.fieldS ce hm
  · intro ce hce
    rcases mem_alUpdate_elim hce with ⟨hk, b, hb, _⟩ | ⟨_, hm⟩
    · rw [hk]
      exact hg.domS (k, b) hb
    · exact hg.domS ce hm
  · intro ce hce
    rcases mem_alUpdate_elim hce with ⟨hk, b, hb, _⟩ | ⟨_, hm⟩
    · constructor
      · rw [hk]
        exact hrun.1
      · intro pe hpe hkey hnr
        exfalso
        refine hnr (hrun.2 pe hpe ?_)
        rw [hkey, hk]
    · exact hg.inv ce hm

theorem good_update_parent_statepres (cfg : Config) (s : ManagerState) (tid : Nat)
    (f : DNSTTTunnel → DNSTTTunnel) (hfs : ∀ t, (f t).state = t.state)
    (hg : Good cfg s) :
    Good cfg { s with dnstt_tunnels := alUpdate tid f s.dnstt_tunnels } := by
  refine ⟨?_, hg.nodupS, hg.fieldS, ?_, hg.domS, ?_⟩
  · show ((alUpdate tid f s.dnstt_tunnels).map Prod.fst).Nodup
    rw [alUpdate_keys]
    exact hg.nodupD
  · intro pe hpe
    rcases mem_alUpdate_elim hpe with ⟨hk, b, hb, _⟩ | ⟨_, hm⟩
    · rw [hk]
      exact hg.domD (tid, b) hb
    · exact hg.domD pe hm
  · intro ce hce
    constructor
    · rw [exists_key_iff, alUpdate_keys, ← exists_key_iff]
      exact (hg.inv ce hce).1
    · intro pe hpe hkey hnr
      rcases mem_alUpdate_elim hpe with ⟨hk, b, hb, hv⟩ | ⟨_, hm⟩
      · refine (hg.inv ce hce).2 (tid, b) hb ?_ ?_
        · rw [← hkey, hk]
        · rw [hv, hfs b] at hnr
          exact hnr
      · exact (hg.inv ce hce).2 pe hm hkey hnr

theorem good_update_parent_run (cfg : Config) (s : ManagerState) (tid : Nat)
    (f : DNSTTTunnel → DNSTTTunnel)
    (hfs : ∀ t, (f t).state = TunnelState.running) (hg : Good cfg s) :
    Good cfg { s with dnstt_tunnels := alUpdate tid f s.dnstt_tunnels } := by
  refine ⟨?_, hg.nodupS, hg.fieldS, ?_, hg.domS, ?_⟩
  · show ((alUpdate tid f s.dnstt_tunnels).map Prod.fst).Nodup
    rw [alUpdate_keys]
    exact hg.nodupD
  · intro pe hpe
    rcases mem_alUpdate_elim hpe with ⟨hk, b, hb, _⟩ | ⟨_, hm⟩
    · rw [hk]
      exact hg.domD (tid, b) hb
    · exact hg.domD pe hm
  · intro ce hce
    constructor
    · rw [exists_key_iff, alUpdate_keys, ← exists_key_iff]
      exact (hg.inv ce hce).1
    · intro pe hpe hkey hnr
      rcases mem_alUpdate_elim hpe with ⟨_, b, _, hv⟩ | ⟨_, hm⟩
      · exfalso
        refine hnr ?_
        rw [hv, hfs b]
      · exact (hg.inv ce hce).2 pe hm hkey hnr

theorem good_stop_ssh (cfg : Config) (s : ManagerState) (tunnel_id ssh_id : Nat)
    (r : Bool) (hg : Good cfg s) :
    Good cfg (stop_ssh_tunnel s tunnel_id ssh_id r).1 := by
  exact @good_of_components cfg (stop_ssh_tunnel s tunnel_id ssh_id r).1
    { s with ssh_tunnels := alUpdate (tunnel_id, ssh_id) sshStopClear s.ssh_tunnels }
    (stop_ssh_dnstt_eq s tunnel_id ssh_id r)
    (stop_ssh_ssh_eq s tunnel_id ssh_id r)
    (good_update_child_safe cfg s (tunnel_id, ssh_id) sshStopClear
      (fun c => rfl) (fun c => ⟨Or.inl rfl, rfl⟩) hg)

theorem good_start_dnstt (cfg : Config) (s : ManagerState) (tunnel_id lp : Nat)
    (o : StartOutcome) (hg : Good cfg s) :
    Good cfg (start_dnstt_tunnel s tunnel_id lp o).1 := by
  by_cases ho : o.ok = true
  · refine @good_of_components cfg (start_dnstt_tunnel s tunnel_id lp o).1
      { s with dnstt_tunnels := alUpdate tunnel_id (dnsttStarted o) s.dnstt_tunnels }
      ?_ (start_dnstt_ssh_eq s tunnel_id lp o)
      (good_update_parent_run cfg s tunnel_id (dnsttStarted o) (fun t => rfl) hg)
    rw [start_dnstt_dnstt_eq, if_pos ho]
  · have hq : (start_dnstt_tunnel s tunnel_id lp o).1 = s := by
      unfold start_dnstt_tunnel
      rw [if_neg ho]
    rw [hq]
    exact hg

theorem good_start_ssh (cfg : Config) (s : ManagerState) (tunnel_id ssh_id dp sp : Nat)
    (o : SshStartOutcome) (hrun : runningParent s tunnel_id) (hg : Good cfg s) :
    Good cfg (start_ssh_tunnel s tunnel_id ssh_id dp sp o).1 := by
  by_cases ho : o.ok = true
  · refine @good_of_components cfg (start_ssh_tunnel s tunnel_id ssh_id dp sp o).1
      { s with ssh_tunnels := alUpdate (tunnel_id, ssh_id) (sshStarted o) s.ssh_tunnels }
      (start_ssh_dnstt_eq s tunnel_id ssh_id dp sp o) ?_
      (good_update_child_run cfg s (tunnel_id, ssh_id) (sshStarted o)
        (fun c => rfl) hrun hg)
    rw [start_ssh_ssh_eq, if_pos ho]
  · have hq : (start_ssh_tunnel s tunnel_id ssh_id dp sp o).1 = s := by
      unfold start_ssh_tunnel
      rw [if_neg ho]
    rw [hq]
    exact hg

/-- Everything `Good` guarantees except the quiescence of the children of one
parent — the state right after the monitor loop marks that parent FAILED. -/
structure PreGood (cfg : Config) (tunnel_id : Nat) (s : ManagerState) : Prop where
  nodupD : (s.dnstt_tunnels.map Prod.fst).Nodup
  nodupS : (s.ssh_tunnels.map Prod.fst).Nodup
  fieldS : ∀ ce ∈ s.ssh_tunnels, ce.2.ssh_id = ce.1.2
  domD : ∀ pe ∈ s.dnstt_tunnels, pe.1 < cfg.dnstt_count
  domS : ∀ ce ∈ s.ssh_tunnels,
    ce.1.1 < cfg.dnstt_count ∧ ce.1.2 < cfg.ssh_per_dnstt
  hex : ∀ ce ∈ s.ssh_tunnels, ∃ pe ∈ s.dnstt_tunnels, pe.1 = ce.1.1
  hsafe : ∀ ce ∈ s.ssh_tunnels, ce.1.1 ≠ tunnel_id →
    ∀ pe ∈ s.dnstt_tunnels, pe.1 = ce.1.1 →
      pe.2.state ≠ TunnelState.running → childSafe ce.2

theorem pregood_of_good {cfg : Config} {s : ManagerState} (tunnel_id : Nat)
    (hg : Good cfg s) : PreGood cfg tunnel_id s :=
  ⟨hg.nodupD, hg.nodupS, hg.fieldS, hg.domD, hg.domS,
   fun ce hce => (hg.inv ce hce).1,
   fun ce hce _ pe hpe hkey hnr => (hg.inv ce hce).2 pe hpe hkey hnr⟩

theorem pregood_update_parent (cfg : Config) (s : ManagerState) (tunnel_id : Nat)
    (f : DNSTTTunnel → DNSTTTunnel) (hp : PreGood cfg tunnel_id s) :
    PreGood cfg tunnel_id
      { s with dnstt_tunnels := alUpdate tunnel_id f s.dnstt_tunnels } := by
  refine ⟨?_, hp.nodupS, hp.fieldS, ?_, hp.domS, ?_, ?_⟩
  · show ((alUpdate tunnel_id f s.dnstt_tunnels).map Prod.fst).Nodup
    rw [alUpdate_keys]
    exact hp.nodupD
  · intro pe hpe
    rcases mem_alUpdate_elim hpe with ⟨hk, b, hb, _⟩ | ⟨_, hm⟩
    · rw [hk]
      exact hp.domD (tunnel_id, b) hb
    · exact hp.domD pe hm
  · intro ce hce
    rw [exists_key_iff, alUpdate_keys, ← exists_key_iff]
    exact hp.hex ce hce
  · intro ce hce hne pe hpe hkey hnr
    rcases mem_alUpdate_elim hpe with ⟨hk, _, _, _⟩ | ⟨_, hm⟩
    · exact absurd (hkey.symm.trans hk) hne
    · exact hp.hsafe ce hce hne pe hm hkey hnr

theorem good_stop_dnstt_of_pregood (cfg : Config) (s : ManagerState)
    (tunnel_id : Nat) (removeOk : Nat → Bool)
    (hp : PreGood cfg tunnel_id s) :
    Good cfg (stop_dnstt_tunnel s tunnel_id removeOk).1 := by
  have hd := stop_dnstt_dnstt_eq s tunnel_id removeOk
  have hkS := stop_dnstt_ssh_keys s tunnel_id removeOk
  refine ⟨?_, ?_, ?_, ?_, ?_, ?_⟩
  · rw [hd, alUpdate_keys]
    exact hp.nodupD
  · rw [hkS]
    exact hp.nodupS
  · cases hf : alLookup tunnel_id s.dnstt_tunnels with
    | none =>
      rw [stop_dnstt_absent s tunnel_id removeOk hf]
      exact hp.fieldS
    | some t0 =>
      intro ce hce
      rw [stop_dnstt_unfold_found s tunnel_id removeOk t0 hf] at hce
      dsimp only [setDnstt] at hce
      rcases stopChildren_ssh_mem tunnel_id removeOk _ _ ce hce with
        ⟨_, c0, hc0, hclear⟩ | hmem
      · have hid : c0.ssh_id = ce.1.2 := hp.fieldS (ce.1, c0) hc0
        rw [hclear]
        exact hid
      · exact hp.fieldS ce hmem
  · rw [hd]
    intro pe hpe
    rcases mem_alUpdate_elim hpe with ⟨hk, b, hb, _⟩ | ⟨_, hm⟩
    · rw [hk]
      exact hp.domD (tunnel_id, b) hb
    · exact hp.domD pe hm
  · intro ce hce
    have hkey : ce.1 ∈ s.ssh_tunnels.map Prod.fst := by
      rw [← hkS]
      exact List.mem_map.mpr ⟨ce, hce, rfl⟩
    rcases (exists_key_iff _ _).mpr hkey with ⟨e0, he0, hke⟩
    have := hp.domS e0 he0
    rw [hke] at this
    exact this
  · cases hf : alLookup tunnel_id s.dnstt_tunnels with
    | none =>
      rw [stop_dnstt_absent s tunnel_id removeOk hf]
      intro ce hce
      refine ⟨hp.hex ce hce, ?_⟩
      intro pe hpe hkey hnr
      by_cases hne : ce.1.1 = tunnel_id
      · exfalso
        refine (alLookup_eq_none.mp hf) pe hpe ?_
        rw [hkey, hne]
      · exact hp.hsafe ce hce hne pe hpe hkey hnr
    | some t0 =>
      intro ce hce
      constructor
      · have hkey : ce.1 ∈ s.ssh_tunnels.map Prod.fst := by
          rw [← hkS]
          exact List.mem_map.mpr ⟨ce, hce, rfl⟩
        rcases (exists_key_iff _ _).mpr hkey with ⟨e0, he0, hke⟩
        have hx := hp.hex e0 he0
        rw [hke] at hx
        rw [exists_key_iff, hd, alUpdate_keys, ← exists_key_iff]
        exact hx
      · intro pe hpe hkey hnr
        rcases stop_dnstt_ssh_mem s tunnel_id removeOk t0 hf hp.fieldS ce hce with
          ⟨_, hst, hpid⟩ | ⟨hne, hm⟩
        · exact ⟨Or.inl hst, hpid⟩
        · rw [hd] at hpe
          rcases mem_alUpdate_elim hpe with ⟨hk, _, _, _⟩ | ⟨_, hmp⟩
          · exact absurd (hkey.symm.trans hk) hne
          · exact hp.hsafe ce hm hne pe hmp hkey hnr

theorem all_key_eq_of_nodup {α β : Type} [DecidableEq α] {l : List (α × β)} {k : α}
    {v : β} (hnd : (l.map Prod.fst).Nodup) (hl : alLookup k l = some v) :
    ∀ e ∈ l, e.1 = k → e.2 = v := by
  intro e he hek
  have hmem : (k, e.2) ∈ l := by
    have : e = (k, e.2) := by
      rw [← hek]
    rw [← this]
    exact he
  have := nodup_mem_lookup hnd hmem
  rw [hl] at this
  injection this with h
  exact h.symm

theorem runningParent_of_eq {s' s : ManagerState} (tunnel_id : Nat)
    (hd : s'.dnstt_tunnels = s.dnstt_tunnels) (h : runningParent s tunnel_id) :
    runningParent s' tunnel_id := by
  unfold runningParent at h ⊢
  rw [hd]
  exact h

theorem good_monitorChildBody (cfg : Config) (env : MonitorEnv) (acc : ManagerState)
    (k : Nat × Nat) (hg : Good cfg acc) :
    Good cfg (monitorChildBody cfg env acc k) := by
  unfold monitorChildBody
  cases hp : alLookup k.1 acc.dnstt_tunnels with
  | none => exact hg
  | some p =>
    dsimp only
    by_cases hps : p.state ≠ TunnelState.running
    · rw [if_pos hps]
      exact hg
    rw [if_neg hps]
    have hpr : p.state = TunnelState.running := not_not.mp hps
    cases hc : alLookup k acc.ssh_tunnels with
    | none => exact hg
    | some c =>
      dsimp only
      by_cases hcs : c.state ≠ TunnelState.running
      · rw [if_pos hcs]
        exact hg
      rw [if_neg hcs]
      by_cases hhl : (pidAliveWith env.pidExists c.pid && env.sshHealthy k.1 k.2) = true
      · rw [if_pos hhl]
        exact hg
      rw [if_neg hhl]
      have hrun : runningParent acc k.1 := by
        constructor
        · exact ⟨(k.1, p), alLookup_mem hp, rfl⟩
        · intro pe hpe hkey
          rw [all_key_eq_of_nodup hg.nodupD hp pe hpe hkey]
          exact hpr
      set accF := setSsh acc
          (alUpdate k
            (fun u => { u with state := TunnelState.failed,
                               restart_count := u.restart_count + 1 })
            acc.ssh_tunnels) with hFdef
      have hgF : Good cfg accF :=
        good_update_child_run cfg acc k _ (fun u => rfl) hrun hg
      have hrunF : runningParent accF k.1 :=
        runningParent_of_eq k.1 rfl hrun
      by_cases hb : c.restart_count + 1 ≤ cfg.max_retries
      · rw [if_pos hb]
        set accS := (stop_ssh_tunnel accF k.1 k.2 (env.removeOk k.1 k.2)).1 with hSdef
        set r := start_ssh_tunnel accS k.1 k.2 p.local_port c.socks5_port
          (env.sshRestart k.1 k.2) with hRdef
        have hgS : Good cfg accS :=
          good_stop_ssh cfg accF k.1 k.2 (env.removeOk k.1 k.2) hgF
        have hrunS : runningParent accS k.1 :=
          runningParent_of_eq k.1 (stop_ssh_dnstt_eq accF k.1 k.2 _) hrunF
        have hgR : Good cfg r.1 :=
          good_start_ssh cfg accS k.1 k.2 p.local_port c.socks5_port
            (env.sshRestart k.1 k.2) hrunS hgS
        have hrunR : runningParent r.1 k.1 :=
          runningParent_of_eq k.1 (start_ssh_dnstt_eq accS k.1 k.2 _ _ _) hrunS
        by_cases hok : r.2 = true
        · rw [if_pos hok]
          exact good_update_child_run cfg r.1 k _ (fun u => rfl) hrunR hgR
        · rw [if_neg hok]
          exact hgR
      · rw [if_neg hb]
        exact good_stop_ssh cfg accF k.1 k.2 (env.removeOk k.1 k.2) hgF

theorem runningParent_after_start (s : ManagerState) (tid lp : Nat)
    (o : StartOutcome) (ho : o.ok = true)
    (hmem : tid ∈ s.dnstt_tunnels.map Prod.fst) :
    runningParent (start_dnstt_tunnel s tid lp o).1 tid := by
  have hd := start_dnstt_dnstt_eq s tid lp o
  rw [if_pos ho] at hd
  constructor
  · rw [hd, exists_key_iff, alUpdate_keys]
    exact hmem
  · intro pe hpe hkey
    rw [hd] at hpe
    rcases mem_alUpdate_elim hpe with ⟨_, b, _, hv⟩ | ⟨hne, _⟩
    · rw [hv]
      rfl
    · exact absurd hkey hne

theorem good_restartChild (cfg : Config) (env : MonitorEnv) (tid lp : Nat)
    (a : ManagerState) (i : Nat) (hg : Good cfg a) (hr : runningParent a tid) :
    Good cfg (restartChild cfg env tid lp a i) ∧
      runningParent (restartChild cfg env tid lp a i) tid := by
  unfold restartChild
  cases hc : alLookup (tid, i) a.ssh_tunnels with
  | none => exact ⟨hg, hr⟩
  | some c =>
    dsimp only
    set a3 := setSsh a
      (alUpdate (tid, i) (fun u => { u with state := TunnelState.stopped })
        a.ssh_tunnels) with h3def
    have hg3 : Good cfg a3 :=
      good_update_child_run cfg a (tid, i) _ (fun u => rfl) hr hg
    have hr3 : runningParent a3 tid := runningParent_of_eq tid rfl hr
    constructor
    · exact good_start_ssh cfg a3 tid i lp
        (cfg.socks_start_port + tid * cfg.socks_ports_per_tunnel + i)
        (env.sshRestart tid i) hr3 hg3
    · exact runningParent_of_eq tid
        (start_ssh_dnstt_eq a3 tid i lp
          (cfg.socks_start_port + tid * cfg.socks_ports_per_tunnel + i)
          (env.sshRestart tid i)) hr3

theorem good_fold_of_step {cfg : Config} {tid : Nat}
    (g : ManagerState → Nat → ManagerState)
    (hstep : ∀ a i, Good cfg a → runningParent a tid →
      Good cfg (g a i) ∧ runningParent (g a i) tid) :
    ∀ (L : List Nat) (acc : ManagerState), Good cfg acc → runningParent acc tid →
      Good cfg (L.foldl g acc) ∧ runningParent (L.foldl g acc) tid := by
  intro L
  induction L with
  | nil =>
    intro acc hg hr
    exact ⟨hg, hr⟩
  | cons i rest ih =>
    intro acc hg hr
    rcases hstep acc i hg hr with ⟨hg2, hr2⟩
    exact ih (g acc i) hg2 hr2

theorem good_monitorParentBody (cfg : Config) (env : MonitorEnv)
    (acc : ManagerState) (tid : Nat) (hg : Good cfg acc) :
    Good cfg (monitorParentBody cfg env acc tid) := by
  unfold monitorParentBody
  cases hp : alLookup tid acc.dnstt_tunnels with
  | none => exact hg
  | some t =>
    dsimp only
    by_cases hts : t.state ≠ TunnelState.running
    · rw [if_pos hts]
      exact hg
    rw [if_neg hts]
    by_cases hh : (pidAliveWith env.pidExists t.pid && env.dnsttPortOk tid) = true
    · rw [if_pos hh]
      exact hg
    rw [if_neg hh]
    set accF := setDnstt acc
      (alUpdate tid
        (fun u => { u with state := TunnelState.failed,
                           restart_count := u.restart_count + 1 })
        acc.dnstt_tunnels) with hFdef
    have hpF : PreGood cfg tid accF :=
      pregood_update_parent cfg acc tid _ (pregood_of_good tid hg)
    by_cases hb : t.restart_count + 1 ≤ cfg.max_retries
    · rw [if_pos hb]
      set accS := (stop_dnstt_tunnel accF tid (env.removeOk tid)).1 with hSdef
      set r := start_dnstt_tunnel accS tid t.local_port (env.dnsttRestart tid)
        with hRdef
      have hgS : Good cfg accS :=
        good_stop_dnstt_of_pregood cfg accF tid (env.removeOk tid) hpF
      have hgR : Good cfg r.1 :=
        good_start_dnstt cfg accS tid t.local_port (env.dnsttRestart tid) hgS
      by_cases hok : r.2 = true
      · rw [if_pos hok]
        rw [hRdef, start_dnstt_ret] at hok
        have hmem : tid ∈ accS.dnstt_tunnels.map Prod.fst := by
          rw [hSdef, stop_dnstt_dnstt_eq, alUpdate_keys, hFdef]
          dsimp only [setDnstt]
          rw [alUpdate_keys, ← exists_key_iff]
          exact ⟨(tid, t), alLookup_mem hp, rfl⟩
        have hrunR : runningParent r.1 tid := by
          rw [hRdef]
          exact runningParent_after_start accS tid t.local_port
            (env.dnsttRestart tid) hok hmem
        have hfold := good_fold_of_step
          (restartChild cfg env tid t.local_port)
          (fun a i hga hra => good_restartChild cfg env tid t.local_port a i hga hra)
          (List.range cfg.ssh_per_dnstt) r.1 hgR hrunR
        exact @good_update_parent_statepres cfg
          ((List.range cfg.ssh_per_dnstt).foldl
            (restartChild cfg env tid t.local_port) r.1) tid
          (fun u => { u with restart_count := 0 }) (fun u => rfl) hfold.1
      · rw [if_neg hok]
        exact hgR
    · rw [if_neg hb]
      exact good_stop_dnstt_of_pregood cfg accF tid (env.removeOk tid) hpF

theorem foldInsert_nodup {α β : Type} [DecidableEq α] (v : α → β) :
    ∀ (L : List α) (m : List (α × β)), (m.map Prod.fst).Nodup →
      ((L.foldl (fun acc k => alInsert k (v k) acc) m).map Prod.fst).Nodup := by
  intro L
  induction L with
  | nil =>
    intro m h
    exact h
  | cons k rest ih =>
    intro m h
    rw [List.foldl_cons]
    exact ih _ (alInsert_keys_nodup h)

/-- The flattened key grid `(tunnel_id, ssh_id)` the "Initialize SSH tunnel
records" loops run over. -/
def gridKeys (cfg : Config) : List (Nat × Nat) :=
  (List.range cfg.dnstt_count).flatMap
    (fun tid => (List.range cfg.ssh_per_dnstt).map (fun sid => (tid, sid)))

theorem mem_gridKeys (cfg : Config) (k : Nat × Nat) :
    k ∈ gridKeys cfg ↔ k.1 < cfg.dnstt_count ∧ k.2 < cfg.ssh_per_dnstt := by
  unfold gridKeys
  simp only [List.mem_flatMap, List.mem_map, List.mem_range]
  constructor
  · rintro ⟨a, ha, b, hb, rfl⟩
    exact ⟨ha, hb⟩
  · rintro ⟨h1, h2⟩
    exact ⟨k.1, h1, k.2, h2, rfl⟩

theorem ssh_fold_eq_grid (cfg : Config) :
    ∀ (L : List Nat) (m : List ((Nat × Nat) × SSHTunnel)),
      L.foldl
        (fun m2 tid =>
          (List.range cfg.ssh_per_dnstt).foldl
            (fun m3 sid => alInsert (tid, sid) (freshChild cfg tid sid) m3) m2)
        m
      = (L.flatMap
          (fun tid => (List.range cfg.ssh_per_dnstt).map (fun sid => (tid, sid)))).foldl
          (fun acc k => alInsert k (freshChild cfg k.1 k.2) acc) m := by
  intro L
  induction L with
  | nil =>
    intro m
    rfl
  | cons t rest ih =>
    intro m
    rw [List.foldl_cons, List.flatMap_cons, List.foldl_append, ih]
    rw [List.foldl_map]

theorem good_createRecords (cfg : Config) (s : ManagerState) (hg : Good cfg s) :
    Good cfg (createRecords cfg s) := by
  unfold createRecords
  dsimp only
  rw [ssh_fold_eq_grid cfg (List.range cfg.dnstt_count) s.ssh_tunnels]
  refine ⟨?_, ?_, ?_, ?_, ?_, ?_⟩
  · exact foldInsert_nodup (fun t => freshParent cfg t)
      (List.range cfg.dnstt_count) s.dnstt_tunnels hg.nodupD
  · exact foldInsert_nodup (fun k => freshChild cfg k.1 k.2)
      ((List.range cfg.dnstt_count).flatMap
        (fun tid => (List.range cfg.ssh_per_dnstt).map (fun sid => (tid, sid))))
      s.ssh_tunnels hg.nodupS
  · intro ce hce
    rcases foldInsert_mem (fun k => freshChild cfg k.1 k.2) _ _ ce hce with
      ⟨_, hval⟩ | ⟨hm, _⟩
    · rw [hval]
      rfl
    · exact hg.fieldS ce hm
  · intro pe hpe
    rcases foldInsert_mem (fun t => freshParent cfg t) _ _ pe hpe with
      ⟨hin, _⟩ | ⟨hm, _⟩
    · exact List.mem_range.mp hin
    · exact hg.domD pe hm
  · intro ce hce
    rcases foldInsert_mem (fun k => freshChild cfg k.1 k.2) _ _ ce hce with
      ⟨hin, _⟩ | ⟨hm, _⟩
    · exact (mem_gridKeys cfg ce.1).mp hin
    · exact hg.domS ce hm
  · intro ce hce
    have hlt : ce.1.1 < cfg.dnstt_count := by
      rcases foldInsert_mem (fun k => freshChild cfg k.1 k.2) _ _ ce hce with
        ⟨hin, _⟩ | ⟨hm, _⟩
      · exact ((mem_gridKeys cfg ce.1).mp hin).1
      · exact (hg.domS ce hm).1
    constructor
    · have hl := foldInsert_lookup_mem (fun t => freshParent cfg t)
        (List.range cfg.dnstt_count) (List.nodup_range _) s.dnstt_tunnels ce.1.1
        (List.mem_range.mpr hlt)
      exact ⟨(ce.1.1, freshParent cfg ce.1.1), alLookup_mem hl, rfl⟩
    · intro pe hpe hkey hnr
      rcases foldInsert_mem (fun k => freshChild cfg k.1 k.2) _ _ ce hce with
        ⟨_, hval⟩ | ⟨hm, hnin⟩
      · rw [hval]
        exact ⟨Or.inl rfl, rfl⟩
      · exfalso
        exact hnin ((mem_gridKeys cfg ce.1).mpr ⟨(hg.domS ce hm).1, (hg.domS ce hm).2⟩)

theorem good_fold {cfg : Config} {ι : Type} (g : ManagerState → ι → ManagerState)
    (hstep : ∀ a i, Good cfg a → Good cfg (g a i)) :
    ∀ (L : List ι) (acc : ManagerState), Good cfg acc → Good cfg (L.foldl g acc) := by
  intro L
  induction L with
  | nil =>
    intro acc h
    exact h
  | cons i rest ih =>
    intro acc h
    rw [List.foldl_cons]
    exact ih _ (hstep acc i h)

theorem good_initChildStart (cfg : Config) (envS : Nat → Nat → SshStartOutcome)
    (tid lp : Nat) (a : ManagerState) (i : Nat)
    (hg : Good cfg a) (hr : runningParent a tid) :
    Good cfg (initChildStart tid lp envS a i) ∧
      runningParent (initChildStart tid lp envS a i) tid := by
  unfold initChildStart
  cases hc : alLookup (tid, i) a.ssh_tunnels with
  | none => exact ⟨hg, hr⟩
  | some c =>
    exact ⟨good_start_ssh cfg a tid i lp c.socks5_port (envS tid i) hr hg,
           runningParent_of_eq tid
             (start_ssh_dnstt_eq a tid i lp c.socks5_port (envS tid i)) hr⟩

theorem good_startPhase (cfg : Config) (s : ManagerState)
    (envD : Nat → StartOutcome) (envS : Nat → Nat → SshStartOutcome)
    (hg : Good cfg s) : Good cfg (startPhase cfg s envD envS) := by
  unfold startPhase
  refine good_fold _ ?_ _ _ hg
  intro a i hga
  dsimp only
  cases hl : alLookup i a.dnstt_tunnels with
  | none => exact hga
  | some t =>
    dsimp only
    set r := start_dnstt_tunnel a i t.local_port (envD i) with hRdef
    have hgR : Good cfg r.1 := good_start_dnstt cfg a i t.local_port (envD i) hga
    by_cases hok : r.2 = true
    · rw [if_pos hok]
      rw [hRdef, start_dnstt_ret] at hok
      have hmem : i ∈ a.dnstt_tunnels.map Prod.fst := by
        rw [← exists_key_iff]
        exact ⟨(i, t), alLookup_mem hl, rfl⟩
      have hrunR : runningParent r.1 i := by
        rw [hRdef]
        exact runningParent_after_start a i t.local_port (envD i) hok hmem
      exact (good_fold_of_step (initChildStart i t.local_port envS)
        (fun a2 j hg2 hr2 => good_initChildStart cfg envS i t.local_port a2 j hg2 hr2)
        (List.range cfg.ssh_per_dnstt) r.1 hgR hrunR).1
    · rw [if_neg hok]
      exact hgR

theorem good_initTunnels (cfg : Config) (s : ManagerState)
    (envD : Nat → StartOutcome) (envS : Nat → Nat → SshStartOutcome)
    (hg : Good cfg s) : Good cfg (initTunnels cfg s envD envS) :=
  good_startPhase cfg (createRecords cfg s) envD envS (good_createRecords cfg s hg)

theorem good_monitor_pass (cfg : Config) (s : ManagerState) (env : MonitorEnv)
    (hg : Good cfg s) : Good cfg (monitor_pass cfg s env) := by
  unfold monitor_pass
  exact good_fold (monitorChildBody cfg env)
    (fun a k hga => good_monitorChildBody cfg env a k hga) _ _
    (good_fold (monitorParentBody cfg env)
      (fun a t hga => good_monitorParentBody cfg env a t hga) _ _ hg)

theorem good_shutdownAll {cfg : Config} (s : ManagerState)
    (removeOk : Nat → Nat → Bool) (hg : Good cfg s) :
    Good cfg (shutdownAll s removeOk) := by
  unfold shutdownAll
  refine good_fold _ ?_ _ _ hg
  intro a i hga
  exact good_stop_dnstt_of_pregood cfg a i (removeOk i) (pregood_of_good i hga)

theorem good_empty (cfg : Config) : Good cfg ManagerState.empty := by
  refine ⟨?_, ?_, ?_, ?_, ?_, ?_⟩ <;> simp [ManagerState.empty, OwnInv]

theorem good_step {cfg : Config} {s s' : ManagerState} (hst : Step cfg s s')
    (hg : Good cfg s) : Good cfg s' := by
  cases hst with
  | init envD envS => exact good_initTunnels cfg s envD envS hg
  | startD tid lp o => exact good_start_dnstt cfg s tid lp o hg
  | stopD tid rOk => exact good_stop_dnstt_of_pregood cfg s tid rOk (pregood_of_good tid hg)
  | stopS tid sid rOk => exact good_stop_ssh cfg s tid sid rOk hg
  | monitor env => exact good_monitor_pass cfg s env hg
  | drain rOk => exact good_shutdownAll s rOk hg

theorem good_reach {cfg : Config} {s : ManagerState} (h : Reach cfg s) :
    Good cfg s := by
  induction h with
  | base => exact good_empty cfg
  | step _ hst ih => exact good_step hst ih

/-- Environment for a run whose DNSTT spawns all fail: `initialize_tunnels`
then leaves every parent in STARTING and every child in STOPPED. -/
def badEnvD : Nat → StartOutcome := fun _ => ⟨false, 0⟩

def badEnvS : Nat → Nat → SshStartOutcome := fun _ _ => ⟨false, 0, none⟩

/-- A state obtained by calling the public `start_ssh_tunnel` directly (as one
of the claim's listed mutators) on a fleet whose parents never came up: child
(0,0) ends RUNNING under a non-RUNNING parent. -/
def badState : ManagerState :=
  (start_ssh_tunnel (initTunnels cleanCfg ManagerState.empty badEnvD badEnvS)
    0 0 1080 9090 ⟨true, 5, none⟩).1

/-- C1 (amended): in every state reachable through the mutators the program
actually performs (`initialize_tunnels`, `start_dnstt_tunnel`,
`stop_dnstt_tunnel`, `stop_ssh_tunnel`, monitor passes, shutdown — with
`start_ssh_tunnel` invoked only from inside `initialize_tunnels` and the
monitor loop), every RUNNING SSH record has a parent DNSTT record that is
RUNNING, and whenever a parent DNSTT record is not RUNNING every SSH record
with that `tunnel_id` is in {STOPPED, STOPPING, FAILED} with no pid. -/
theorem parent_child_inv (cfg : Config) (s : ManagerState) (h : Reach cfg s) :
    (∀ ce ∈ s.ssh_tunnels, ce.2.state = TunnelState.running →
       ∃ pe ∈ s.dnstt_tunnels, pe.1 = ce.1.1 ∧ pe.2.state = TunnelState.running) ∧
    (∀ pe ∈ s.dnstt_tunnels, pe.2.state ≠ TunnelState.running →
       ∀ ce ∈ s.ssh_tunnels, ce.1.1 = pe.1 →
         (ce.2.state = TunnelState.stopped ∨ ce.2.state = TunnelState.stopping ∨
           ce.2.state = TunnelState.failed) ∧ ce.2.pid = none) := by
  have hg := good_reach h
  constructor
  · intro ce hce hrun
    rcases (hg.inv ce hce).1 with ⟨pe, hpe, hkey⟩
    by_cases hps : pe.2.state = TunnelState.running
    · exact ⟨pe, hpe, hkey, hps⟩
    · exfalso
      have hcs := (hg.inv ce hce).2 pe hpe hkey hps
      rcases hcs.1 with h1 | h1 | h1 <;> rw [hrun] at h1 <;> exact absurd h1 (by decide)
  · intro pe hpe hnr ce hce hkey
    exact (hg.inv ce hce).2 pe hpe hkey.symm hnr

/-- Witness: the invariant instantiated at the state reached by one
`initialize_tunnels` call on the clean configuration. -/
theorem parent_child_inv_witness :
    (∀ ce ∈ (initTunnels cleanCfg ManagerState.empty cleanEnvD cleanEnvS).ssh_tunnels,
       ce.2.state = TunnelState.running →
       ∃ pe ∈ (initTunnels cleanCfg ManagerState.empty cleanEnvD cleanEnvS).dnstt_tunnels,
         pe.1 = ce.1.1 ∧ pe.2.state = TunnelState.running) ∧
    (∀ pe ∈ (initTunnels cleanCfg ManagerState.empty cleanEnvD cleanEnvS).dnstt_tunnels,
       pe.2.state ≠ TunnelState.running →
       ∀ ce ∈ (initTunnels cleanCfg ManagerState.empty cleanEnvD cleanEnvS).ssh_tunnels,
         ce.1.1 = pe.1 →
         (ce.2.state = TunnelState.stopped ∨ ce.2.state = TunnelState.stopping ∨
           ce.2.state = TunnelState.failed) ∧ ce.2.pid = none) :=
  parent_child_inv cleanCfg (initTunnels cleanCfg ManagerState.empty cleanEnvD cleanEnvS)
    (Reach.step Reach.base (Step.init ManagerState.empty cleanEnvD cleanEnvS))

/-- C1 (counterexample to the literal claim): with `start_ssh_tunnel` admitted
as a standalone mutator — the claim's "start ... of SSH tunnels" — a RUNNING
SSH record with no RUNNING parent is reachable, so the literal invariant
fails. -/
theorem parent_child_literal_cex :
    ¬ (∀ s, ReachL cleanCfg s →
        ∀ ce ∈ s.ssh_tunnels, ce.2.state = TunnelState.running →
          ∃ pe ∈ s.dnstt_tunnels, pe.1 = ce.1.1 ∧
            pe.2.state = TunnelState.running) := by
  intro h
  have hb := h badState
    (ReachL.step
      (ReachL.step ReachL.base
        (StepL.lift (Step.init ManagerState.empty badEnvD badEnvS)))
      (StepL.startS (initTunnels cleanCfg ManagerState.empty badEnvD badEnvS)
        0 0 1080 9090 ⟨true, 5, none⟩))
  revert hb
  decide

/-! ## Monitor-pass frame lemmas and child recovery (claims C3, C7) -/

theorem start_ssh_ret (s : ManagerState) (tunnel_id ssh_id dp sp : Nat)
    (o : SshStartOutcome) :
    (start_ssh_tunnel s tunnel_id ssh_id dp sp o).2 = o.ok := by
  unfold start_ssh_tunnel
  by_cases ho : o.ok = true <;> simp [ho]

theorem start_dnstt_dnstt_lookup_ne (s : ManagerState) (j lp : Nat)
    (o : StartOutcome) (t : Nat) (ht : t ≠ j) :
    alLookup t (start_dnstt_tunnel s j lp o).1.dnstt_tunnels =
      alLookup t s.dnstt_tunnels := by
  rw [start_dnstt_dnstt_eq]
  by_cases ho : o.ok = true
  · rw [if_pos ho, alLookup_alUpdate_ne _ _ ht]
  · rw [if_neg ho]

theorem stop_dnstt_dnstt_lookup_ne (s : ManagerState) (j : Nat)
    (removeOk : Nat → Bool) (t : Nat) (ht : t ≠ j) :
    alLookup t (stop_dnstt_tunnel s j removeOk).1.dnstt_tunnels =
      alLookup t s.dnstt_tunnels := by
  rw [stop_dnstt_dnstt_eq, alLookup_alUpdate_ne _ _ ht]

theorem restartChild_dnstt_eq (cfg : Config) (env : MonitorEnv) (tid lp : Nat)
    (a : ManagerState) (i : Nat) :
    (restartChild cfg env tid lp a i).dnstt_tunnels = a.dnstt_tunnels := by
  unfold restartChild
  cases hc : alLookup (tid, i) a.ssh_tunnels with
  | none => rfl
  | some c =>
    dsimp only
    rw [start_ssh_dnstt_eq]
    rfl

theorem restartChild_ssh_keys (cfg : Config) (env : MonitorEnv) (tid lp : Nat)
    (a : ManagerState) (i : Nat) :
    (restartChild cfg env tid lp a i).ssh_tunnels.map Prod.fst =
      a.ssh_tunnels.map Prod.fst := by
  unfold restartChild
  cases hc : alLookup (tid, i) a.ssh_tunnels with
  | none => rfl
  | some c =>
    dsimp only
    rw [start_ssh_ssh_eq]
    by_cases ho : (env.sshRestart tid i).ok = true
    · rw [if_pos ho, alUpdate_keys]
      dsimp only [setSsh]
      rw [alUpdate_keys]
    · rw [if_neg ho]
      dsimp only [setSsh]
      rw [alUpdate_keys]

theorem restartChild_ssh_lookup_ne (cfg : Config) (env : MonitorEnv) (tid lp : Nat)
    (a : ManagerState) (i : Nat) (k : Nat × Nat) (hk : k ≠ (tid, i)) :
    alLookup k (restartChild cfg env tid lp a i).ssh_tunnels =
      alLookup k a.ssh_tunnels := by
  unfold restartChild
  cases hc : alLookup (tid, i) a.ssh_tunnels with
  | none => rfl
  | some c =>
    dsimp only
    rw [start_ssh_ssh_eq]
    by_cases ho : (env.sshRestart tid i).ok = true
    · rw [if_pos ho, alLookup_alUpdate_ne _ _ hk]
      dsimp only [setSsh]
      rw [alLookup_alUpdate_ne _ _ hk]
    · rw [if_neg ho]
      dsimp only [setSsh]
      rw [alLookup_alUpdate_ne _ _ hk]

theorem foldRestart_dnstt_eq (cfg : Config) (env : MonitorEnv) (tid lp : Nat) :
    ∀ (L : List Nat) (a : ManagerState),
      (L.foldl (restartChild cfg env tid lp) a).dnstt_tunnels = a.dnstt_tunnels := by
  intro L
  induction L with
  | nil =>
    intro a
    rfl
  | cons i rest ih =>
    intro a
    rw [List.foldl_cons, ih, restartChild_dnstt_eq]

theorem foldRestart_ssh_keys (cfg : Config) (env : MonitorEnv) (tid lp : Nat) :
    ∀ (L : List Nat) (a : ManagerState),
      (L.foldl (restartChild cfg env tid lp) a).ssh_tunnels.map Prod.fst =
        a.ssh_tunnels.map Prod.fst := by
  intro L
  induction L with
  | nil =>
    intro a
    rfl
  | cons i rest ih =>
    intro a
    rw [List.foldl_cons, ih, restartChild_ssh_keys]

theorem foldRestart_ssh_lookup_ne (cfg : Config) (env : MonitorEnv) (tid lp : Nat) :
    ∀ (L : List Nat) (a : ManagerState) (k : Nat × Nat), k.1 ≠ tid →
      alLookup k (L.foldl (restartChild cfg env tid lp) a).ssh_tunnels =
        alLookup k a.ssh_tunnels := by
  intro L
  induction L with
  | nil =>
    intro a k _
    rfl
  | cons i rest ih =>
    intro a k hk
    rw [List.foldl_cons, ih _ k hk,
      restartChild_ssh_lookup_ne cfg env tid lp a i k
        (fun he => hk (congrArg Prod.fst he))]

theorem bodyP_frame (cfg : Config) (env : MonitorEnv) (acc : ManagerState) (j : Nat) :
    (monitorParentBody cfg env acc j).ssh_tunnels.map Prod.fst =
        acc.ssh_tunnels.map Prod.fst ∧
    (∀ t : Nat, t ≠ j →
      alLookup t (monitorParentBody cfg env acc j).dnstt_tunnels =
        alLookup t acc.dnstt_tunnels) ∧
    (∀ k : Nat × Nat, k.1 ≠ j →
      alLookup k (monitorParentBody cfg env acc j).ssh_tunnels =
        alLookup k acc.ssh_tunnels) := by
  unfold monitorParentBody
  cases hp : alLookup j acc.dnstt_tunnels with
  | none => exact ⟨rfl, fun _ _ => rfl, fun _ _ => rfl⟩
  | some t =>
    dsimp only
    by_cases hts : t.state ≠ TunnelState.running
    · rw [if_pos hts]
      exact ⟨rfl, fun _ _ => rfl, fun _ _ => rfl⟩
    rw [if_neg hts]
    by_cases hh : (pidAliveWith env.pidExists t.pid && env.dnsttPortOk j) = true
    · rw [if_pos hh]
      exact ⟨rfl, fun _ _ => rfl, fun _ _ => rfl⟩
    rw [if_neg hh]
    set accF := setDnstt acc
      (alUpdate j
        (fun u => { u with state := TunnelState.failed,
                           restart_count := u.restart_count + 1 })
        acc.dnstt_tunnels) with hFdef
    have hFssh : accF.ssh_tunnels = acc.ssh_tunnels := rfl
    have hFdn : ∀ t' : Nat, t' ≠ j →
        alLookup t' accF.dnstt_tunnels = alLookup t' acc.dnstt_tunnels := by
      intro t' ht'
      rw [hFdef]
      dsimp only [setDnstt]
      exact alLookup_alUpdate_ne _ _ ht'
    by_cases hb : t.restart_count + 1 ≤ cfg.max_retries
    · rw [if_pos hb]
      set accS := (stop_dnstt_tunnel accF j (env.removeOk j)).1 with hSdef
      set r := start_dnstt_tunnel accS j t.local_port (env.dnsttRestart j) with hRdef
      have hSkeys : accS.ssh_tunnels.map Prod.fst = acc.ssh_tunnels.map Prod.fst := by
        rw [hSdef, stop_dnstt_ssh_keys, hFssh]
      have hSdn : ∀ t' : Nat, t' ≠ j →
          alLookup t' accS.dnstt_tunnels = alLookup t' acc.dnstt_tunnels := by
        intro t' ht'
        rw [hSdef, stop_dnstt_dnstt_lookup_ne _ _ _ _ ht', hFdn t' ht']
      have hSlook : ∀ k : Nat × Nat, k.1 ≠ j →
          alLookup k accS.ssh_tunnels = alLookup k acc.ssh_tunnels := by
        intro k hk
        rw [hSdef, stop_dnstt_ssh_lookup_ne _ _ _ k hk, hFssh]
      have hRkeys : r.1.ssh_tunnels.map Prod.fst = acc.ssh_tunnels.map Prod.fst := by
        rw [hRdef, start_dnstt_ssh_eq, hSkeys]
      have hRdn : ∀ t' : Nat, t' ≠ j →
          alLookup t' r.1.dnstt_tunnels = alLookup t' acc.dnstt_tunnels := by
        intro t' ht'
        rw [hRdef, start_dnstt_dnstt_lookup_ne _ _ _ _ _ ht', hSdn t' ht']
      have hRlook : ∀ k : Nat × Nat, k.1 ≠ j →
          alLookup k r.1.ssh_tunnels = alLookup k acc.ssh_tunnels := by
        intro k hk
        rw [hRdef, start_dnstt_ssh_eq, hSlook k hk]
      by_cases hok : r.2 = true
      · rw [if_pos hok]
        refine ⟨?_, ?_, ?_⟩
        · dsimp only [setDnstt]
          rw [foldRestart_ssh_keys, hRkeys]
        · intro t' ht'
          dsimp only [setDnstt]
          rw [alLookup_alUpdate_ne _ _ ht', foldRestart_dnstt_eq, hRdn t' ht']
        · intro k hk
          dsimp only [setDnstt]
          rw [foldRestart_ssh_lookup_ne cfg env j t.local_port _ _ k hk, hRlook k hk]
      · rw [if_neg hok]
        exact ⟨hRkeys, hRdn, hRlook⟩
    · rw [if_neg hb]
      refine ⟨?_, ?_, ?_⟩
      · rw [stop_dnstt_ssh_keys, hFssh]
      · intro t' ht'
        rw [stop_dnstt_dnstt_lookup_ne _ _ _ _ ht', hFdn t' ht']
      · intro k hk
        rw [stop_dnstt_ssh_lookup_ne _ _ _ k hk, hFssh]

theorem bodyP_healthy_id (cfg : Config) (env : MonitorEnv) (acc : ManagerState)
    (j : Nat) (p : DNSTTTunnel) (hp : alLookup j acc.dnstt_tunnels = some p)
    (hpr : p.state = TunnelState.running)
    (hh : (pidAliveWith env.pidExists p.pid && env.dnsttPortOk j) = true) :
    monitorParentBody cfg env acc j = acc := by
  unfold monitorParentBody
  rw [hp]
  dsimp only
  rw [if_neg (not_not_intro hpr), if_pos hh]

theorem bodyC_dnstt_eq (cfg : Config) (env : MonitorEnv) (acc : ManagerState)
    (k : Nat × Nat) :
    (monitorChildBody cfg env acc k).dnstt_tunnels = acc.dnstt_tunnels := by
  unfold monitorChildBody
  cases hp : alLookup k.1 acc.dnstt_tunnels with
  | none => rfl
  | some p =>
    dsimp only
    by_cases hps : p.state ≠ TunnelState.running
    · rw [if_pos hps]
    rw [if_neg hps]
    cases hc : alLookup k acc.ssh_tunnels with
    | none => rfl
    | some c =>
      dsimp only
      by_cases hcs : c.state ≠ TunnelState.running
      · rw [if_pos hcs]
      rw [if_neg hcs]
      by_cases hhl : (pidAliveWith env.pidExists c.pid && env.sshHealthy k.1 k.2) = true
      · rw [if_pos hhl]
      rw [if_neg hhl]
      set accF := setSsh acc
          (alUpdate k
            (fun u => { u with state := TunnelState.failed,
                               restart_count := u.restart_count + 1 })
            acc.ssh_tunnels) with hFdef
      have hFdn : accF.dnstt_tunnels = acc.dnstt_tunnels := rfl
      by_cases hb : c.restart_count + 1 ≤ cfg.max_retries
      · rw [if_pos hb]
        set accS := (stop_ssh_tunnel accF k.1 k.2 (env.removeOk k.1 k.2)).1 with hSdef
        set r := start_ssh_tunnel accS k.1 k.2 p.local_port c.socks5_port
          (env.sshRestart k.1 k.2) with hRdef
        have hRdn : r.1.dnstt_tunnels = acc.dnstt_tunnels := by
          rw [hRdef, start_ssh_dnstt_eq, hSdef, stop_ssh_dnstt_eq, hFdn]
        by_cases hok : r.2 = true
        · rw [if_pos hok]
          exact hRdn
        · rw [if_neg hok]
          exact hRdn
      · rw [if_neg hb]
        rw [stop_ssh_dnstt_eq, hFdn]

theorem bodyC_ssh_lookup_ne (cfg : Config) (env : MonitorEnv) (acc : ManagerState)
    (k : Nat × Nat) (k' : Nat × Nat) (hk : k' ≠ k) :
    alLookup k' (monitorChildBody cfg env acc k).ssh_tunnels =
      alLookup k' acc.ssh_tunnels := by
  unfold monitorChildBody
  cases hp : alLookup k.1 acc.dnstt_tunnels with
  | none => rfl
  | some p =>
    dsimp only
    by_cases hps : p.state ≠ TunnelState.running
    · rw [if_pos hps]
    rw [if_neg hps]
    cases hc : alLookup k acc.ssh_tunnels with
    | none => rfl
    | some c =>
      dsimp only
      by_cases hcs : c.state ≠ TunnelState.running
      · rw [if_pos hcs]
      rw [if_neg hcs]
      by_cases hhl : (pidAliveWith env.pidExists c.pid && env.sshHealthy k.1 k.2) = true
      · rw [if_pos hhl]
      rw [if_neg hhl]
      set accF := setSsh acc
          (alUpdate k
            (fun u => { u with state := TunnelState.failed,
                               restart_count := u.restart_count + 1 })
            acc.ssh_tunnels) with hFdef
      have hFlook : alLookup k' accF.ssh_tunnels = alLookup k' acc.ssh_tunnels := by
        rw [hFdef]
        dsimp only [setSsh]
        exact alLookup_alUpdate_ne _ _ hk
      by_cases hb : c.restart_count + 1 ≤ cfg.max_retries
      · rw [if_pos hb]
        set accS := (stop_ssh_tunnel accF k.1 k.2 (env.removeOk k.1 k.2)).1 with hSdef
        set r := start_ssh_tunnel accS k.1 k.2 p.local_port c.socks5_port
          (env.sshRestart k.1 k.2) with hRdef
        have hSlook : alLookup k' accS.ssh_tunnels = alLookup k' acc.ssh_tunnels := by
          rw [hSdef, stop_ssh_ssh_eq, alLookup_alUpdate_ne _ _ hk, hFlook]
        have hRlook : alLookup k' r.1.ssh_tunnels = alLookup k' acc.ssh_tunnels := by
          rw [hRdef, start_ssh_ssh_eq]
          by_cases ho : (env.sshRestart k.1 k.2).ok = true
          · rw [if_pos ho, alLookup_alUpdate_ne _ _ hk, hSlook]
          · rw [if_neg ho, hSlook]
        by_cases hok : r.2 = true
        · rw [if_pos hok]
          dsimp only [setSsh]
          rw [alLookup_alUpdate_ne _ _ hk, hRlook]
        · rw [if_neg hok]
          exact hRlook
      · rw [if_neg hb]
        rw [stop_ssh_ssh_eq, alLookup_alUpdate_ne _ _ hk, hFlook]

theorem bodyC_recover (cfg : Config) (env : MonitorEnv) (acc : ManagerState)
    (k : Nat × Nat) (p : DNSTTTunnel) (c : SSHTunnel)
    (hp : alLookup k.1 acc.dnstt_tunnels = some p)
    (hpr : p.state = TunnelState.running)
    (hc : alLookup k acc.ssh_tunnels = some c)
    (hcr : c.state = TunnelState.running)
    (hdead : (pidAliveWith env.pidExists c.pid && env.sshHealthy k.1 k.2) = false)
    (hb : c.restart_count + 1 ≤ cfg.max_retries)
    (hok : (env.sshRestart k.1 k.2).ok = true) :
    ∃ c', alLookup k (monitorChildBody cfg env acc k).ssh_tunnels = some c' ∧
      c'.state = TunnelState.running ∧ c'.restart_count = 0 := by
  unfold monitorChildBody
  rw [hp]
  dsimp only
  rw [if_neg (not_not_intro hpr)]
  rw [hc]
  dsimp only
  rw [if_neg (not_not_intro hcr)]
  have hcond : ¬ ((pidAliveWith env.pidExists c.pid && env.sshHealthy k.1 k.2) = true) := by
    rw [hdead]
    exact Bool.false_ne_true
  rw [if_neg hcond, if_pos hb]
  set accF := setSsh acc
      (alUpdate k
        (fun u => { u with state := TunnelState.failed,
                           restart_count := u.restart_count + 1 })
        acc.ssh_tunnels) with hFdef
  set accS := (stop_ssh_tunnel accF k.1 k.2 (env.removeOk k.1 k.2)).1 with hSdef
  set r := start_ssh_tunnel accS k.1 k.2 p.local_port c.socks5_port
    (env.sshRestart k.1 k.2) with hRdef
  have hr2 : r.2 = true := by
    rw [hRdef, start_ssh_ret]
    exact hok
  rw [if_pos hr2]
  have h4 : alLookup k accF.ssh_tunnels =
      some { c with state := TunnelState.failed,
                    restart_count := c.restart_count + 1 } := by
    rw [hFdef]
    dsimp only [setSsh]
    rw [alLookup_alUpdate_self, hc]
    rfl
  have h3 : alLookup k accS.ssh_tunnels =
      some (sshStopClear { c with state := TunnelState.failed,
                                  restart_count := c.restart_count + 1 }) := by
    rw [hSdef, stop_ssh_ssh_eq, alLookup_alUpdate_self, h4]
    rfl
  have h2 : alLookup k r.1.ssh_tunnels =
      some (sshStarted (env.sshRestart k.1 k.2)
        (sshStopClear { c with state := TunnelState.failed,
                               restart_count := c.restart_count + 1 })) := by
    rw [hRdef, start_ssh_ssh_eq, if_pos hok, alLookup_alUpdate_self, h3]
    rfl
  refine ⟨{ sshStarted (env.sshRestart k.1 k.2)
      (sshStopClear { c with state := TunnelState.failed,
                             restart_count := c.restart_count + 1 }) with
      restart_count := 0 }, ?_, rfl, rfl⟩
  dsimp only [setSsh]
  rw [alLookup_alUpdate_self, h2]
  rfl

theorem monitor_pass_child_recovery (cfg : Config) (env : MonitorEnv)
    (s : ManagerState) (k : Nat × Nat) (p : DNSTTTunnel) (c : SSHTunnel)
    (hndS : (s.ssh_tunnels.map Prod.fst).Nodup)
    (hp : alLookup k.1 s.dnstt_tunnels = some p)
    (hpr : p.state = TunnelState.running)
    (hph : (pidAliveWith env.pidExists p.pid && env.dnsttPortOk k.1) = true)
    (hc : alLookup k s.ssh_tunnels = some c)
    (hcr : c.state = TunnelState.running)
    (hdead : (pidAliveWith env.pidExists c.pid && env.sshHealthy k.1 k.2) = false)
    (hb : c.restart_count + 1 ≤ cfg.max_retries)
    (hok : (env.sshRestart k.1 k.2).ok = true) :
    ∃ c', alLookup k (monitor_pass cfg s env).ssh_tunnels = some c' ∧
      c'.state = TunnelState.running ∧ c'.restart_count = 0 := by
  have phase1 : ∀ (L : List Nat) (a : ManagerState),
      alLookup k.1 a.dnstt_tunnels = some p →
      alLookup k a.ssh_tunnels = some c →
      a.ssh_tunnels.map Prod.fst = s.ssh_tunnels.map Prod.fst →
      (alLookup k.1 (L.foldl (monitorParentBody cfg env) a).dnstt_tunnels = some p ∧
       alLookup k (L.foldl (monitorParentBody cfg env) a).ssh_tunnels = some c ∧
       (L.foldl (monitorParentBody cfg env) a).ssh_tunnels.map Prod.fst =
         s.ssh_tunnels.map Prod.fst) := by
    intro L
    induction L with
    | nil =>
      intro a h1 h2 h3
      exact ⟨h1, h2, h3⟩
    | cons j rest ih =>
      intro a h1 h2 h3
      rw [List.foldl_cons]
      by_cases hj : j = k.1
      · subst hj
        rw [bodyP_healthy_id cfg env a k.1 p h1 hpr hph]
        exact ih a h1 h2 h3
      · have hfr := bodyP_frame cfg env a j
        refine ih _ ?_ ?_ ?_
        · rw [hfr.2.1 k.1 (fun he => hj he.symm)]
          exact h1
        · rw [hfr.2.2 k (fun he => hj he.symm)]
          exact h2
        · rw [hfr.1]
          exact h3
  have seg : ∀ (L : List (Nat × Nat)) (a : ManagerState), k ∉ L →
      alLookup k (L.foldl (monitorChildBody cfg env) a).ssh_tunnels =
        alLookup k a.ssh_tunnels ∧
      (L.foldl (monitorChildBody cfg env) a).dnstt_tunnels = a.dnstt_tunnels := by
    intro L
    induction L with
    | nil =>
      intro a _
      exact ⟨rfl, rfl⟩
    | cons j rest ih =>
      intro a hkn
      rw [List.foldl_cons]
      have hjk : k ≠ j := fun he => hkn (he ▸ List.mem_cons_self _ _)
      rcases ih (monitorChildBody cfg env a j) (fun hm => hkn (List.mem_cons_of_mem _ hm))
        with ⟨i1, i2⟩
      refine ⟨?_, ?_⟩
      · rw [i1, bodyC_ssh_lookup_ne cfg env a j k hjk]
      · rw [i2, bodyC_dnstt_eq]
  unfold monitor_pass
  dsimp only
  rcases phase1 (s.dnstt_tunnels.map Prod.fst) s hp hc rfl with ⟨hs1p, hs1c, hs1k⟩
  rw [hs1k]
  have hkmem : k ∈ s.ssh_tunnels.map Prod.fst :=
    List.mem_map.mpr ⟨(k, c), alLookup_mem hc, rfl⟩
  rcases List.append_of_mem hkmem with ⟨L1, L2, hsplit⟩
  have hnd2 := hndS
  rw [hsplit] at hnd2
  rcases List.nodup_append.mp hnd2 with ⟨_, hndR, hdisj⟩
  have hkL2 : k ∉ L2 := (List.nodup_cons.mp hndR).1
  have hkL1 : k ∉ L1 := fun hm => hdisj hm (List.mem_cons_self _ _)
  rw [hsplit, List.foldl_append, List.foldl_cons]
  set s1 := (s.dnstt_tunnels.map Prod.fst).foldl (monitorParentBody cfg env) s
    with hs1def
  rcases seg L1 s1 hkL1 with ⟨g1, g2⟩
  have ha1p : alLookup k.1 (L1.foldl (monitorChildBody cfg env) s1).dnstt_tunnels =
      some p := by
    rw [g2]
    exact hs1p
  have ha1c : alLookup k (L1.foldl (monitorChildBody cfg env) s1).ssh_tunnels =
      some c := by
    rw [g1]
    exact hs1c
  rcases bodyC_recover cfg env (L1.foldl (monitorChildBody cfg env) s1) k p c
    ha1p hpr ha1c hcr hdead hb hok with ⟨c', hr1, hr2, hr3⟩
  rcases seg L2
    (monitorChildBody cfg env (L1.foldl (monitorChildBody cfg env) s1) k) hkL2
    with ⟨g3, _⟩
  refine ⟨c', ?_, hr2, hr3⟩
  rw [g3]
  exact hr1

/-- `n` monitor passes under a fixed environment. -/
def iterMonitor (cfg : Config) (env : MonitorEnv) : ManagerState → Nat → ManagerState
  | s, 0 => s
  | s, n + 1 => iterMonitor cfg env (monitor_pass cfg s env) n

/-- Environment for the round-trip scenario: the parent's pid 10 is alive, the
child's pid 20 is gone (killed out-of-band), every port/restart probe is
truthful, and the re-spawn succeeds because the port comes back up. -/
def recEnv : MonitorEnv :=
  { pidExists := fun pid => pid == 10,
    dnsttPortOk := fun _ => true,
    dnsttRestart := fun _ => ⟨true, 33⟩,
    sshHealthy := fun _ _ => false,
    sshRestart := fun _ _ => ⟨true, 44, some "9090"⟩,
    removeOk := fun _ _ => true }

/-- C3: from a fleet state where child `k`'s process was killed out-of-band
(its pid probe reports dead) while its parent is RUNNING and healthy, and the
probes report truthfully so that the re-spawn against the reopened SOCKS5 port
succeeds, some number of monitor passes `n ≤ max_retries` (in fact one)
returns the SSH record to state RUNNING. -/
theorem monitor_recovers_child (cfg : Config) (env : MonitorEnv)
    (s : ManagerState) (k : Nat × Nat) (p : DNSTTTunnel) (c : SSHTunnel)
    (hndS : (s.ssh_tunnels.map Prod.fst).Nodup)
    (hp : alLookup k.1 s.dnstt_tunnels = some p)
    (hpr : p.state = TunnelState.running)
    (hph : (pidAliveWith env.pidExists p.pid && env.dnsttPortOk k.1) = true)
    (hc : alLookup k s.ssh_tunnels = some c)
    (hcr : c.state = TunnelState.running)
    (hkill : pidAliveWith env.pidExists c.pid = false)
    (hb : c.restart_count + 1 ≤ cfg.max_retries)
    (hok : (env.sshRestart k.1 k.2).ok = true) :
    ∃ n ≤ cfg.max_retries, ∃ c',
      alLookup k (iterMonitor cfg env s n).ssh_tunnels = some c' ∧
      c'.state = TunnelState.running := by
  have hdead : (pidAliveWith env.pidExists c.pid && env.sshHealthy k.1 k.2) = false := by
    rw [hkill]
    rfl
  rcases monitor_pass_child_recovery cfg env s k p c hndS hp hpr hph hc hcr hdead hb hok
    with ⟨c', h1, h2, _⟩
  exact ⟨1, by omega, c', h1, h2⟩

/-- Witness: the one-parent one-child fleet with the child's pid 20 killed;
one pass of the monitor under the truthful environment restores RUNNING. -/
theorem monitor_recovers_child_witness :
    ∃ n ≤ cleanCfg.max_retries, ∃ c',
      alLookup (0, 0) (iterMonitor cleanCfg recEnv witnessFleet n).ssh_tunnels =
        some c' ∧ c'.state = TunnelState.running :=
  monitor_recovers_child cleanCfg recEnv witnessFleet (0, 0)
    { tunnel_id := 0, local_port := 1080, pid := some 10,
      state := .running, restart_count := 0 }
    { tunnel_id := 0, ssh_id := 0, socks5_port := 9090, pid := some 20,
      state := .running, restart_count := 0, xui_outbound_id := some "9090" }
    (by decide) (by decide) rfl (by decide) (by decide) rfl (by decide)
    (by decide) (by decide)

theorem restartChild_ssh_rc (cfg : Config) (env : MonitorEnv) (tid lp : Nat)
    (a : ManagerState) (i : Nat) (k : Nat × Nat) :
    (alLookup k (restartChild cfg env tid lp a i).ssh_tunnels).map
        (fun c => c.restart_count) =
      (alLookup k a.ssh_tunnels).map (fun c => c.restart_count) := by
  unfold restartChild
  cases hc : alLookup (tid, i) a.ssh_tunnels with
  | none => rfl
  | some c =>
    dsimp only
    rw [start_ssh_ssh_eq]
    by_cases hk : k = (tid, i)
    · subst hk
      by_cases ho : (env.sshRestart tid i).ok = true
      · rw [if_pos ho, alLookup_alUpdate_self]
        dsimp only [setSsh]
        rw [alLookup_alUpdate_self, hc]
        rfl
      · rw [if_neg ho]
        dsimp only [setSsh]
        rw [alLookup_alUpdate_self, hc]
        rfl
    · by_cases ho : (env.sshRestart tid i).ok = true
      · rw [if_pos ho, alLookup_alUpdate_ne _ _ hk]
        dsimp only [setSsh]
        rw [alLookup_alUpdate_ne _ _ hk]
      · rw [if_neg ho]
        dsimp only [setSsh]
        rw [alLookup_alUpdate_ne _ _ hk]

theorem foldRestart_ssh_rc (cfg : Config) (env : MonitorEnv) (tid lp : Nat) :
    ∀ (L : List Nat) (a : ManagerState) (k : Nat × Nat),
      (alLookup k (L.foldl (restartChild cfg env tid lp) a).ssh_tunnels).map
          (fun c => c.restart_count) =
        (alLookup k a.ssh_tunnels).map (fun c => c.restart_count) := by
  intro L
  induction L with
  | nil =>
    intro a k
    rfl
  | cons i rest ih =>
    intro a k
    rw [List.foldl_cons, ih _ k, restartChild_ssh_rc]

theorem bodyP_ssh_rc (cfg : Config) (env : MonitorEnv) (acc : ManagerState)
    (j : Nat) (k : Nat × Nat) :
    (alLookup k (monitorParentBody cfg env acc j).ssh_tunnels).map
        (fun c => c.restart_count) =
      (alLookup k acc.ssh_tunnels).map (fun c => c.restart_count) := by
  unfold monitorParentBody
  cases hp : alLookup j acc.dnstt_tunnels with
  | none => rfl
  | some t =>
    dsimp only
    by_cases hts : t.state ≠ TunnelState.running
    · rw [if_pos hts]
    rw [if_neg hts]
    by_cases hh : (pidAliveWith env.pidExists t.pid && env.dnsttPortOk j) = true
    · rw [if_pos hh]
    rw [if_neg hh]
    set accF := setDnstt acc
      (alUpdate j
        (fun u => { u with state := TunnelState.failed,
                           restart_count := u.restart_count + 1 })
        acc.dnstt_tunnels) with hFdef
    have hFssh : accF.ssh_tunnels = acc.ssh_tunnels := rfl
    by_cases hb : t.restart_count + 1 ≤ cfg.max_retries
    · rw [if_pos hb]
      set accS := (stop_dnstt_tunnel accF j (env.removeOk j)).1 with hSdef
      set r := start_dnstt_tunnel accS j t.local_port (env.dnsttRestart j) with hRdef
      have hSrc : (alLookup k accS.ssh_tunnels).map (fun c => c.restart_count) =
          (alLookup k acc.ssh_tunnels).map (fun c => c.restart_count) := by
        rw [hSdef, stop_dnstt_ssh_rc, hFssh]
      have hRrc : (alLookup k r.1.ssh_tunnels).map (fun c => c.restart_count) =
          (alLookup k acc.ssh_tunnels).map (fun c => c.restart_count) := by
        rw [hRdef, start_dnstt_ssh_eq, hSrc]
      by_cases hok : r.2 = true
      · rw [if_pos hok]
        dsimp only [setDnstt]
        rw [foldRestart_ssh_rc, hRrc]
      · rw [if_neg hok]
        exact hRrc
    · rw [if_neg hb]
      rw [stop_dnstt_ssh_rc, hFssh]

theorem foldP_ssh_rc (cfg : Config) (env : MonitorEnv) :
    ∀ (L : List Nat) (a : ManagerState) (k : Nat × Nat),
      (alLookup k (L.foldl (monitorParentBody cfg env) a).ssh_tunnels).map
          (fun c => c.restart_count) =
        (alLookup k a.ssh_tunnels).map (fun c => c.restart_count) := by
  intro L
  induction L with
  | nil =>
    intro a k
    rfl
  | cons j rest ih =>
    intro a k
    rw [List.foldl_cons, ih _ k, bodyP_ssh_rc]

theorem foldP_ssh_keys (cfg : Config) (env : MonitorEnv) :
    ∀ (L : List Nat) (a : ManagerState),
      (L.foldl (monitorParentBody cfg env) a).ssh_tunnels.map Prod.fst =
        a.ssh_tunnels.map Prod.fst := by
  intro L
  induction L with
  | nil =>
    intro a
    rfl
  | cons j rest ih =>
    intro a
    rw [List.foldl_cons, ih, (bodyP_frame cfg env a j).1]

theorem segP_dnstt (cfg : Config) (env : MonitorEnv) (t : Nat) :
    ∀ (L : List Nat) (a : ManagerState), t ∉ L →
      alLookup t (L.foldl (monitorParentBody cfg env) a).dnstt_tunnels =
        alLookup t a.dnstt_tunnels := by
  intro L
  induction L with
  | nil =>
    intro a _
    rfl
  | cons j rest ih =>
    intro a htn
    rw [List.foldl_cons,
      ih _ (fun hm => htn (List.mem_cons_of_mem _ hm)),
      (bodyP_frame cfg env a j).2.1 t (fun he => htn (he ▸ List.mem_cons_self _ _))]

theorem foldC_dnstt_eq (cfg : Config) (env : MonitorEnv) :
    ∀ (L : List (Nat × Nat)) (a : ManagerState),
      (L.foldl (monitorChildBody cfg env) a).dnstt_tunnels = a.dnstt_tunnels := by
  intro L
  induction L with
  | nil =>
    intro a
    rfl
  | cons j rest ih =>
    intro a
    rw [List.foldl_cons, ih, bodyC_dnstt_eq]

theorem segC_ssh (cfg : Config) (env : MonitorEnv) (k : Nat × Nat) :
    ∀ (L : List (Nat × Nat)) (a : ManagerState), k ∉ L →
      alLookup k (L.foldl (monitorChildBody cfg env) a).ssh_tunnels =
        alLookup k a.ssh_tunnels := by
  intro L
  induction L with
  | nil =>
    intro a _
    rfl
  | cons j rest ih =>
    intro a hkn
    rw [List.foldl_cons,
      ih _ (fun hm => hkn (List.mem_cons_of_mem _ hm)),
      bodyC_ssh_lookup_ne cfg env a j k (fun he => hkn (he ▸ List.mem_cons_self _ _))]

theorem bodyP_rc_evolution (cfg : Config) (env : MonitorEnv) (acc : ManagerState)
    (j : Nat) (p0 : DNSTTTunnel) (hp : alLookup j acc.dnstt_tunnels = some p0) :
    ∃ p1, alLookup j (monitorParentBody cfg env acc j).dnstt_tunnels = some p1 ∧
      (p1.restart_count = 0 ∨ p1.restart_count = p0.restart_count ∨
        p1.restart_count = p0.restart_count + 1) := by
  unfold monitorParentBody
  rw [hp]
  dsimp only
  by_cases hts : p0.state ≠ TunnelState.running
  · rw [if_pos hts]
    exact ⟨p0, hp, Or.inr (Or.inl rfl)⟩
  rw [if_neg hts]
  by_cases hh : (pidAliveWith env.pidExists p0.pid && env.dnsttPortOk j) = true
  · rw [if_pos hh]
    exact ⟨p0, hp, Or.inr (Or.inl rfl)⟩
  rw [if_neg hh]
  set accF := setDnstt acc
    (alUpdate j
      (fun u => { u with state := TunnelState.failed,
                         restart_count := u.restart_count + 1 })
      acc.dnstt_tunnels) with hFdef
  have hFlook : alLookup j accF.dnstt_tunnels =
      some { p0 with state := TunnelState.failed,
                     restart_count := p0.restart_count + 1 } := by
    rw [hFdef]
    dsimp only [setDnstt]
    rw [alLookup_alUpdate_self, hp]
    rfl
  by_cases hb : p0.restart_count + 1 ≤ cfg.max_retries
  · rw [if_pos hb]
    set accS := (stop_dnstt_tunnel accF j (env.removeOk j)).1 with hSdef
    set r := start_dnstt_tunnel accS j p0.local_port (env.dnsttRestart j) with hRdef
    have hSlook : alLookup j accS.dnstt_tunnels =
        some (dnsttStopClear { p0 with state := TunnelState.failed,
                                       restart_count := p0.restart_count + 1 }) := by
      rw [hSdef, stop_dnstt_dnstt_eq, alLookup_alUpdate_self, hFlook]
      rfl
    by_cases hok : r.2 = true
    · rw [if_pos hok]
      rw [hRdef, start_dnstt_ret] at hok
      have hRlook : alLookup j r.1.dnstt_tunnels =
          some (dnsttStarted (env.dnsttRestart j)
            (dnsttStopClear { p0 with state := TunnelState.failed,
                                      restart_count := p0.restart_count + 1 })) := by
        rw [hRdef, start_dnstt_dnstt_eq, if_pos hok, alLookup_alUpdate_self, hSlook]
        rfl
      refine ⟨{ dnsttStarted (env.dnsttRestart j)
          (dnsttStopClear { p0 with state := TunnelState.failed,
                                    restart_count := p0.restart_count + 1 }) with
          restart_count := 0 }, ?_, Or.inl rfl⟩
      dsimp only [setDnstt]
      rw [alLookup_alUpdate_self, foldRestart_dnstt_eq, hRlook]
      rfl
    · rw [if_neg hok]
      rw [hRdef, start_dnstt_ret] at hok
      refine ⟨dnsttStopClear { p0 with state := TunnelState.failed,
                                       restart_count := p0.restart_count + 1 },
        ?_, Or.inr (Or.inr rfl)⟩
      rw [hRdef, start_dnstt_dnstt_eq, if_neg hok]
      exact hSlook
  · rw [if_neg hb]
    refine ⟨dnsttStopClear { p0 with state := TunnelState.failed,
                                     restart_count := p0.restart_count + 1 },
      ?_, Or.inr (Or.inr rfl)⟩
    rw [stop_dnstt_dnstt_eq, alLookup_alUpdate_self, hFlook]
    rfl

theorem bodyC_rc_evolution (cfg : Config) (env : MonitorEnv) (acc : ManagerState)
    (k : Nat × Nat) (c0 : SSHTunnel) (hc : alLookup k acc.ssh_tunnels = some c0) :
    ∃ c1, alLookup k (monitorChildBody cfg env acc k).ssh_tunnels = some c1 ∧
      (c1.restart_count = 0 ∨ c1.restart_count = c0.restart_count ∨
        c1.restart_count = c0.restart_count + 1) := by
  unfold monitorChildBody
  cases hp : alLookup k.1 acc.dnstt_tunnels with
  | none => exact ⟨c0, hc, Or.inr (Or.inl rfl)⟩
  | some p =>
    dsimp only
    by_cases hps : p.state ≠ TunnelState.running
    · rw [if_pos hps]
      exact ⟨c0, hc, Or.inr (Or.inl rfl)⟩
    rw [if_neg hps]
    rw [hc]
    dsimp only
    by_cases hcs : c0.state ≠ TunnelState.running
    · rw [if_pos hcs]
      exact ⟨c0, hc, Or.inr (Or.inl rfl)⟩
    rw [if_neg hcs]
    by_cases hhl : (pidAliveWith env.pidExists c0.pid && env.sshHealthy k.1 k.2) = true
    · rw [if_pos hhl]
      exact ⟨c0, hc, Or.inr (Or.inl rfl)⟩
    rw [if_neg hhl]
    set accF := setSsh acc
        (alUpdate k
          (fun u => { u with state := TunnelState.failed,
                             restart_count := u.restart_count + 1 })
          acc.ssh_tunnels) with hFdef
    have hFlook : alLookup k accF.ssh_tunnels =
        some { c0 with state := TunnelState.failed,
                       restart_count := c0.restart_count + 1 } := by
      rw [hFdef]
      dsimp only [setSsh]
      rw [alLookup_alUpdate_self, hc]
      rfl
    by_cases hb : c0.restart_count + 1 ≤ cfg.max_retries
    · rw [if_pos hb]
      set accS := (stop_ssh_tunnel accF k.1 k.2 (env.removeOk k.1 k.2)).1 with hSdef
      set r := start_ssh_tunnel accS k.1 k.2 p.local_port c0.socks5_port
        (env.sshRestart k.1 k.2) with hRdef
      have hSlook : alLookup k accS.ssh_tunnels =
          some (sshStopClear { c0 with state := TunnelState.failed,
                                       restart_count := c0.restart_count + 1 }) := by
        rw [hSdef, stop_ssh_ssh_eq, alLookup_alUpdate_self, hFlook]
        rfl
      by_cases hok : r.2 = true
      · rw [if_pos hok]
        rw [hRdef, start_ssh_ret] at hok
        have hRlook : alLookup k r.1.ssh_tunnels =
            some (sshStarted (env.sshRestart k.1 k.2)
              (sshStopClear { c0 with state := TunnelState.failed,
                                      restart_count := c0.restart_count + 1 })) := by
          rw [hRdef, start_ssh_ssh_eq, if_pos hok, alLookup_alUpdate_self, hSlook]
          rfl
        refine ⟨{ sshStarted (env.sshRestart k.1 k.2)
            (sshStopClear { c0 with state := TunnelState.failed,
                                    restart_count := c0.restart_count + 1 }) with
            restart_count := 0 }, ?_, Or.inl rfl⟩
        dsimp only [setSsh]
        rw [alLookup_alUpdate_self, hRlook]
        rfl
      · rw [if_neg hok]
        rw [hRdef, start_ssh_ret] at hok
        refine ⟨sshStopClear { c0 with state := TunnelState.failed,
                                       restart_count := c0.restart_count + 1 },
          ?_, Or.inr (Or.inr rfl)⟩
        rw [hRdef, start_ssh_ssh_eq, if_neg hok]
        exact hSlook
    · rw [if_neg hb]
      refine ⟨sshStopClear { c0 with state := TunnelState.failed,
                                     restart_count := c0.restart_count + 1 },
        ?_, Or.inr (Or.inr rfl)⟩
      rw [stop_ssh_ssh_eq, alLookup_alUpdate_self, hFlook]
      rfl

theorem bodyP_parent_recover (cfg : Config) (env : MonitorEnv) (acc : ManagerState)
    (j : Nat) (p0 : DNSTTTunnel) (hp : alLookup j acc.dnstt_tunnels = some p0)
    (hpr : p0.state = TunnelState.running)
    (hdead : (pidAliveWith env.pidExists p0.pid && env.dnsttPortOk j) = false)
    (hb : p0.restart_count + 1 ≤ cfg.max_retries)
    (hok : (env.dnsttRestart j).ok = true) :
    ∃ p1, alLookup j (monitorParentBody cfg env acc j).dnstt_tunnels = some p1 ∧
      p1.state = TunnelState.running ∧ p1.restart_count = 0 := by
  unfold monitorParentBody
  rw [hp]
  dsimp only
  rw [if_neg (not_not_intro hpr)]
  have hcond : ¬ ((pidAliveWith env.pidExists p0.pid && env.dnsttPortOk j) = true) := by
    rw [hdead]
    exact Bool.false_ne_true
  rw [if_neg hcond, if_pos hb]
  set accF := setDnstt acc
    (alUpdate j
      (fun u => { u with state := TunnelState.failed,
                         restart_count := u.restart_count + 1 })
      acc.dnstt_tunnels) with hFdef
  set accS := (stop_dnstt_tunnel accF j (env.removeOk j)).1 with hSdef
  set r := start_dnstt_tunnel accS j p0.local_port (env.dnsttRestart j) with hRdef
  have hr2 : r.2 = true := by
    rw [hRdef, start_dnstt_ret]
    exact hok
  rw [if_pos hr2]
  have hFlook : alLookup j accF.dnstt_tunnels =
      some { p0 with state := TunnelState.failed,
                     restart_count := p0.restart_count + 1 } := by
    rw [hFdef]
    dsimp only [setDnstt]
    rw [alLookup_alUpdate_self, hp]
    rfl
  have hSlook : alLookup j accS.dnstt_tunnels =
      some (dnsttStopClear { p0 with state := TunnelState.failed,
                                     restart_count := p0.restart_count + 1 }) := by
    rw [hSdef, stop_dnstt_dnstt_eq, alLookup_alUpdate_self, hFlook]
    rfl
  have hRlook : alLookup j r.1.dnstt_tunnels =
      some (dnsttStarted (env.dnsttRestart j)
        (dnsttStopClear { p0 with state := TunnelState.failed,
                                  restart_count := p0.restart_count + 1 })) := by
    rw [hRdef, start_dnstt_dnstt_eq, if_pos hok, alLookup_alUpdate_self, hSlook]
    rfl
  refine ⟨{ dnsttStarted (env.dnsttRestart j)
      (dnsttStopClear { p0 with state := TunnelState.failed,
                                restart_count := p0.restart_count + 1 }) with
      restart_count := 0 }, ?_, rfl, rfl⟩
  dsimp only [setDnstt]
  rw [alLookup_alUpdate_self, foldRestart_dnstt_eq, hRlook]
  rfl

theorem monitor_pass_parent_recovery (cfg : Config) (env : MonitorEnv)
    (s : ManagerState) (t : Nat) (p0 : DNSTTTunnel)
    (hndD : (s.dnstt_tunnels.map Prod.fst).Nodup)
    (hp : alLookup t s.dnstt_tunnels = some p0)
    (hpr : p0.state = TunnelState.running)
    (hdead : (pidAliveWith env.pidExists p0.pid && env.dnsttPortOk t) = false)
    (hb : p0.restart_count + 1 ≤ cfg.max_retries)
    (hok : (env.dnsttRestart t).ok = true) :
    ∃ p1, alLookup t (monitor_pass cfg s env).dnstt_tunnels = some p1 ∧
      p1.state = TunnelState.running ∧ p1.restart_count = 0 := by
  unfold monitor_pass
  dsimp only
  rw [foldC_dnstt_eq]
  have hmem : t ∈ s.dnstt_tunnels.map Prod.fst :=
    List.mem_map.mpr ⟨(t, p0), alLookup_mem hp, rfl⟩
  rcases List.append_of_mem hmem with ⟨L1, L2, hsplit⟩
  have hnd2 := hndD
  rw [hsplit] at hnd2
  rcases List.nodup_append.mp hnd2 with ⟨_, hndR, hdisj⟩
  have hL2 : t ∉ L2 := (List.nodup_cons.mp hndR).1
  have hL1 : t ∉ L1 := fun hm => hdisj hm (List.mem_cons_self _ _)
  rw [hsplit, List.foldl_append, List.foldl_cons]
  have ha1 : alLookup t (L1.foldl (monitorParentBody cfg env) s).dnstt_tunnels =
      some p0 := by
    rw [segP_dnstt cfg env t L1 s hL1]
    exact hp
  rcases bodyP_parent_recover cfg env _ t p0 ha1 hpr hdead hb hok with ⟨p1, h1, h2, h3⟩
  refine ⟨p1, ?_, h2, h3⟩
  rw [segP_dnstt cfg env t L2 _ hL2]
  exact h1

/-- C7 (amended): across one monitor pass, every record's `restart_count`
either resets to 0, stays unchanged, or increments by exactly one (monotone
within a failure episode); a parent the DNSTT check successfully restarts
and a child the SSH check itself successfully restarts both end the pass
with `restart_count = 0`.  (A child restarted as part of its parent's
recovery keeps its old count.) -/
theorem restart_count_evolution (cfg : Config) (env : MonitorEnv) (s : ManagerState)
    (hndD : (s.dnstt_tunnels.map Prod.fst).Nodup)
    (hndS : (s.ssh_tunnels.map Prod.fst).Nodup) :
    (∀ (t : Nat) (p0 p1 : DNSTTTunnel),
       alLookup t s.dnstt_tunnels = some p0 →
       alLookup t (monitor_pass cfg s env).dnstt_tunnels = some p1 →
       p1.restart_count = 0 ∨ p1.restart_count = p0.restart_count ∨
         p1.restart_count = p0.restart_count + 1) ∧
    (∀ (k : Nat × Nat) (c0 c1 : SSHTunnel),
       alLookup k s.ssh_tunnels = some c0 →
       alLookup k (monitor_pass cfg s env).ssh_tunnels = some c1 →
       c1.restart_count = 0 ∨ c1.restart_count = c0.restart_count ∨
         c1.restart_count = c0.restart_count + 1) ∧
    (∀ (k : Nat × Nat) (p : DNSTTTunnel) (c : SSHTunnel),
       alLookup k.1 s.dnstt_tunnels = some p →
       p.state = TunnelState.running →
       (pidAliveWith env.pidExists p.pid && env.dnsttPortOk k.1) = true →
       alLookup k s.ssh_tunnels = some c →
       c.state = TunnelState.running →
       (pidAliveWith env.pidExists c.pid && env.sshHealthy k.1 k.2) = false →
       c.restart_count + 1 ≤ cfg.max_retries →
       (env.sshRestart k.1 k.2).ok = true →
       ∃ c', alLookup k (monitor_pass cfg s env).ssh_tunnels = some c' ∧
         c'.state = TunnelState.running ∧ c'.restart_count = 0) ∧
    (∀ (t : Nat) (p : DNSTTTunnel),
       alLookup t s.dnstt_tunnels = some p →
       p.state = TunnelState.running →
       (pidAliveWith env.pidExists p.pid && env.dnsttPortOk t) = false →
       p.restart_count + 1 ≤ cfg.max_retries →
       (env.dnsttRestart t).ok = true →
       ∃ p', alLookup t (monitor_pass cfg s env).dnstt_tunnels = some p' ∧
         p'.state = TunnelState.running ∧ p'.restart_count = 0) := by
  refine ⟨?_, ?_, ?_, ?_⟩
  · intro t p0 p1 hp0 hp1
    unfold monitor_pass at hp1
    dsimp only at hp1
    rw [foldC_dnstt_eq] at hp1
    have hmem : t ∈ s.dnstt_tunnels.map Prod.fst :=
      List.mem_map.mpr ⟨(t, p0), alLookup_mem hp0, rfl⟩
    rcases List.append_of_mem hmem with ⟨L1, L2, hsplit⟩
    have hnd2 := hndD
    rw [hsplit] at hnd2
    rcases List.nodup_append.mp hnd2 with ⟨_, hndR, hdisj⟩
    have hL2 : t ∉ L2 := (List.nodup_cons.mp hndR).1
    have hL1 : t ∉ L1 := fun hm => hdisj hm (List.mem_cons_self _ _)
    rw [hsplit, List.foldl_append, List.foldl_cons] at hp1
    have ha1 : alLookup t (L1.foldl (monitorParentBody cfg env) s).dnstt_tunnels =
        some p0 := by
      rw [segP_dnstt cfg env t L1 s hL1]
      exact hp0
    rcases bodyP_rc_evolution cfg env _ t p0 ha1 with ⟨p1', hp1', hrel⟩
    rw [segP_dnstt cfg env t L2 _ hL2, hp1'] at hp1
    injection hp1 with h
    rw [← h]
    exact hrel
  · intro k c0 c1 hc0 hc1
    unfold monitor_pass at hc1
    dsimp only at hc1
    rw [foldP_ssh_keys] at hc1
    have hrc := foldP_ssh_rc cfg env (s.dnstt_tunnels.map Prod.fst) s k
    set s1 := (s.dnstt_tunnels.map Prod.fst).foldl (monitorParentBody cfg env) s
      with hs1def
    cases hmid : alLookup k s1.ssh_tunnels with
    | none =>
      rw [hmid, hc0] at hrc
      simp at hrc
    | some cm =>
      have hcmrc : cm.restart_count = c0.restart_count := by
        rw [hmid, hc0] at hrc
        simpa using hrc
      have hkm : k ∈ s.ssh_tunnels.map Prod.fst :=
        List.mem_map.mpr ⟨(k, c0), alLookup_mem hc0, rfl⟩
      rcases List.append_of_mem hkm with ⟨L1, L2, hsplit⟩
      have hnd2 := hndS
      rw [hsplit] at hnd2
      rcases List.nodup_append.mp hnd2 with ⟨_, hndR, hdisj⟩
      have hL2 : k ∉ L2 := (List.nodup_cons.mp hndR).1
      have hL1 : k ∉ L1 := fun hm => hdisj hm (List.mem_cons_self _ _)
      rw [hsplit, List.foldl_append, List.foldl_cons] at hc1
      have ha1 : alLookup k (L1.foldl (monitorChildBody cfg env) s1).ssh_tunnels =
          some cm := by
        rw [segC_ssh cfg env k L1 s1 hL1]
        exact hmid
      rcases bodyC_rc_evolution cfg env _ k cm ha1 with ⟨c1', hc1', hrel⟩
      rw [segC_ssh cfg env k L2 _ hL2, hc1'] at hc1
      injection hc1 with h
      rw [← h, ← hcmrc]
      exact hrel
  · intro k p c hp hpr hph hc hcr hdead hb hok
    exact monitor_pass_child_recovery cfg env s k p c hndS hp hpr hph hc hcr hdead hb hok
  · intro t p hp hpr hdead hb hok
    exact monitor_pass_parent_recovery cfg env s t p hndD hp hpr hdead hb hok

/-- Witness: the restart-count evolution instantiated on the one-parent
one-child fleet with the child's process killed. -/
theorem restart_count_evolution_witness :
    (∀ (t : Nat) (p0 p1 : DNSTTTunnel),
       alLookup t witnessFleet.dnstt_tunnels = some p0 →
       alLookup t (monitor_pass cleanCfg witnessFleet recEnv).dnstt_tunnels = some p1 →
       p1.restart_count = 0 ∨ p1.restart_count = p0.restart_count ∨
         p1.restart_count = p0.restart_count + 1) ∧
    (∀ (k : Nat × Nat) (c0 c1 : SSHTunnel),
       alLookup k witnessFleet.ssh_tunnels = some c0 →
       alLookup k (monitor_pass cleanCfg witnessFleet recEnv).ssh_tunnels = some c1 →
       c1.restart_count = 0 ∨ c1.restart_count = c0.restart_count ∨
         c1.restart_count = c0.restart_count + 1) ∧
    (∀ (k : Nat × Nat) (p : DNSTTTunnel) (c : SSHTunnel),
       alLookup k.1 witnessFleet.dnstt_tunnels = some p →
       p.state = TunnelState.running →
       (pidAliveWith recEnv.pidExists p.pid && recEnv.dnsttPortOk k.1) = true →
       alLookup k witnessFleet.ssh_tunnels = some c →
       c.state = TunnelState.running →
       (pidAliveWith recEnv.pidExists c.pid && recEnv.sshHealthy k.1 k.2) = false →
       c.restart_count + 1 ≤ cleanCfg.max_retries →
       (recEnv.sshRestart k.1 k.2).ok = true →
       ∃ c', alLookup k (monitor_pass cleanCfg witnessFleet recEnv).ssh_tunnels =
           some c' ∧
         c'.state = TunnelState.running ∧ c'.restart_count = 0) ∧
    (∀ (t : Nat) (p : DNSTTTunnel),
       alLookup t witnessFleet.dnstt_tunnels = some p →
       p.state = TunnelState.running →
       (pidAliveWith recEnv.pidExists p.pid && recEnv.dnsttPortOk t) = false →
       p.restart_count + 1 ≤ cleanCfg.max_retries →
       (recEnv.dnsttRestart t).ok = true →
       ∃ p', alLookup t (monitor_pass cleanCfg witnessFleet recEnv).dnstt_tunnels =
           some p' ∧
         p'.state = TunnelState.running ∧ p'.restart_count = 0) :=
  restart_count_evolution cleanCfg recEnv witnessFleet (by decide) (by decide)

/-- One parent, one child; the child's pid 100 is the only live process in
pass 1 (the child's 200 was killed and its re-spawn fails), and in pass 2 the
parent's old pid 100 is gone while the fresh pids 101/201 live. -/
def c7cfg : Config :=
  { dnstt_count := 1, ssh_per_dnstt := 1, dnstt_start_port := 1080,
    socks_start_port := 9090, socks_ports_per_tunnel := 100, max_retries := 5 }

def c7env1 : MonitorEnv :=
  { pidExists := fun pid => pid == 100,
    dnsttPortOk := fun _ => true,
    dnsttRestart := fun _ => ⟨true, 100⟩,
    sshHealthy := fun _ _ => true,
    sshRestart := fun _ _ => ⟨false, 0, none⟩,
    removeOk := fun _ _ => true }

def c7env2 : MonitorEnv :=
  { pidExists := fun pid => pid == 101 || pid == 201,
    dnsttPortOk := fun _ => true,
    dnsttRestart := fun _ => ⟨true, 101⟩,
    sshHealthy := fun _ _ => true,
    sshRestart := fun _ _ => ⟨true, 201, some "B"⟩,
    removeOk := fun _ _ => true }

def c7s0 : ManagerState :=
  initTunnels c7cfg ManagerState.empty (fun _ => ⟨true, 100⟩)
    (fun _ _ => ⟨true, 200, some "A"⟩)

def c7s1 : ManagerState := monitor_pass c7cfg c7s0 c7env1

def c7s2 : ManagerState := monitor_pass c7cfg c7s1 c7env2

/-- C7 (counterexample to the literal claim): in pass 2 the monitor loop
successfully restarts child (0,0) as part of its parent's recovery — the
record goes from STOPPED to RUNNING — yet its `restart_count` stays 1, not 0:
the parent-recovery path never resets the children's counters. -/
theorem restart_count_reset_cex :
    (alLookup (0, 0) c7s1.ssh_tunnels).map (fun u => (u.state, u.restart_count)) =
        some (TunnelState.stopped, 1) ∧
    (alLookup (0, 0) c7s2.ssh_tunnels).map (fun u => (u.state, u.restart_count)) =
        some (TunnelState.running, 1) := by
  decide

/-- Witness: port disjointness at the clean configuration (stride 100 ≥ 3,
DNSTT range 1080..1082 below SOCKS base 9090). -/
theorem plan_port_disjointness_witness :
    (∀ ce ∈ (createRecords cleanCfg ManagerState.empty).ssh_tunnels,
     ∀ ce' ∈ (createRecords cleanCfg ManagerState.empty).ssh_tunnels,
       ce.1 ≠ ce'.1 → ce.2.socks5_port ≠ ce'.2.socks5_port) ∧
    (∀ pe ∈ (createRecords cleanCfg ManagerState.empty).dnstt_tunnels,
     ∀ pe' ∈ (createRecords cleanCfg ManagerState.empty).dnstt_tunnels,
       pe.1 ≠ pe'.1 → pe.2.local_port ≠ pe'.2.local_port) ∧
    (∀ pe ∈ (createRecords cleanCfg ManagerState.empty).dnstt_tunnels,
     ∀ ce ∈ (createRecords cleanCfg ManagerState.empty).ssh_tunnels,
       pe.2.local_port ≠ ce.2.socks5_port) :=
  plan_port_disjointness cleanCfg (by decide) (by decide)
